import Mathlib

/-!
Verification of the audio-to-notation analysis pipeline of the maqam-tab
repository (`frontend/src/utils/maqamDetection.js` together with the catalog in
`frontend/src/utils/maqamat.js`).

JavaScript numbers are modelled as exact rationals (`ℚ`); the claims under
study never depend on floating-point rounding.  JavaScript exceptions
(`TypeError` on a property read of `undefined`) are modelled with
`Except Unit`; fields that can be `undefined` at runtime are `Option`s.
Catalog fields that the detection pipeline never reads (tier, family,
tradition, dominant, leading, gestures, jins, relatedMaqamat, description)
are omitted from the embedding, as are the output fields that merely echo
them.  The embedding assumes nonnegative `midi` values where JavaScript's
sign-sensitive `%` would otherwise write to negative array indices.
-/

namespace MaqamTab

/-- JavaScript `Math.round`: round half toward positive infinity.
Stated via the computable `Rat.floor` so that concrete runs reduce in the
kernel; `jsRound_eq` restates it with `Int.floor`. -/
def jsRound (x : ℚ) : ℤ := (x + 1/2).floor

/-- Truncation toward zero, as JavaScript's number-to-integer conversion. -/
def jsTrunc (x : ℚ) : ℤ := if 0 ≤ x then x.floor else -((-x).floor)

/-- JavaScript `%` on numbers: remainder with the sign of the dividend. -/
def jsMod (a b : ℚ) : ℚ := a - b * (jsTrunc (a / b) : ℚ)

/-- JavaScript `x || d` for numbers: `d` when `x` is falsy (here: zero). -/
def jsOrDefault (x d : ℚ) : ℚ := if x = 0 then d else x

/-- JavaScript `x || d` where `x` is a possibly-absent number. -/
def jsOrElse (x : Option ℚ) (d : ℚ) : ℚ :=
  match x with
  | none => d
  | some v => if v = 0 then d else v

/-- Decidable equality on `Except`, used to evaluate the embedded
exception-aware functions on concrete inputs. -/
instance instDecEqExcept {ε α : Type} [DecidableEq ε] [DecidableEq α] :
    DecidableEq (Except ε α)
  | .error e, .error f =>
    if h : e = f then .isTrue (by rw [h]) else .isFalse (by simp [h])
  | .error _, .ok _ => .isFalse (by simp)
  | .ok _, .error _ => .isFalse (by simp)
  | .ok a, .ok b =>
    if h : a = b then .isTrue (by rw [h]) else .isFalse (by simp [h])

/-- Minimum of a list, as `Math.min(...values)` on a nonempty array. -/
def listMin (l : List ℚ) : ℚ := l.foldr min (l.headD 0)

/-- Maximum of a list, as `Math.max(...values)` on a nonempty array. -/
def listMax (l : List ℚ) : ℚ := l.foldr max (l.headD 0)

/-- A musical note as produced by the pitch tracker / editor:
`{midi, time, duration, frequency}`. -/
structure Note where
  midi : ℚ
  time : ℚ
  duration : ℚ
  frequency : ℚ
deriving DecidableEq, Repr, Inhabited

/-! ## Quantizer (`quantizeNotes`) -/

/-- The own data properties of the `gridValues` object literal of
`quantizeNotes`; `none` means the string is not one of its four keys. -/
def gridValuesOwn (grid : String) (beatDuration : ℚ) : Option ℚ :=
  if grid = "1/4" then some beatDuration
  else if grid = "1/8" then some (beatDuration / 2)
  else if grid = "1/16" then some (beatDuration / 4)
  else if grid = "1/32" then some (beatDuration / 8)
  else none

/-- Property names a plain object literal inherits from `Object.prototype`:
for these, `gridValues[grid]` resolves through the prototype chain to a
truthy function or object instead of `undefined`. -/
def objectPrototypeMemberNames : List String :=
  ["constructor", "hasOwnProperty", "isPrototypeOf", "propertyIsEnumerable",
   "toLocaleString", "toString", "valueOf",
   "__defineGetter__", "__defineSetter__", "__lookupGetter__",
   "__lookupSetter__", "__proto__"]

/-- Outcome of the full JavaScript property lookup `gridValues[grid]`:
a numeric own data property, a truthy non-number inherited from
`Object.prototype`, or `undefined`. -/
inductive GridLookup where
  | num (q : ℚ)
  | protoMember
  | undefined
deriving DecidableEq, Repr

/-- The full JavaScript lookup `gridValues[grid]`: own properties first,
then the `Object.prototype` chain. -/
def gridValue (grid : String) (beatDuration : ℚ) : GridLookup :=
  match gridValuesOwn grid beatDuration with
  | some q => GridLookup.num q
  | none =>
    if grid ∈ objectPrototypeMemberNames then GridLookup.protoMember
    else GridLookup.undefined

/-- The effective grid duration `gridValues[grid] || gridValues["1/8"]` on
the numeric domain.  When the lookup hits an inherited `Object.prototype`
member the real value is a truthy function, the `||` does not fire, and all
later arithmetic on it is NaN — that case has no rational value and is
treated by the C10 theorems through `gridValue`. -/
def gridDur (tempo : ℚ) (grid : String) : ℚ :=
  let beatDuration := 60 / tempo
  jsOrElse (gridValuesOwn grid beatDuration) (beatDuration / 2)

/-- Quantize note timings (`quantizeNotes(notes, tempo, grid)`). -/
def quantizeNotes (notes : List Note) (tempo : ℚ) (grid : String) : List Note :=
  let g := gridDur tempo grid
  notes.map fun note =>
    { note with
      time := (jsRound (note.time / g) : ℚ) * g
      duration := max (g * (1/2)) ((jsRound (note.duration / g) : ℚ) * g) }

/-! ## Onset detector (`detectOnsets`) -/

/-- Spectral flux of the 1024-sample frame starting at `start`:
sum over `j = 1..1023` of `max 0 (|frame[j]| - |frame[j-1]|)`, divided by the
frame size. -/
def frameFlux (audioData : List ℚ) (start : ℕ) : ℚ :=
  (((List.range 1023).map fun j =>
      max 0 (|audioData.getD (start + j + 1) 0| - |audioData.getD (start + j) 0|)).sum) / 1024

/-- Loop state of `detectOnsets`. -/
structure OnsetState where
  prevSpectralFlux : ℚ
  fluxHistory : List ℚ
  onsets : List ℚ
deriving Repr

/-- One iteration of the `detectOnsets` loop at frame start `i`. -/
def onsetStep (audioData : List ℚ) (sampleRate : ℚ) (st : OnsetState) (i : ℕ) :
    OnsetState :=
  let flux := frameFlux audioData i
  let fluxHistory := st.fluxHistory ++ [flux]
  let onsets :=
    if 10 < fluxHistory.length then
      let recent := fluxHistory.drop (fluxHistory.length - 10)
      let mean := recent.sum / (recent.length : ℚ)
      let threshold := mean * (3/2)
      if threshold < flux ∧ st.prevSpectralFlux < flux then
        let time := (i : ℚ) / sampleRate
        match st.onsets.getLast? with
        | none => st.onsets ++ [time]
        | some last => if 1/20 < time - last then st.onsets ++ [time] else st.onsets
      else st.onsets
    else st.onsets
  { prevSpectralFlux := flux, fluxHistory := fluxHistory, onsets := onsets }

/-- Frame start indices of the loop `for (i = 0; i + 1024 < n; i += 256)`. -/
def frameStarts (n : ℕ) : List ℕ :=
  (List.range n).filter fun i => i % 256 = 0 ∧ i + 1024 < n

/-- Onset detection from raw audio samples (`detectOnsets`). -/
def detectOnsets (audioData : List ℚ) (sampleRate : ℚ) : List ℚ :=
  ((frameStarts audioData.length).foldl (onsetStep audioData sampleRate)
    ⟨0, [], []⟩).onsets

/-! ## Pitch estimator (`detectPitch`) -/

/-- YIN difference function `d[tau]` over a frame. -/
def dFun (frame : List ℚ) (tau : ℕ) : ℚ :=
  ((List.range (frame.length - tau)).map fun j =>
    (frame.getD j 0 - frame.getD (j + tau) 0) ^ 2).sum

/-- Running sum `d[1] + ... + d[tau]`. -/
def dRunningSum (frame : List ℚ) (tau : ℕ) : ℚ :=
  ((List.range tau).map fun t => dFun frame (t + 1)).sum

/-- Cumulative mean normalized difference `cmnd[tau]`; the `sum || 0.001`
guard of the source is modelled by `jsOrDefault`. -/
def cmnd (frame : List ℚ) (tau : ℕ) : ℚ :=
  if tau = 0 then 1
  else (tau : ℚ) * dFun frame tau / jsOrDefault (dRunningSum frame tau) (1/1000)

/-- First lag `tau` in `[minPeriod, maxPeriod)` with `cmnd[tau] < 0.1`. -/
def findLag (frame : List ℚ) (minPeriod maxPeriod : ℕ) : Option ℕ :=
  (List.range' minPeriod (maxPeriod - minPeriod)).find? fun tau =>
    decide (cmnd frame tau < 1/10)

/-- The lag refined by parabolic interpolation when not at the array edge. -/
def refinedTau (frame : List ℚ) (maxPeriod tau : ℕ) : ℚ :=
  if 0 < tau ∧ tau < maxPeriod - 1 then
    let s0 := cmnd frame (tau - 1)
    let s1 := cmnd frame tau
    let s2 := cmnd frame (tau + 1)
    let adjustment := (s2 - s0) / (2 * (2 * s1 - s2 - s0))
    (tau : ℚ) + adjustment
  else (tau : ℚ)

/-- Pitch detection by the simplified YIN algorithm (`detectPitch`). -/
def detectPitch (frame : List ℚ) (sampleRate : ℚ) : Option ℚ :=
  let minPeriod := (sampleRate / 2000).floor.toNat
  let maxPeriod := (sampleRate / 50).floor.toNat
  (findLag frame minPeriod maxPeriod).map fun tau =>
    sampleRate / refinedTau frame maxPeriod tau

/-! ## Maqam catalog (`maqamat.js`, fields read by the detector) -/

/-- Seyir descriptor of a catalog entry; `dominantRegion` is optional because
the source guards its use with a truthiness test (every entry supplies it). -/
structure Seyir where
  type : String
  start : String
  dominantRegion : Option (ℚ × ℚ)
deriving DecidableEq, Repr

/-- A maqam template (the fields of a `MAQAMAT` entry that detection reads). -/
structure Maqam where
  name : String
  intervals : List ℚ
  characteristic : List ℚ
  seyir : Seyir
deriving DecidableEq, Repr

/-! ## Histogram construction (`buildMicrotonalHistogram`) -/

/-- Pitch class of a note in cents, as computed by the source:
`((midi % 12) * 100 + (midi % 1) * 100) % 1200`. -/
def centsInOctave (n : Note) : ℚ :=
  jsMod (jsMod n.midi 12 * 100 + jsMod n.midi 1 * 100) 1200

/-- Histogram bin index of a note: `Math.round(centsInOctave / 10) % 120`.
For the nonnegative pitches the pipeline operates on, `Int.emod` agrees with
the JavaScript remainder. -/
def binIdx (n : Note) : ℤ := (jsRound (centsInOctave n / 10)) % 120

/-- Total duration `notes.reduce((s, n) => s + (n.duration || 0.1), 0)`. -/
def totalDuration (notes : List Note) : ℚ :=
  (notes.map fun n => jsOrDefault n.duration (1/10)).sum

/-- Value accumulated into raw histogram bin `b`: the duration weight at the
note's bin and the gaussian spread `weight * 0.3 * (1/d)` at distances
`d = 1, 2` on both sides (indices wrapped mod 120 as in the source). -/
def rawBin (notes : List Note) (b : ℤ) : ℚ :=
  (notes.map fun n =>
    let idx := binIdx n
    let w := jsOrDefault n.duration (1/10) / totalDuration notes
    let s1 := w * (3/10)
    let s2 := w * (3/10) * (1/2)
    (if idx = b then w else 0)
    + (if (idx + 1) % 120 = b then s1 else 0)
    + (if (idx - 1 + 120) % 120 = b then s1 else 0)
    + (if (idx + 2) % 120 = b then s2 else 0)
    + (if (idx - 2 + 120) % 120 = b then s2 else 0)).sum

/-- Normalization constant `Math.max(...bins, 0.001)`. -/
def maxBin (notes : List Note) : ℚ :=
  ((List.range 120).map fun b : ℕ => rawBin notes (b : ℤ)).foldr max (1/1000)

/-- The normalized 120-bin microtonal pitch-class histogram. -/
def buildMicrotonalHistogram (notes : List Note) : List ℚ :=
  (List.range 120).map fun b : ℕ => rawBin notes (b : ℤ) / maxBin notes

/-! ## Seyir analysis (`analyzeSeyir`) -/

/-- Result of `analyzeSeyir`.  `avgThird` and `dominantCents` are `Option`s:
the degenerate early returns of the source leave them `undefined`.  The
register-density fields and the normalized `score` triple, which nothing
downstream reads, are omitted. -/
structure SeyirAnalysis where
  type : String
  contour : List ℤ
  avgThird : Option (ℚ × ℚ × ℚ)
  dominantCents : Option ℚ
deriving DecidableEq, Repr

/-- Section index (0, 1 or 2) of a note starting at accumulated time `t`:
`Math.min(2, Math.floor(t / third))`, clamped at 0 for the nonnegative
durations the pipeline produces. -/
def sectionIdx (t third : ℚ) : ℕ := (min 2 (t / third).floor).toNat

/-- Section index of each note, threading the accumulated duration `t`. -/
def sectionsOf (third : ℚ) : ℚ → List ℚ → List ℕ
  | _, [] => []
  | t, d :: rest => sectionIdx t third :: sectionsOf third (t + d) rest

/-- Duration of each note with the `n.duration || 0.1` default. -/
def durationsOf (notes : List Note) : List ℚ :=
  notes.map fun n => jsOrDefault n.duration (1/10)

/-- The `midi` pitch of each note. -/
def pitchesOf (notes : List Note) : List ℚ := notes.map (·.midi)

/-- Observed pitch range `maxPitch - minPitch`. -/
def pitchRange (notes : List Note) : ℚ :=
  listMax (pitchesOf notes) - listMin (pitchesOf notes)

/-- Pitches normalized to [0, 1] by the observed min and range. -/
def normPitchesOf (notes : List Note) : List ℚ :=
  (pitchesOf notes).map fun p =>
    (p - listMin (pitchesOf notes)) / pitchRange notes

/-- Section index of each note (split of the melody into duration thirds). -/
def sectionListOf (notes : List Note) : List ℕ :=
  sectionsOf ((durationsOf notes).sum / 3) 0 (durationsOf notes)

/-- Mean normalized pitch of the notes falling in section `j`
(`0.5` when the section is empty, as in the source). -/
def avgThirdOf (notes : List Note) (j : ℕ) : ℚ :=
  let arr := (((normPitchesOf notes).zip (sectionListOf notes)).filter
    fun p => p.2 = j).map (·.1)
  if arr.length = 0 then 1/2 else arr.sum / (arr.length : ℚ)

/-- Step-direction contour: −1 / 0 / +1 per consecutive normalized pitch
pair, with the 0.05 static threshold. -/
def contourOf (notes : List Note) : List ℤ :=
  ((normPitchesOf notes).zip (normPitchesOf notes).tail).map fun pq =>
    let diff := pq.2 - pq.1
    if |diff| < 1/20 then (0 : ℤ) else if 0 < diff then 1 else -1

/-- The `ascending` hypothesis score of the seyir analysis. -/
def ascendingScore (notes : List Note) : ℚ := max 0
  ((if avgThirdOf notes 0 < 2/5 then (1 : ℚ) else 0) * 2
    + (if 1/2 < avgThirdOf notes 2 then (1 : ℚ) else 0) * (3/2)
    + (((contourOf notes).filter (· = 1)).length : ℚ)
        / ((contourOf notes).length : ℚ) * 1)

/-- The `descending` hypothesis score of the seyir analysis. -/
def descendingScore (notes : List Note) : ℚ := max 0
  ((if 3/5 < avgThirdOf notes 0 then (1 : ℚ) else 0) * 2
    + (if avgThirdOf notes 2 < 2/5 then (1 : ℚ) else 0) * (3/2)
    + (((contourOf notes).filter (· = -1)).length : ℚ)
        / ((contourOf notes).length : ℚ) * 1)

/-- The `mixed` hypothesis score of the seyir analysis. -/
def mixedScore (notes : List Note) : ℚ := max 0
  ((if |avgThirdOf notes 0 - avgThirdOf notes 2| < 1/5 then (1 : ℚ) else 0) * 2
    + (if avgThirdOf notes 0 < avgThirdOf notes 1 ∧ avgThirdOf notes 2 < avgThirdOf notes 1
        then (1 : ℚ) else 0) * (3/2))

/-- Duration-weighted mean pitch class
(`dominantCents` of the seyir analysis, source lines 163-174). -/
def dominantCentsOf (notes : List Note) : ℚ :=
  let sumCentsWeight := (notes.map fun n =>
    jsMod (jsMod n.midi 12 * 100) 1200 * jsOrDefault n.duration (1/10)).sum
  let sumWeight := (notes.map fun n => jsOrDefault n.duration (1/10)).sum
  sumCentsWeight / sumWeight

/-- Melodic seyir analysis (`analyzeSeyir`); the local values of the source
are the named stage functions above (the normalized `0.33/0.33/0.34` score
triple of the degenerate branch is omitted: nothing downstream reads it). -/
def analyzeSeyir (notes : List Note) : SeyirAnalysis :=
  if notes.length < 2 then
    -- source: `{ type: "ascending", contour: [], score: {} }`
    { type := "ascending", contour := [], avgThird := none, dominantCents := none }
  else if pitchRange notes = 0 then
    -- source: `{ type: "mixed", contour: [], score: {0.33, 0.33, 0.34} }`
    -- (no avgThird, no dominantCents)
    { type := "mixed", contour := [], avgThird := none, dominantCents := none }
  else
    { type :=
        if descendingScore notes < ascendingScore notes
            ∧ mixedScore notes < ascendingScore notes then "ascending"
        else if ascendingScore notes < descendingScore notes
            ∧ mixedScore notes < descendingScore notes then "descending"
        else "mixed"
      contour := contourOf notes
      avgThird := some (avgThirdOf notes 0, avgThirdOf notes 1, avgThirdOf notes 2)
      dominantCents := some (dominantCentsOf notes) }

/-! ## Candidate scoring (`scoreMaqam`) -/

/-- Composite score breakdown returned by `scoreMaqam`. -/
structure Score where
  total : ℚ
  pcScore : ℚ
  charScore : ℚ
  penalty : ℚ
  seyirScore : ℚ
deriving DecidableEq, Repr

/-- Histogram array access `histogram[j]` for an in-range index. -/
def binAt (histogram : List ℚ) (j : ℤ) : ℚ := histogram.getD j.toNat 0

/-- Target bin of an interval relative to a root:
`Math.round(((rootCents + interval) % 1200) / 10) % 120`. -/
def targetBinOf (rootCents : ℚ) (interval : ℚ) : ℤ :=
  (jsRound (jsMod (rootCents + interval) 1200 / 10)) % 120

/-- Best histogram value within ±2 bins of a target bin (±20 cents). -/
def bestNear (histogram : List ℚ) (targetBin : ℤ) : ℚ :=
  [-2, -1, 0, 1, 2].foldl
    (fun best d => max best (binAt histogram ((targetBin + d + 120) % 120))) 0

/-- Score one maqam template against the observed material (`scoreMaqam`).
The result is an `Except` because the source reads
`seyirAnalysis.avgThird[0]` whenever the template's seyir start is `"lower"`
or `"upper"`, which throws a `TypeError` when `avgThird` is `undefined`
(degenerate-range input).  The `dominantCents` read only feeds comparisons,
where `undefined` yields `NaN` and the comparisons are false, hence no bonus
and no error. -/
def scoreMaqam (maqam : Maqam) (histogram : List ℚ)
    (seyirAnalysis : SeyirAnalysis) (root : ℤ) : Except Unit Score :=
  let rootCents : ℚ := ((root * 100).tmod 1200 : ℤ)
  let pcScore :=
    ((maqam.intervals.map fun interval =>
        bestNear histogram (targetBinOf rootCents interval)).sum
      / (maqam.intervals.length : ℚ)) * 50
  let charRaw := (maqam.characteristic.map fun charInterval =>
    bestNear histogram (targetBinOf rootCents charInterval) * 2).sum
  let charScore := min 20 (charRaw * (20 / ((maqam.characteristic.length : ℚ) * 2)))
  let scaleSet := maqam.intervals.map fun i =>
    jsRound (jsMod (rootCents + i) 1200 / 10)
  let penalty0 := ((List.range 120).map fun bin =>
    let h := histogram.getD bin 0
    if 1/10 < h then
      if [-2, -1, 0, 1, 2].any (fun d => (((bin : ℤ) + d + 120) % 120) ∈ scaleSet)
      then 0 else h * 5
    else 0).sum
  let penalty := min 10 penalty0
  let base : ℚ :=
    if maqam.seyir.type = seyirAnalysis.type then 20
    else if maqam.seyir.type = "mixed" ∨ seyirAnalysis.type = "mixed" then 10
    else 5
  let domBonus : ℚ :=
    match maqam.seyir.dominantRegion with
    | none => 0
    | some (lo, hi) =>
      match seyirAnalysis.dominantCents with
      | none => 0  -- `undefined` arithmetic gives NaN; both comparisons false
      | some dc =>
        let observedDom := jsMod (dc - rootCents + 1200) 1200
        if lo - 50 ≤ observedDom ∧ observedDom ≤ hi + 50 then 5 else 0
  do
    let lowerBonus : ℚ ←
      if maqam.seyir.start = "lower" then
        match seyirAnalysis.avgThird with
        | none => Except.error ()  -- TypeError: reading [0] of undefined
        | some a => pure (if a.1 < 2/5 then 3 else 0)
      else pure 0
    let upperBonus : ℚ ←
      if maqam.seyir.start = "upper" then
        match seyirAnalysis.avgThird with
        | none => Except.error ()  -- TypeError: reading [0] of undefined
        | some a => pure (if 3/5 < a.1 then 3 else 0)
      else pure 0
    let seyirScore := base + domBonus + lowerBonus + upperBonus
    let total := max 0 (pcScore + charScore - penalty + seyirScore)
    pure { total := total, pcScore := pcScore, charScore := charScore
           penalty := penalty, seyirScore := seyirScore }

/-! ## Root inference (`getPossibleRoots`) -/

/-- Accumulated weight of a pitch class: duration weight per note, with the
first and the last note contributing an extra double weight (likely-tonic
bias).  The positional test models the reference-equality `indexOf` checks
of the source for the usual case of distinct note objects. -/
def pcWeight (notes : List Note) (pc : ℤ) : ℚ :=
  (notes.enum.map fun ni =>
    if (jsRound ni.2.midi).tmod 12 = pc then
      jsOrDefault ni.2.duration (1/10)
        * (if ni.1 = 0 ∨ ni.1 = notes.length - 1 then 3 else 1)
    else 0).sum

/-- Whether some note falls in the pitch class (the key exists in the
`pitchWeights` object). -/
def pcPresent (notes : List Note) (pc : ℤ) : Bool :=
  notes.any fun n => (jsRound n.midi).tmod 12 = pc

/-- Most likely roots (`getPossibleRoots`): entries of the weight object in
ascending pitch-class order (JavaScript integer-key enumeration), stably
sorted by descending weight, first four kept. -/
def getPossibleRoots (notes : List Note) : List ℤ :=
  let entries := (List.range 12).filterMap fun pc =>
    if pcPresent notes (pc : ℤ) then some ((pc : ℤ), pcWeight notes (pc : ℤ))
    else none
  let sorted := entries.insertionSort fun a b => b.2 ≤ a.2
  (sorted.take 4).map (·.1)

/-! ## The `MAQAMAT` catalog, in object-literal insertion order -/

/-- Catalog entries as `(key, template)` pairs, exactly in the insertion
order of the `MAQAMAT` object literal (the order `Object.entries` yields). -/
def maqamatList : List (String × Maqam) := [
  ("rast",
   { name := "Rast", intervals := [0, 200, 350, 500, 700, 900, 1050, 1200],
     characteristic := [350, 700],
     seyir := { type := "ascending", start := "lower", dominantRegion := some (500, 900) } }),
  ("bayati",
   { name := "Bayati", intervals := [0, 150, 300, 500, 700, 800, 1000, 1200],
     characteristic := [150, 700],
     seyir := { type := "ascending", start := "lower", dominantRegion := some (500, 800) } }),
  ("hijaz",
   { name := "Hijaz", intervals := [0, 100, 400, 500, 700, 800, 1100, 1200],
     characteristic := [100, 400],
     seyir := { type := "descending", start := "middle", dominantRegion := some (700, 800) } }),
  ("nahawand",
   { name := "Nahawand", intervals := [0, 200, 300, 500, 700, 800, 1100, 1200],
     characteristic := [300, 700],
     seyir := { type := "descending", start := "upper", dominantRegion := some (200, 700) } }),
  ("ajam",
   { name := "Ajam", intervals := [0, 200, 400, 500, 700, 900, 1100, 1200],
     characteristic := [400, 1100],
     seyir := { type := "ascending", start := "lower", dominantRegion := some (400, 900) } }),
  ("husseini",
   { name := "Husseini", intervals := [0, 150, 350, 500, 700, 850, 1000, 1200],
     characteristic := [150, 350, 850],
     seyir := { type := "ascending", start := "lower", dominantRegion := some (500, 850) } }),
  ("saba",
   { name := "Saba", intervals := [0, 150, 300, 450, 700, 800, 1000, 1200],
     characteristic := [150, 450],
     seyir := { type := "ascending", start := "lower", dominantRegion := some (150, 500) } }),
  ("kurd",
   { name := "Kurd", intervals := [0, 100, 300, 500, 700, 800, 1000, 1200],
     characteristic := [100, 300],
     seyir := { type := "descending", start := "middle", dominantRegion := some (200, 700) } }),
  ("sikah",
   { name := "Sikah", intervals := [0, 150, 350, 500, 700, 850, 1050, 1200],
     characteristic := [150, 350],
     seyir := { type := "ascending", start := "lower", dominantRegion := some (350, 700) } }),
  ("hicazkar",
   { name := "Hicazkar", intervals := [0, 100, 400, 500, 700, 800, 1100, 1200],
     characteristic := [100, 400, 800],
     seyir := { type := "mixed", start := "lower", dominantRegion := some (400, 900) } }),
  ("ushshaq",
   { name := "Ushshaq", intervals := [0, 150, 300, 500, 700, 900, 1050, 1200],
     characteristic := [150, 300, 900],
     seyir := { type := "ascending", start := "lower", dominantRegion := some (500, 900) } }),
  ("nawa_athar",
   { name := "Nawa Athar", intervals := [0, 200, 300, 600, 700, 800, 1100, 1200],
     characteristic := [300, 600],
     seyir := { type := "descending", start := "upper", dominantRegion := some (200, 700) } }),
  ("nikriz",
   { name := "Nikriz", intervals := [0, 200, 300, 600, 700, 900, 1100, 1200],
     characteristic := [300, 600],
     seyir := { type := "ascending", start := "lower", dominantRegion := some (600, 900) } }),
  ("suznak",
   { name := "Suznak", intervals := [0, 200, 350, 500, 700, 800, 1100, 1200],
     characteristic := [350, 800, 1100],
     seyir := { type := "ascending", start := "lower", dominantRegion := some (500, 900) } }),
  ("segah",
   { name := "Segah", intervals := [0, 150, 350, 500, 700, 850, 1050, 1200],
     characteristic := [150, 350],
     seyir := { type := "ascending", start := "lower", dominantRegion := some (350, 700) } }),
  ("mahur",
   { name := "Mahur", intervals := [0, 200, 400, 500, 700, 900, 1100, 1200],
     characteristic := [400, 700],
     seyir := { type := "ascending", start := "lower", dominantRegion := some (400, 900) } }),
  ("chahargah",
   { name := "Chahargah", intervals := [0, 150, 400, 500, 700, 850, 1100, 1200],
     characteristic := [150, 400, 850],
     seyir := { type := "ascending", start := "lower", dominantRegion := some (500, 900) } }),
  ("shur",
   { name := "Shur", intervals := [0, 150, 300, 500, 700, 800, 1000, 1200],
     characteristic := [150, 300],
     seyir := { type := "descending", start := "upper", dominantRegion := some (300, 700) } }),
  ("dashti",
   { name := "Dashti", intervals := [0, 150, 300, 500, 700, 800, 950, 1200],
     characteristic := [150, 950],
     seyir := { type := "descending", start := "upper", dominantRegion := some (300, 700) } }),
  ("homayoun",
   { name := "Homayoun", intervals := [0, 150, 400, 500, 700, 800, 1100, 1200],
     characteristic := [150, 400],
     seyir := { type := "ascending", start := "lower", dominantRegion := some (500, 900) } }),
  ("shadd_araban",
   { name := "Shadd Araban", intervals := [0, 100, 400, 500, 700, 800, 1100, 1200],
     characteristic := [100, 400],
     seyir := { type := "descending", start := "upper", dominantRegion := some (400, 800) } }),
  ("zanjaran",
   { name := "Zanjaran", intervals := [0, 150, 300, 500, 700, 900, 1050, 1200],
     characteristic := [150, 900],
     seyir := { type := "ascending", start := "lower", dominantRegion := some (500, 900) } }),
  ("farahfaza",
   { name := "Farahfaza", intervals := [0, 200, 300, 500, 700, 800, 1000, 1200],
     characteristic := [300, 700, 800],
     seyir := { type := "descending", start := "upper", dominantRegion := some (200, 700) } }),
  ("iraq",
   { name := "Iraq", intervals := [0, 150, 350, 500, 650, 850, 1050, 1200],
     characteristic := [150, 650],
     seyir := { type := "ascending", start := "lower", dominantRegion := some (350, 700) } }),
  ("athar_kurd",
   { name := "Athar Kurd", intervals := [0, 100, 300, 600, 700, 800, 1100, 1200],
     characteristic := [100, 300, 600],
     seyir := { type := "descending", start := "upper", dominantRegion := some (300, 700) } }),
  ("jiharkah",
   { name := "Jiharkah", intervals := [0, 200, 350, 500, 700, 900, 1100, 1200],
     characteristic := [350, 900],
     seyir := { type := "ascending", start := "lower", dominantRegion := some (500, 900) } }),
  ("muhayyer",
   { name := "Muhayyer", intervals := [0, 150, 350, 500, 700, 850, 1050, 1200],
     characteristic := [150, 850],
     seyir := { type := "descending", start := "upper", dominantRegion := some (500, 850) } }),
  ("saba_zamzam",
   { name := "Saba Zamzam", intervals := [0, 150, 300, 450, 600, 800, 1000, 1200],
     characteristic := [150, 450, 600],
     seyir := { type := "ascending", start := "lower", dominantRegion := some (150, 500) } }),
  ("awj_ara",
   { name := "Awj Ara", intervals := [0, 150, 350, 500, 700, 800, 1050, 1200],
     characteristic := [150, 350, 1050],
     seyir := { type := "ascending", start := "lower", dominantRegion := some (350, 700) } }),
  ("mustar",
   { name := "Mustar", intervals := [0, 200, 350, 500, 700, 800, 1050, 1200],
     characteristic := [350, 800],
     seyir := { type := "ascending", start := "lower", dominantRegion := some (500, 800) } }),
  ("buselik",
   { name := "Buselik", intervals := [0, 200, 300, 500, 700, 900, 1000, 1200],
     characteristic := [300, 900],
     seyir := { type := "ascending", start := "lower", dominantRegion := some (400, 900) } }),
  ("kurdilihicazkar",
   { name := "Kurdilihicazkar", intervals := [0, 100, 300, 500, 700, 800, 1100, 1200],
     characteristic := [100, 300, 1100],
     seyir := { type := "mixed", start := "lower", dominantRegion := some (400, 900) } }),
  ("sazkar",
   { name := "Sazkar", intervals := [0, 200, 350, 500, 700, 800, 1050, 1200],
     characteristic := [350, 800, 1050],
     seyir := { type := "ascending", start := "lower", dominantRegion := some (500, 850) } }),
  ("shahnaz",
   { name := "Shahnaz", intervals := [0, 100, 400, 500, 650, 800, 1100, 1200],
     characteristic := [100, 400, 650],
     seyir := { type := "descending", start := "upper", dominantRegion := some (400, 700) } }),
  ("bayati_shuri",
   { name := "Bayati Shuri", intervals := [0, 150, 300, 500, 700, 800, 950, 1200],
     characteristic := [150, 950],
     seyir := { type := "ascending", start := "lower", dominantRegion := some (500, 800) } }),
  ("isfahan",
   { name := "Isfahan", intervals := [0, 200, 350, 500, 700, 850, 1050, 1200],
     characteristic := [350, 850],
     seyir := { type := "ascending", start := "lower", dominantRegion := some (500, 850) } }),
  ("hijaz_kar_kurd",
   { name := "Hijaz Kar Kurd", intervals := [0, 100, 400, 500, 700, 800, 1100, 1200],
     characteristic := [100, 400, 700],
     seyir := { type := "ascending", start := "lower", dominantRegion := some (400, 800) } }),
  ("lami",
   { name := "Lami", intervals := [0, 150, 300, 500, 700, 850, 1000, 1200],
     characteristic := [150, 850],
     seyir := { type := "ascending", start := "lower", dominantRegion := some (500, 850) } }),
  ("awshar",
   { name := "Awshar", intervals := [0, 150, 300, 500, 700, 800, 1100, 1200],
     characteristic := [150, 300],
     seyir := { type := "descending", start := "upper", dominantRegion := some (300, 700) } }),
  ("penchgah",
   { name := "Penchgah", intervals := [0, 200, 400, 500, 700, 900, 1050, 1200],
     characteristic := [400, 1050],
     seyir := { type := "ascending", start := "lower", dominantRegion := some (400, 900) } }),
  ("mustaar",
   { name := "Mustaar", intervals := [0, 200, 350, 500, 700, 900, 1050, 1200],
     characteristic := [350, 900],
     seyir := { type := "ascending", start := "lower", dominantRegion := some (500, 900) } }),
  ("nairuz",
   { name := "Nairuz", intervals := [0, 200, 350, 500, 700, 900, 1100, 1200],
     characteristic := [350, 1100],
     seyir := { type := "ascending", start := "lower", dominantRegion := some (500, 900) } }),
  ("bastah_nikar",
   { name := "Bastah Nikar", intervals := [0, 100, 400, 500, 700, 900, 1100, 1200],
     characteristic := [100, 400, 900],
     seyir := { type := "ascending", start := "lower", dominantRegion := some (400, 900) } }),
  ("murassa",
   { name := "Murassa", intervals := [0, 100, 300, 500, 700, 800, 1100, 1200],
     characteristic := [100, 300, 800],
     seyir := { type := "descending", start := "upper", dominantRegion := some (400, 800) } }),
  ("mazmum",
   { name := "Mazmum", intervals := [0, 150, 300, 500, 700, 900, 1100, 1200],
     characteristic := [150, 300],
     seyir := { type := "ascending", start := "lower", dominantRegion := some (500, 900) } }),
  ("nawakht",
   { name := "Nawakht", intervals := [0, 200, 300, 600, 700, 900, 1100, 1200],
     characteristic := [300, 600],
     seyir := { type := "ascending", start := "lower", dominantRegion := some (600, 900) } }),
  ("bayati_ajam",
   { name := "Bayati Ajam", intervals := [0, 150, 300, 500, 700, 900, 1100, 1200],
     characteristic := [150, 900, 1100],
     seyir := { type := "ascending", start := "lower", dominantRegion := some (500, 1000) } }),
  ("rast_jadid",
   { name := "Rast Jadid", intervals := [0, 200, 350, 500, 700, 850, 1050, 1200],
     characteristic := [350, 850],
     seyir := { type := "ascending", start := "lower", dominantRegion := some (500, 900) } })]

/-! ## Detection driver (`detectMaqam`) -/

/-- A scored candidate `(key, maqam, root, score)` of the detection loop. -/
structure Candidate where
  key : String
  maqam : Maqam
  root : ℤ
  score : Score
deriving DecidableEq, Repr

/-- Detection output (fields the source computes from the winning candidate;
presentation-only echoes of catalog fields are omitted). -/
structure DetectionResult where
  key : String
  name : String
  root : ℤ
  confidence : ℚ
  seyirDirection : String
  seyirPath : List ℤ
  top3 : List (String × ℚ)
deriving DecidableEq, Repr, Inhabited

/-- Inner loop of `detectMaqam`: score every catalog entry at one root.
The first `TypeError` aborts the whole call, as in JavaScript. -/
def scoreRow (histogram : List ℚ) (seyirA : SeyirAnalysis) (root : ℤ) :
    List (String × Maqam) → Except Unit (List Candidate)
  | [] => pure []
  | (key, m) :: rest => do
    let s ← scoreMaqam m histogram seyirA root
    let more ← scoreRow histogram seyirA root rest
    pure (⟨key, m, root, s⟩ :: more)

/-- Outer loop of `detectMaqam` over the candidate roots. -/
def scoreAll (histogram : List ℚ) (seyirA : SeyirAnalysis)
    (catalog : List (String × Maqam)) :
    List ℤ → Except Unit (List Candidate)
  | [] => pure []
  | root :: rest => do
    let these ← scoreRow histogram seyirA root catalog
    let more ← scoreAll histogram seyirA catalog rest
    pure (these ++ more)

/-- Detect the maqam of a note sequence (`detectMaqam`), over an explicit
catalog.  The stable JavaScript `Array.prototype.sort` with comparator
`(a, b) => b.score.total - a.score.total` is modelled by the stable
`insertionSort` under the matching relation. -/
def detectMaqamWith (catalog : List (String × Maqam)) (notes : List Note)
    (rootHint : Option ℤ) : Except Unit (Option DetectionResult) :=
  if notes.length < 4 then Except.ok none
  else
    let histogram := buildMicrotonalHistogram notes
    let seyirA := analyzeSeyir notes
    let possibleRoots :=
      match rootHint with
      | some h => [h.tmod 12]
      | none => getPossibleRoots notes
    match scoreAll histogram seyirA catalog possibleRoots with
    | .error e => .error e
    | .ok candidates =>
      let sorted := candidates.insertionSort fun a b => b.score.total ≤ a.score.total
      match sorted with
      | [] => Except.ok none
      | best :: _ =>
        let confidence := min (99/100) (best.score.total / 100)
        Except.ok (some
          { key := best.key
            name := best.maqam.name
            root := best.root
            confidence := confidence
            seyirDirection := best.maqam.seyir.type
            seyirPath := seyirA.contour
            top3 := (sorted.take 3).map fun c =>
              (c.maqam.name, min (99/100) (c.score.total / 100)) })

/-- Detect the maqam of a note sequence against the `MAQAMAT` catalog. -/
def detectMaqam (notes : List Note) (rootHint : Option ℤ) :
    Except Unit (Option DetectionResult) :=
  detectMaqamWith maqamatList notes rootHint

/-! ## Concrete inputs and evaluated intermediate values

The pitch-class histograms, seyir profiles and per-root candidate scores of
the concrete scenarios below are spelled out as literals and proved equal to
the embedded pipeline's output, so that the end-to-end detection theorems
reduce to cheap comparisons of literals. -/

/-- Shorthand note constructor (frequency is irrelevant to detection). -/
def mkN (m t d : ℚ) : Note := { midi := m, time := t, duration := d, frequency := 0 }

/-- The pure-Rast-scale scenario of the spec: cents from D4 (midi 62) of
[0, 200, 350, 500, 700, 900, 1050, 1200], each half a second long, ascending. -/
def rastNotes : List Note :=
  [mkN 62 0 (1/2), mkN 64 (1/2) (1/2), mkN (131/2) 1 (1/2), mkN 67 (3/2) (1/2),
   mkN 69 2 (1/2), mkN 71 (5/2) (1/2), mkN (145/2) 3 (1/2), mkN 74 (7/2) (1/2)]

/-- Raw (unnormalized) histogram bins of `rastNotes`. -/
def rastRawBins : List ℚ := [(0/1 : ℚ), (0/1 : ℚ), (0/1 : ℚ), (0/1 : ℚ), (0/1 : ℚ), (0/1 : ℚ), (0/1 : ℚ), (0/1 : ℚ), (3/160 : ℚ), (3/80 : ℚ), (1/8 : ℚ), (3/80 : ℚ), (3/160 : ℚ), (0/1 : ℚ), (0/1 : ℚ), (0/1 : ℚ), (0/1 : ℚ), (0/1 : ℚ), (3/80 : ℚ), (3/40 : ℚ), (1/4 : ℚ), (3/40 : ℚ), (3/80 : ℚ), (0/1 : ℚ), (0/1 : ℚ), (0/1 : ℚ), (0/1 : ℚ), (0/1 : ℚ), (0/1 : ℚ), (0/1 : ℚ), (0/1 : ℚ), (0/1 : ℚ), (0/1 : ℚ), (0/1 : ℚ), (0/1 : ℚ), (0/1 : ℚ), (0/1 : ℚ), (0/1 : ℚ), (3/160 : ℚ), (3/80 : ℚ), (1/8 : ℚ), (3/80 : ℚ), (3/160 : ℚ), (0/1 : ℚ), (0/1 : ℚ), (0/1 : ℚ), (0/1 : ℚ), (0/1 : ℚ), (0/1 : ℚ), (0/1 : ℚ), (0/1 : ℚ), (0/1 : ℚ), (0/1 : ℚ), (0/1 : ℚ), (0/1 : ℚ), (0/1 : ℚ), (0/1 : ℚ), (0/1 : ℚ), (3/160 : ℚ), (3/80 : ℚ), (1/8 : ℚ), (3/80 : ℚ), (3/160 : ℚ), (0/1 : ℚ), (0/1 : ℚ), (0/1 : ℚ), (0/1 : ℚ), (0/1 : ℚ), (3/160 : ℚ), (3/80 : ℚ), (1/8 : ℚ), (3/80 : ℚ), (3/160 : ℚ), (0/1 : ℚ), (0/1 : ℚ), (0/1 : ℚ), (0/1 : ℚ), (0/1 : ℚ), (0/1 : ℚ), (0/1 : ℚ), (0/1 : ℚ), (0/1 : ℚ), (0/1 : ℚ), (0/1 : ℚ), (0/1 : ℚ), (0/1 : ℚ), (0/1 : ℚ), (0/1 : ℚ), (3/160 : ℚ), (3/80 : ℚ), (1/8 : ℚ), (3/80 : ℚ), (3/160 : ℚ), (0/1 : ℚ), (0/1 : ℚ), (0/1 : ℚ), (0/1 : ℚ), (0/1 : ℚ), (0/1 : ℚ), (0/1 : ℚ), (0/1 : ℚ), (0/1 : ℚ), (0/1 : ℚ), (0/1 : ℚ), (0/1 : ℚ), (0/1 : ℚ), (0/1 : ℚ), (0/1 : ℚ), (3/160 : ℚ), (3/80 : ℚ), (1/8 : ℚ), (3/80 : ℚ), (3/160 : ℚ), (0/1 : ℚ), (0/1 : ℚ), (0/1 : ℚ), (0/1 : ℚ), (0/1 : ℚ), (0/1 : ℚ), (0/1 : ℚ)]

/-- Normalized histogram of `rastNotes`. -/
def rastHist : List ℚ := [(0/1 : ℚ), (0/1 : ℚ), (0/1 : ℚ), (0/1 : ℚ), (0/1 : ℚ), (0/1 : ℚ), (0/1 : ℚ), (0/1 : ℚ), (3/40 : ℚ), (3/20 : ℚ), (1/2 : ℚ), (3/20 : ℚ), (3/40 : ℚ), (0/1 : ℚ), (0/1 : ℚ), (0/1 : ℚ), (0/1 : ℚ), (0/1 : ℚ), (3/20 : ℚ), (3/10 : ℚ), (1/1 : ℚ), (3/10 : ℚ), (3/20 : ℚ), (0/1 : ℚ), (0/1 : ℚ), (0/1 : ℚ), (0/1 : ℚ), (0/1 : ℚ), (0/1 : ℚ), (0/1 : ℚ), (0/1 : ℚ), (0/1 : ℚ), (0/1 : ℚ), (0/1 : ℚ), (0/1 : ℚ), (0/1 : ℚ), (0/1 : ℚ), (0/1 : ℚ), (3/40 : ℚ), (3/20 : ℚ), (1/2 : ℚ), (3/20 : ℚ), (3/40 : ℚ), (0/1 : ℚ), (0/1 : ℚ), (0/1 : ℚ), (0/1 : ℚ), (0/1 : ℚ), (0/1 : ℚ), (0/1 : ℚ), (0/1 : ℚ), (0/1 : ℚ), (0/1 : ℚ), (0/1 : ℚ), (0/1 : ℚ), (0/1 : ℚ), (0/1 : ℚ), (0/1 : ℚ), (3/40 : ℚ), (3/20 : ℚ), (1/2 : ℚ), (3/20 : ℚ), (3/40 : ℚ), (0/1 : ℚ), (0/1 : ℚ), (0/1 : ℚ), (0/1 : ℚ), (0/1 : ℚ), (3/40 : ℚ), (3/20 : ℚ), (1/2 : ℚ), (3/20 : ℚ), (3/40 : ℚ), (0/1 : ℚ), (0/1 : ℚ), (0/1 : ℚ), (0/1 : ℚ), (0/1 : ℚ), (0/1 : ℚ), (0/1 : ℚ), (0/1 : ℚ), (0/1 : ℚ), (0/1 : ℚ), (0/1 : ℚ), (0/1 : ℚ), (0/1 : ℚ), (0/1 : ℚ), (0/1 : ℚ), (3/40 : ℚ), (3/20 : ℚ), (1/2 : ℚ), (3/20 : ℚ), (3/40 : ℚ), (0/1 : ℚ), (0/1 : ℚ), (0/1 : ℚ), (0/1 : ℚ), (0/1 : ℚ), (0/1 : ℚ), (0/1 : ℚ), (0/1 : ℚ), (0/1 : ℚ), (0/1 : ℚ), (0/1 : ℚ), (0/1 : ℚ), (0/1 : ℚ), (0/1 : ℚ), (0/1 : ℚ), (3/40 : ℚ), (3/20 : ℚ), (1/2 : ℚ), (3/20 : ℚ), (3/40 : ℚ), (0/1 : ℚ), (0/1 : ℚ), (0/1 : ℚ), (0/1 : ℚ), (0/1 : ℚ), (0/1 : ℚ), (0/1 : ℚ)]

/-- Seyir analysis of `rastNotes`. -/
def rastSeyir : SeyirAnalysis := { type := "ascending", contour := [(1 : ℤ), (1 : ℤ), (1 : ℤ), (1 : ℤ), (1 : ℤ), (1 : ℤ), (1 : ℤ)], avgThird := some (((11/72 : ℚ), (7/12 : ℚ), (15/16 : ℚ))), dominantCents := some ((1025/2 : ℚ)) }

/-- Candidate scores of `rastNotes` at the hinted root 2. -/
def rastCands : List Candidate := [
  { key := "rast", maqam := { name := "Rast", intervals := [(0/1 : ℚ), (200/1 : ℚ), (350/1 : ℚ), (500/1 : ℚ), (700/1 : ℚ), (900/1 : ℚ), (1050/1 : ℚ), (1200/1 : ℚ)], characteristic := [(350/1 : ℚ), (700/1 : ℚ)], seyir := { type := "ascending", start := "lower", dominantRegion := some (((500/1 : ℚ), (900/1 : ℚ))) } }, root := (2 : ℤ), score := { total := (45/1 : ℚ), pcScore := (25/1 : ℚ), charScore := (5/1 : ℚ), penalty := (8/1 : ℚ), seyirScore := (23/1 : ℚ) } },
  { key := "bayati", maqam := { name := "Bayati", intervals := [(0/1 : ℚ), (150/1 : ℚ), (300/1 : ℚ), (500/1 : ℚ), (700/1 : ℚ), (800/1 : ℚ), (1000/1 : ℚ), (1200/1 : ℚ)], characteristic := [(150/1 : ℚ), (700/1 : ℚ)], seyir := { type := "ascending", start := "lower", dominantRegion := some (((500/1 : ℚ), (800/1 : ℚ))) } }, root := (2 : ℤ), score := { total := (147/4 : ℚ), pcScore := (75/4 : ℚ), charScore := (5/1 : ℚ), penalty := (10/1 : ℚ), seyirScore := (23/1 : ℚ) } },
  { key := "hijaz", maqam := { name := "Hijaz", intervals := [(0/1 : ℚ), (100/1 : ℚ), (400/1 : ℚ), (500/1 : ℚ), (700/1 : ℚ), (800/1 : ℚ), (1100/1 : ℚ), (1200/1 : ℚ)], characteristic := [(100/1 : ℚ), (400/1 : ℚ)], seyir := { type := "descending", start := "middle", dominantRegion := some (((700/1 : ℚ), (800/1 : ℚ))) } }, root := (2 : ℤ), score := { total := (27/1 : ℚ), pcScore := (25/1 : ℚ), charScore := (5/1 : ℚ), penalty := (8/1 : ℚ), seyirScore := (5/1 : ℚ) } },
  { key := "nahawand", maqam := { name := "Nahawand", intervals := [(0/1 : ℚ), (200/1 : ℚ), (300/1 : ℚ), (500/1 : ℚ), (700/1 : ℚ), (800/1 : ℚ), (1100/1 : ℚ), (1200/1 : ℚ)], characteristic := [(300/1 : ℚ), (700/1 : ℚ)], seyir := { type := "descending", start := "upper", dominantRegion := some (((200/1 : ℚ), (700/1 : ℚ))) } }, root := (2 : ℤ), score := { total := (32/1 : ℚ), pcScore := (25/1 : ℚ), charScore := (5/1 : ℚ), penalty := (8/1 : ℚ), seyirScore := (10/1 : ℚ) } },
  { key := "ajam", maqam := { name := "Ajam", intervals := [(0/1 : ℚ), (200/1 : ℚ), (400/1 : ℚ), (500/1 : ℚ), (700/1 : ℚ), (900/1 : ℚ), (1100/1 : ℚ), (1200/1 : ℚ)], characteristic := [(400/1 : ℚ), (1100/1 : ℚ)], seyir := { type := "ascending", start := "lower", dominantRegion := some (((400/1 : ℚ), (900/1 : ℚ))) } }, root := (2 : ℤ), score := { total := (257/4 : ℚ), pcScore := (125/4 : ℚ), charScore := (10/1 : ℚ), penalty := (0/1 : ℚ), seyirScore := (23/1 : ℚ) } },
  { key := "husseini", maqam := { name := "Husseini", intervals := [(0/1 : ℚ), (150/1 : ℚ), (350/1 : ℚ), (500/1 : ℚ), (700/1 : ℚ), (850/1 : ℚ), (1000/1 : ℚ), (1200/1 : ℚ)], characteristic := [(150/1 : ℚ), (350/1 : ℚ), (850/1 : ℚ)], seyir := { type := "ascending", start := "lower", dominantRegion := some (((500/1 : ℚ), (850/1 : ℚ))) } }, root := (2 : ℤ), score := { total := (127/4 : ℚ), pcScore := (75/4 : ℚ), charScore := (0/1 : ℚ), penalty := (10/1 : ℚ), seyirScore := (23/1 : ℚ) } },
  { key := "saba", maqam := { name := "Saba", intervals := [(0/1 : ℚ), (150/1 : ℚ), (300/1 : ℚ), (450/1 : ℚ), (700/1 : ℚ), (800/1 : ℚ), (1000/1 : ℚ), (1200/1 : ℚ)], characteristic := [(150/1 : ℚ), (450/1 : ℚ)], seyir := { type := "ascending", start := "lower", dominantRegion := some (((150/1 : ℚ), (500/1 : ℚ))) } }, root := (2 : ℤ), score := { total := (269/8 : ℚ), pcScore := (125/8 : ℚ), charScore := (0/1 : ℚ), penalty := (10/1 : ℚ), seyirScore := (28/1 : ℚ) } },
  { key := "kurd", maqam := { name := "Kurd", intervals := [(0/1 : ℚ), (100/1 : ℚ), (300/1 : ℚ), (500/1 : ℚ), (700/1 : ℚ), (800/1 : ℚ), (1000/1 : ℚ), (1200/1 : ℚ)], characteristic := [(100/1 : ℚ), (300/1 : ℚ)], seyir := { type := "descending", start := "middle", dominantRegion := some (((200/1 : ℚ), (700/1 : ℚ))) } }, root := (2 : ℤ), score := { total := (75/4 : ℚ), pcScore := (75/4 : ℚ), charScore := (0/1 : ℚ), penalty := (10/1 : ℚ), seyirScore := (10/1 : ℚ) } },
  { key := "sikah", maqam := { name := "Sikah", intervals := [(0/1 : ℚ), (150/1 : ℚ), (350/1 : ℚ), (500/1 : ℚ), (700/1 : ℚ), (850/1 : ℚ), (1050/1 : ℚ), (1200/1 : ℚ)], characteristic := [(150/1 : ℚ), (350/1 : ℚ)], seyir := { type := "ascending", start := "lower", dominantRegion := some (((350/1 : ℚ), (700/1 : ℚ))) } }, root := (2 : ℤ), score := { total := (147/4 : ℚ), pcScore := (75/4 : ℚ), charScore := (0/1 : ℚ), penalty := (10/1 : ℚ), seyirScore := (28/1 : ℚ) } },
  { key := "hicazkar", maqam := { name := "Hicazkar", intervals := [(0/1 : ℚ), (100/1 : ℚ), (400/1 : ℚ), (500/1 : ℚ), (700/1 : ℚ), (800/1 : ℚ), (1100/1 : ℚ), (1200/1 : ℚ)], characteristic := [(100/1 : ℚ), (400/1 : ℚ), (800/1 : ℚ)], seyir := { type := "mixed", start := "lower", dominantRegion := some (((400/1 : ℚ), (900/1 : ℚ))) } }, root := (2 : ℤ), score := { total := (100/3 : ℚ), pcScore := (25/1 : ℚ), charScore := (10/3 : ℚ), penalty := (8/1 : ℚ), seyirScore := (13/1 : ℚ) } },
  { key := "ushshaq", maqam := { name := "Ushshaq", intervals := [(0/1 : ℚ), (150/1 : ℚ), (300/1 : ℚ), (500/1 : ℚ), (700/1 : ℚ), (900/1 : ℚ), (1050/1 : ℚ), (1200/1 : ℚ)], characteristic := [(150/1 : ℚ), (300/1 : ℚ), (900/1 : ℚ)], seyir := { type := "ascending", start := "lower", dominantRegion := some (((500/1 : ℚ), (900/1 : ℚ))) } }, root := (2 : ℤ), score := { total := (917/24 : ℚ), pcScore := (175/8 : ℚ), charScore := (10/3 : ℚ), penalty := (10/1 : ℚ), seyirScore := (23/1 : ℚ) } },
  { key := "nawa_athar", maqam := { name := "Nawa Athar", intervals := [(0/1 : ℚ), (200/1 : ℚ), (300/1 : ℚ), (600/1 : ℚ), (700/1 : ℚ), (800/1 : ℚ), (1100/1 : ℚ), (1200/1 : ℚ)], characteristic := [(300/1 : ℚ), (600/1 : ℚ)], seyir := { type := "descending", start := "upper", dominantRegion := some (((200/1 : ℚ), (700/1 : ℚ))) } }, root := (2 : ℤ), score := { total := (175/8 : ℚ), pcScore := (175/8 : ℚ), charScore := (0/1 : ℚ), penalty := (10/1 : ℚ), seyirScore := (10/1 : ℚ) } },
  { key := "nikriz", maqam := { name := "Nikriz", intervals := [(0/1 : ℚ), (200/1 : ℚ), (300/1 : ℚ), (600/1 : ℚ), (700/1 : ℚ), (900/1 : ℚ), (1100/1 : ℚ), (1200/1 : ℚ)], characteristic := [(300/1 : ℚ), (600/1 : ℚ)], seyir := { type := "ascending", start := "lower", dominantRegion := some (((600/1 : ℚ), (900/1 : ℚ))) } }, root := (2 : ℤ), score := { total := (40/1 : ℚ), pcScore := (25/1 : ℚ), charScore := (0/1 : ℚ), penalty := (8/1 : ℚ), seyirScore := (23/1 : ℚ) } },
  { key := "suznak", maqam := { name := "Suznak", intervals := [(0/1 : ℚ), (200/1 : ℚ), (350/1 : ℚ), (500/1 : ℚ), (700/1 : ℚ), (800/1 : ℚ), (1100/1 : ℚ), (1200/1 : ℚ)], characteristic := [(350/1 : ℚ), (800/1 : ℚ), (1100/1 : ℚ)], seyir := { type := "ascending", start := "lower", dominantRegion := some (((500/1 : ℚ), (900/1 : ℚ))) } }, root := (2 : ℤ), score := { total := (130/3 : ℚ), pcScore := (25/1 : ℚ), charScore := (10/3 : ℚ), penalty := (8/1 : ℚ), seyirScore := (23/1 : ℚ) } },
  { key := "segah", maqam := { name := "Segah", intervals := [(0/1 : ℚ), (150/1 : ℚ), (350/1 : ℚ), (500/1 : ℚ), (700/1 : ℚ), (850/1 : ℚ), (1050/1 : ℚ), (1200/1 : ℚ)], characteristic := [(150/1 : ℚ), (350/1 : ℚ)], seyir := { type := "ascending", start := "lower", dominantRegion := some (((350/1 : ℚ), (700/1 : ℚ))) } }, root := (2 : ℤ), score := { total := (147/4 : ℚ), pcScore := (75/4 : ℚ), charScore := (0/1 : ℚ), penalty := (10/1 : ℚ), seyirScore := (28/1 : ℚ) } },
  { key := "mahur", maqam := { name := "Mahur", intervals := [(0/1 : ℚ), (200/1 : ℚ), (400/1 : ℚ), (500/1 : ℚ), (700/1 : ℚ), (900/1 : ℚ), (1100/1 : ℚ), (1200/1 : ℚ)], characteristic := [(400/1 : ℚ), (700/1 : ℚ)], seyir := { type := "ascending", start := "lower", dominantRegion := some (((400/1 : ℚ), (900/1 : ℚ))) } }, root := (2 : ℤ), score := { total := (257/4 : ℚ), pcScore := (125/4 : ℚ), charScore := (10/1 : ℚ), penalty := (0/1 : ℚ), seyirScore := (23/1 : ℚ) } },
  { key := "chahargah", maqam := { name := "Chahargah", intervals := [(0/1 : ℚ), (150/1 : ℚ), (400/1 : ℚ), (500/1 : ℚ), (700/1 : ℚ), (850/1 : ℚ), (1100/1 : ℚ), (1200/1 : ℚ)], characteristic := [(150/1 : ℚ), (400/1 : ℚ), (850/1 : ℚ)], seyir := { type := "ascending", start := "lower", dominantRegion := some (((500/1 : ℚ), (900/1 : ℚ))) } }, root := (2 : ℤ), score := { total := (130/3 : ℚ), pcScore := (25/1 : ℚ), charScore := (10/3 : ℚ), penalty := (8/1 : ℚ), seyirScore := (23/1 : ℚ) } },
  { key := "shur", maqam := { name := "Shur", intervals := [(0/1 : ℚ), (150/1 : ℚ), (300/1 : ℚ), (500/1 : ℚ), (700/1 : ℚ), (800/1 : ℚ), (1000/1 : ℚ), (1200/1 : ℚ)], characteristic := [(150/1 : ℚ), (300/1 : ℚ)], seyir := { type := "descending", start := "upper", dominantRegion := some (((300/1 : ℚ), (700/1 : ℚ))) } }, root := (2 : ℤ), score := { total := (75/4 : ℚ), pcScore := (75/4 : ℚ), charScore := (0/1 : ℚ), penalty := (10/1 : ℚ), seyirScore := (10/1 : ℚ) } },
  { key := "dashti", maqam := { name := "Dashti", intervals := [(0/1 : ℚ), (150/1 : ℚ), (300/1 : ℚ), (500/1 : ℚ), (700/1 : ℚ), (800/1 : ℚ), (950/1 : ℚ), (1200/1 : ℚ)], characteristic := [(150/1 : ℚ), (950/1 : ℚ)], seyir := { type := "descending", start := "upper", dominantRegion := some (((300/1 : ℚ), (700/1 : ℚ))) } }, root := (2 : ℤ), score := { total := (75/4 : ℚ), pcScore := (75/4 : ℚ), charScore := (0/1 : ℚ), penalty := (10/1 : ℚ), seyirScore := (10/1 : ℚ) } },
  { key := "homayoun", maqam := { name := "Homayoun", intervals := [(0/1 : ℚ), (150/1 : ℚ), (400/1 : ℚ), (500/1 : ℚ), (700/1 : ℚ), (800/1 : ℚ), (1100/1 : ℚ), (1200/1 : ℚ)], characteristic := [(150/1 : ℚ), (400/1 : ℚ)], seyir := { type := "ascending", start := "lower", dominantRegion := some (((500/1 : ℚ), (900/1 : ℚ))) } }, root := (2 : ℤ), score := { total := (45/1 : ℚ), pcScore := (25/1 : ℚ), charScore := (5/1 : ℚ), penalty := (8/1 : ℚ), seyirScore := (23/1 : ℚ) } },
  { key := "shadd_araban", maqam := { name := "Shadd Araban", intervals := [(0/1 : ℚ), (100/1 : ℚ), (400/1 : ℚ), (500/1 : ℚ), (700/1 : ℚ), (800/1 : ℚ), (1100/1 : ℚ), (1200/1 : ℚ)], characteristic := [(100/1 : ℚ), (400/1 : ℚ)], seyir := { type := "descending", start := "upper", dominantRegion := some (((400/1 : ℚ), (800/1 : ℚ))) } }, root := (2 : ℤ), score := { total := (27/1 : ℚ), pcScore := (25/1 : ℚ), charScore := (5/1 : ℚ), penalty := (8/1 : ℚ), seyirScore := (5/1 : ℚ) } },
  { key := "zanjaran", maqam := { name := "Zanjaran", intervals := [(0/1 : ℚ), (150/1 : ℚ), (300/1 : ℚ), (500/1 : ℚ), (700/1 : ℚ), (900/1 : ℚ), (1050/1 : ℚ), (1200/1 : ℚ)], characteristic := [(150/1 : ℚ), (900/1 : ℚ)], seyir := { type := "ascending", start := "lower", dominantRegion := some (((500/1 : ℚ), (900/1 : ℚ))) } }, root := (2 : ℤ), score := { total := (319/8 : ℚ), pcScore := (175/8 : ℚ), charScore := (5/1 : ℚ), penalty := (10/1 : ℚ), seyirScore := (23/1 : ℚ) } },
  { key := "farahfaza", maqam := { name := "Farahfaza", intervals := [(0/1 : ℚ), (200/1 : ℚ), (300/1 : ℚ), (500/1 : ℚ), (700/1 : ℚ), (800/1 : ℚ), (1000/1 : ℚ), (1200/1 : ℚ)], characteristic := [(300/1 : ℚ), (700/1 : ℚ), (800/1 : ℚ)], seyir := { type := "descending", start := "upper", dominantRegion := some (((200/1 : ℚ), (700/1 : ℚ))) } }, root := (2 : ℤ), score := { total := (605/24 : ℚ), pcScore := (175/8 : ℚ), charScore := (10/3 : ℚ), penalty := (10/1 : ℚ), seyirScore := (10/1 : ℚ) } },
  { key := "iraq", maqam := { name := "Iraq", intervals := [(0/1 : ℚ), (150/1 : ℚ), (350/1 : ℚ), (500/1 : ℚ), (650/1 : ℚ), (850/1 : ℚ), (1050/1 : ℚ), (1200/1 : ℚ)], characteristic := [(150/1 : ℚ), (650/1 : ℚ)], seyir := { type := "ascending", start := "lower", dominantRegion := some (((350/1 : ℚ), (700/1 : ℚ))) } }, root := (2 : ℤ), score := { total := (269/8 : ℚ), pcScore := (125/8 : ℚ), charScore := (0/1 : ℚ), penalty := (10/1 : ℚ), seyirScore := (28/1 : ℚ) } },
  { key := "athar_kurd", maqam := { name := "Athar Kurd", intervals := [(0/1 : ℚ), (100/1 : ℚ), (300/1 : ℚ), (600/1 : ℚ), (700/1 : ℚ), (800/1 : ℚ), (1100/1 : ℚ), (1200/1 : ℚ)], characteristic := [(100/1 : ℚ), (300/1 : ℚ), (600/1 : ℚ)], seyir := { type := "descending", start := "upper", dominantRegion := some (((300/1 : ℚ), (700/1 : ℚ))) } }, root := (2 : ℤ), score := { total := (75/4 : ℚ), pcScore := (75/4 : ℚ), charScore := (0/1 : ℚ), penalty := (10/1 : ℚ), seyirScore := (10/1 : ℚ) } },
  { key := "jiharkah", maqam := { name := "Jiharkah", intervals := [(0/1 : ℚ), (200/1 : ℚ), (350/1 : ℚ), (500/1 : ℚ), (700/1 : ℚ), (900/1 : ℚ), (1100/1 : ℚ), (1200/1 : ℚ)], characteristic := [(350/1 : ℚ), (900/1 : ℚ)], seyir := { type := "ascending", start := "lower", dominantRegion := some (((500/1 : ℚ), (900/1 : ℚ))) } }, root := (2 : ℤ), score := { total := (417/8 : ℚ), pcScore := (225/8 : ℚ), charScore := (5/1 : ℚ), penalty := (4/1 : ℚ), seyirScore := (23/1 : ℚ) } },
  { key := "muhayyer", maqam := { name := "Muhayyer", intervals := [(0/1 : ℚ), (150/1 : ℚ), (350/1 : ℚ), (500/1 : ℚ), (700/1 : ℚ), (850/1 : ℚ), (1050/1 : ℚ), (1200/1 : ℚ)], characteristic := [(150/1 : ℚ), (850/1 : ℚ)], seyir := { type := "descending", start := "upper", dominantRegion := some (((500/1 : ℚ), (850/1 : ℚ))) } }, root := (2 : ℤ), score := { total := (55/4 : ℚ), pcScore := (75/4 : ℚ), charScore := (0/1 : ℚ), penalty := (10/1 : ℚ), seyirScore := (5/1 : ℚ) } },
  { key := "saba_zamzam", maqam := { name := "Saba Zamzam", intervals := [(0/1 : ℚ), (150/1 : ℚ), (300/1 : ℚ), (450/1 : ℚ), (600/1 : ℚ), (800/1 : ℚ), (1000/1 : ℚ), (1200/1 : ℚ)], characteristic := [(150/1 : ℚ), (450/1 : ℚ), (600/1 : ℚ)], seyir := { type := "ascending", start := "lower", dominantRegion := some (((150/1 : ℚ), (500/1 : ℚ))) } }, root := (2 : ℤ), score := { total := (61/2 : ℚ), pcScore := (25/2 : ℚ), charScore := (0/1 : ℚ), penalty := (10/1 : ℚ), seyirScore := (28/1 : ℚ) } },
  { key := "awj_ara", maqam := { name := "Awj Ara", intervals := [(0/1 : ℚ), (150/1 : ℚ), (350/1 : ℚ), (500/1 : ℚ), (700/1 : ℚ), (800/1 : ℚ), (1050/1 : ℚ), (1200/1 : ℚ)], characteristic := [(150/1 : ℚ), (350/1 : ℚ), (1050/1 : ℚ)], seyir := { type := "ascending", start := "lower", dominantRegion := some (((350/1 : ℚ), (700/1 : ℚ))) } }, root := (2 : ℤ), score := { total := (147/4 : ℚ), pcScore := (75/4 : ℚ), charScore := (0/1 : ℚ), penalty := (10/1 : ℚ), seyirScore := (28/1 : ℚ) } },
  { key := "mustar", maqam := { name := "Mustar", intervals := [(0/1 : ℚ), (200/1 : ℚ), (350/1 : ℚ), (500/1 : ℚ), (700/1 : ℚ), (800/1 : ℚ), (1050/1 : ℚ), (1200/1 : ℚ)], characteristic := [(350/1 : ℚ), (800/1 : ℚ)], seyir := { type := "ascending", start := "lower", dominantRegion := some (((500/1 : ℚ), (800/1 : ℚ))) } }, root := (2 : ℤ), score := { total := (279/8 : ℚ), pcScore := (175/8 : ℚ), charScore := (0/1 : ℚ), penalty := (10/1 : ℚ), seyirScore := (23/1 : ℚ) } },
  { key := "buselik", maqam := { name := "Buselik", intervals := [(0/1 : ℚ), (200/1 : ℚ), (300/1 : ℚ), (500/1 : ℚ), (700/1 : ℚ), (900/1 : ℚ), (1000/1 : ℚ), (1200/1 : ℚ)], characteristic := [(300/1 : ℚ), (900/1 : ℚ)], seyir := { type := "ascending", start := "lower", dominantRegion := some (((400/1 : ℚ), (900/1 : ℚ))) } }, root := (2 : ℤ), score := { total := (45/1 : ℚ), pcScore := (25/1 : ℚ), charScore := (5/1 : ℚ), penalty := (8/1 : ℚ), seyirScore := (23/1 : ℚ) } },
  { key := "kurdilihicazkar", maqam := { name := "Kurdilihicazkar", intervals := [(0/1 : ℚ), (100/1 : ℚ), (300/1 : ℚ), (500/1 : ℚ), (700/1 : ℚ), (800/1 : ℚ), (1100/1 : ℚ), (1200/1 : ℚ)], characteristic := [(100/1 : ℚ), (300/1 : ℚ), (1100/1 : ℚ)], seyir := { type := "mixed", start := "lower", dominantRegion := some (((400/1 : ℚ), (900/1 : ℚ))) } }, root := (2 : ℤ), score := { total := (677/24 : ℚ), pcScore := (175/8 : ℚ), charScore := (10/3 : ℚ), penalty := (10/1 : ℚ), seyirScore := (13/1 : ℚ) } },
  { key := "sazkar", maqam := { name := "Sazkar", intervals := [(0/1 : ℚ), (200/1 : ℚ), (350/1 : ℚ), (500/1 : ℚ), (700/1 : ℚ), (800/1 : ℚ), (1050/1 : ℚ), (1200/1 : ℚ)], characteristic := [(350/1 : ℚ), (800/1 : ℚ), (1050/1 : ℚ)], seyir := { type := "ascending", start := "lower", dominantRegion := some (((500/1 : ℚ), (850/1 : ℚ))) } }, root := (2 : ℤ), score := { total := (279/8 : ℚ), pcScore := (175/8 : ℚ), charScore := (0/1 : ℚ), penalty := (10/1 : ℚ), seyirScore := (23/1 : ℚ) } },
  { key := "shahnaz", maqam := { name := "Shahnaz", intervals := [(0/1 : ℚ), (100/1 : ℚ), (400/1 : ℚ), (500/1 : ℚ), (650/1 : ℚ), (800/1 : ℚ), (1100/1 : ℚ), (1200/1 : ℚ)], characteristic := [(100/1 : ℚ), (400/1 : ℚ), (650/1 : ℚ)], seyir := { type := "descending", start := "upper", dominantRegion := some (((400/1 : ℚ), (700/1 : ℚ))) } }, root := (2 : ℤ), score := { total := (485/24 : ℚ), pcScore := (175/8 : ℚ), charScore := (10/3 : ℚ), penalty := (10/1 : ℚ), seyirScore := (5/1 : ℚ) } },
  { key := "bayati_shuri", maqam := { name := "Bayati Shuri", intervals := [(0/1 : ℚ), (150/1 : ℚ), (300/1 : ℚ), (500/1 : ℚ), (700/1 : ℚ), (800/1 : ℚ), (950/1 : ℚ), (1200/1 : ℚ)], characteristic := [(150/1 : ℚ), (950/1 : ℚ)], seyir := { type := "ascending", start := "lower", dominantRegion := some (((500/1 : ℚ), (800/1 : ℚ))) } }, root := (2 : ℤ), score := { total := (127/4 : ℚ), pcScore := (75/4 : ℚ), charScore := (0/1 : ℚ), penalty := (10/1 : ℚ), seyirScore := (23/1 : ℚ) } },
  { key := "isfahan", maqam := { name := "Isfahan", intervals := [(0/1 : ℚ), (200/1 : ℚ), (350/1 : ℚ), (500/1 : ℚ), (700/1 : ℚ), (850/1 : ℚ), (1050/1 : ℚ), (1200/1 : ℚ)], characteristic := [(350/1 : ℚ), (850/1 : ℚ)], seyir := { type := "ascending", start := "lower", dominantRegion := some (((500/1 : ℚ), (850/1 : ℚ))) } }, root := (2 : ℤ), score := { total := (279/8 : ℚ), pcScore := (175/8 : ℚ), charScore := (0/1 : ℚ), penalty := (10/1 : ℚ), seyirScore := (23/1 : ℚ) } },
  { key := "hijaz_kar_kurd", maqam := { name := "Hijaz Kar Kurd", intervals := [(0/1 : ℚ), (100/1 : ℚ), (400/1 : ℚ), (500/1 : ℚ), (700/1 : ℚ), (800/1 : ℚ), (1100/1 : ℚ), (1200/1 : ℚ)], characteristic := [(100/1 : ℚ), (400/1 : ℚ), (700/1 : ℚ)], seyir := { type := "ascending", start := "lower", dominantRegion := some (((400/1 : ℚ), (800/1 : ℚ))) } }, root := (2 : ℤ), score := { total := (140/3 : ℚ), pcScore := (25/1 : ℚ), charScore := (20/3 : ℚ), penalty := (8/1 : ℚ), seyirScore := (23/1 : ℚ) } },
  { key := "lami", maqam := { name := "Lami", intervals := [(0/1 : ℚ), (150/1 : ℚ), (300/1 : ℚ), (500/1 : ℚ), (700/1 : ℚ), (850/1 : ℚ), (1000/1 : ℚ), (1200/1 : ℚ)], characteristic := [(150/1 : ℚ), (850/1 : ℚ)], seyir := { type := "ascending", start := "lower", dominantRegion := some (((500/1 : ℚ), (850/1 : ℚ))) } }, root := (2 : ℤ), score := { total := (127/4 : ℚ), pcScore := (75/4 : ℚ), charScore := (0/1 : ℚ), penalty := (10/1 : ℚ), seyirScore := (23/1 : ℚ) } },
  { key := "awshar", maqam := { name := "Awshar", intervals := [(0/1 : ℚ), (150/1 : ℚ), (300/1 : ℚ), (500/1 : ℚ), (700/1 : ℚ), (800/1 : ℚ), (1100/1 : ℚ), (1200/1 : ℚ)], characteristic := [(150/1 : ℚ), (300/1 : ℚ)], seyir := { type := "descending", start := "upper", dominantRegion := some (((300/1 : ℚ), (700/1 : ℚ))) } }, root := (2 : ℤ), score := { total := (175/8 : ℚ), pcScore := (175/8 : ℚ), charScore := (0/1 : ℚ), penalty := (10/1 : ℚ), seyirScore := (10/1 : ℚ) } },
  { key := "penchgah", maqam := { name := "Penchgah", intervals := [(0/1 : ℚ), (200/1 : ℚ), (400/1 : ℚ), (500/1 : ℚ), (700/1 : ℚ), (900/1 : ℚ), (1050/1 : ℚ), (1200/1 : ℚ)], characteristic := [(400/1 : ℚ), (1050/1 : ℚ)], seyir := { type := "ascending", start := "lower", dominantRegion := some (((400/1 : ℚ), (900/1 : ℚ))) } }, root := (2 : ℤ), score := { total := (417/8 : ℚ), pcScore := (225/8 : ℚ), charScore := (5/1 : ℚ), penalty := (4/1 : ℚ), seyirScore := (23/1 : ℚ) } },
  { key := "mustaar", maqam := { name := "Mustaar", intervals := [(0/1 : ℚ), (200/1 : ℚ), (350/1 : ℚ), (500/1 : ℚ), (700/1 : ℚ), (900/1 : ℚ), (1050/1 : ℚ), (1200/1 : ℚ)], characteristic := [(350/1 : ℚ), (900/1 : ℚ)], seyir := { type := "ascending", start := "lower", dominantRegion := some (((500/1 : ℚ), (900/1 : ℚ))) } }, root := (2 : ℤ), score := { total := (45/1 : ℚ), pcScore := (25/1 : ℚ), charScore := (5/1 : ℚ), penalty := (8/1 : ℚ), seyirScore := (23/1 : ℚ) } },
  { key := "nairuz", maqam := { name := "Nairuz", intervals := [(0/1 : ℚ), (200/1 : ℚ), (350/1 : ℚ), (500/1 : ℚ), (700/1 : ℚ), (900/1 : ℚ), (1100/1 : ℚ), (1200/1 : ℚ)], characteristic := [(350/1 : ℚ), (1100/1 : ℚ)], seyir := { type := "ascending", start := "lower", dominantRegion := some (((500/1 : ℚ), (900/1 : ℚ))) } }, root := (2 : ℤ), score := { total := (417/8 : ℚ), pcScore := (225/8 : ℚ), charScore := (5/1 : ℚ), penalty := (4/1 : ℚ), seyirScore := (23/1 : ℚ) } },
  { key := "bastah_nikar", maqam := { name := "Bastah Nikar", intervals := [(0/1 : ℚ), (100/1 : ℚ), (400/1 : ℚ), (500/1 : ℚ), (700/1 : ℚ), (900/1 : ℚ), (1100/1 : ℚ), (1200/1 : ℚ)], characteristic := [(100/1 : ℚ), (400/1 : ℚ), (900/1 : ℚ)], seyir := { type := "ascending", start := "lower", dominantRegion := some (((400/1 : ℚ), (900/1 : ℚ))) } }, root := (2 : ℤ), score := { total := (1291/24 : ℚ), pcScore := (225/8 : ℚ), charScore := (20/3 : ℚ), penalty := (4/1 : ℚ), seyirScore := (23/1 : ℚ) } },
  { key := "murassa", maqam := { name := "Murassa", intervals := [(0/1 : ℚ), (100/1 : ℚ), (300/1 : ℚ), (500/1 : ℚ), (700/1 : ℚ), (800/1 : ℚ), (1100/1 : ℚ), (1200/1 : ℚ)], characteristic := [(100/1 : ℚ), (300/1 : ℚ), (800/1 : ℚ)], seyir := { type := "descending", start := "upper", dominantRegion := some (((400/1 : ℚ), (800/1 : ℚ))) } }, root := (2 : ℤ), score := { total := (135/8 : ℚ), pcScore := (175/8 : ℚ), charScore := (0/1 : ℚ), penalty := (10/1 : ℚ), seyirScore := (5/1 : ℚ) } },
  { key := "mazmum", maqam := { name := "Mazmum", intervals := [(0/1 : ℚ), (150/1 : ℚ), (300/1 : ℚ), (500/1 : ℚ), (700/1 : ℚ), (900/1 : ℚ), (1100/1 : ℚ), (1200/1 : ℚ)], characteristic := [(150/1 : ℚ), (300/1 : ℚ)], seyir := { type := "ascending", start := "lower", dominantRegion := some (((500/1 : ℚ), (900/1 : ℚ))) } }, root := (2 : ℤ), score := { total := (40/1 : ℚ), pcScore := (25/1 : ℚ), charScore := (0/1 : ℚ), penalty := (8/1 : ℚ), seyirScore := (23/1 : ℚ) } },
  { key := "nawakht", maqam := { name := "Nawakht", intervals := [(0/1 : ℚ), (200/1 : ℚ), (300/1 : ℚ), (600/1 : ℚ), (700/1 : ℚ), (900/1 : ℚ), (1100/1 : ℚ), (1200/1 : ℚ)], characteristic := [(300/1 : ℚ), (600/1 : ℚ)], seyir := { type := "ascending", start := "lower", dominantRegion := some (((600/1 : ℚ), (900/1 : ℚ))) } }, root := (2 : ℤ), score := { total := (40/1 : ℚ), pcScore := (25/1 : ℚ), charScore := (0/1 : ℚ), penalty := (8/1 : ℚ), seyirScore := (23/1 : ℚ) } },
  { key := "bayati_ajam", maqam := { name := "Bayati Ajam", intervals := [(0/1 : ℚ), (150/1 : ℚ), (300/1 : ℚ), (500/1 : ℚ), (700/1 : ℚ), (900/1 : ℚ), (1100/1 : ℚ), (1200/1 : ℚ)], characteristic := [(150/1 : ℚ), (900/1 : ℚ), (1100/1 : ℚ)], seyir := { type := "ascending", start := "lower", dominantRegion := some (((500/1 : ℚ), (1000/1 : ℚ))) } }, root := (2 : ℤ), score := { total := (140/3 : ℚ), pcScore := (25/1 : ℚ), charScore := (20/3 : ℚ), penalty := (8/1 : ℚ), seyirScore := (23/1 : ℚ) } },
  { key := "rast_jadid", maqam := { name := "Rast Jadid", intervals := [(0/1 : ℚ), (200/1 : ℚ), (350/1 : ℚ), (500/1 : ℚ), (700/1 : ℚ), (850/1 : ℚ), (1050/1 : ℚ), (1200/1 : ℚ)], characteristic := [(350/1 : ℚ), (850/1 : ℚ)], seyir := { type := "ascending", start := "lower", dominantRegion := some (((500/1 : ℚ), (900/1 : ℚ))) } }, root := (2 : ℤ), score := { total := (279/8 : ℚ), pcScore := (175/8 : ℚ), charScore := (0/1 : ℚ), penalty := (10/1 : ℚ), seyirScore := (23/1 : ℚ) } }]

/-- A two-pitch-class melody (pitch classes 10 and 11). -/
def c4Notes : List Note := [mkN 70 0 1, mkN 71 1 2, mkN 71 2 2, mkN 70 3 1]

/-- Raw (unnormalized) histogram bins of `c4Notes`. -/
def c4RawBins : List ℚ := [(0/1 : ℚ), (0/1 : ℚ), (0/1 : ℚ), (0/1 : ℚ), (0/1 : ℚ), (0/1 : ℚ), (0/1 : ℚ), (0/1 : ℚ), (0/1 : ℚ), (0/1 : ℚ), (0/1 : ℚ), (0/1 : ℚ), (0/1 : ℚ), (0/1 : ℚ), (0/1 : ℚ), (0/1 : ℚ), (0/1 : ℚ), (0/1 : ℚ), (0/1 : ℚ), (0/1 : ℚ), (0/1 : ℚ), (0/1 : ℚ), (0/1 : ℚ), (0/1 : ℚ), (0/1 : ℚ), (0/1 : ℚ), (0/1 : ℚ), (0/1 : ℚ), (0/1 : ℚ), (0/1 : ℚ), (0/1 : ℚ), (0/1 : ℚ), (0/1 : ℚ), (0/1 : ℚ), (0/1 : ℚ), (0/1 : ℚ), (0/1 : ℚ), (0/1 : ℚ), (0/1 : ℚ), (0/1 : ℚ), (0/1 : ℚ), (0/1 : ℚ), (0/1 : ℚ), (0/1 : ℚ), (0/1 : ℚ), (0/1 : ℚ), (0/1 : ℚ), (0/1 : ℚ), (0/1 : ℚ), (0/1 : ℚ), (0/1 : ℚ), (0/1 : ℚ), (0/1 : ℚ), (0/1 : ℚ), (0/1 : ℚ), (0/1 : ℚ), (0/1 : ℚ), (0/1 : ℚ), (0/1 : ℚ), (0/1 : ℚ), (0/1 : ℚ), (0/1 : ℚ), (0/1 : ℚ), (0/1 : ℚ), (0/1 : ℚ), (0/1 : ℚ), (0/1 : ℚ), (0/1 : ℚ), (0/1 : ℚ), (0/1 : ℚ), (0/1 : ℚ), (0/1 : ℚ), (0/1 : ℚ), (0/1 : ℚ), (0/1 : ℚ), (0/1 : ℚ), (0/1 : ℚ), (0/1 : ℚ), (0/1 : ℚ), (0/1 : ℚ), (0/1 : ℚ), (0/1 : ℚ), (0/1 : ℚ), (0/1 : ℚ), (0/1 : ℚ), (0/1 : ℚ), (0/1 : ℚ), (0/1 : ℚ), (0/1 : ℚ), (0/1 : ℚ), (0/1 : ℚ), (0/1 : ℚ), (0/1 : ℚ), (0/1 : ℚ), (0/1 : ℚ), (0/1 : ℚ), (0/1 : ℚ), (0/1 : ℚ), (1/20 : ℚ), (1/10 : ℚ), (1/3 : ℚ), (1/10 : ℚ), (1/20 : ℚ), (0/1 : ℚ), (0/1 : ℚ), (0/1 : ℚ), (0/1 : ℚ), (0/1 : ℚ), (1/10 : ℚ), (1/5 : ℚ), (2/3 : ℚ), (1/5 : ℚ), (1/10 : ℚ), (0/1 : ℚ), (0/1 : ℚ), (0/1 : ℚ), (0/1 : ℚ), (0/1 : ℚ), (0/1 : ℚ), (0/1 : ℚ)]

/-- Normalized histogram of `c4Notes`. -/
def c4Hist : List ℚ := [(0/1 : ℚ), (0/1 : ℚ), (0/1 : ℚ), (0/1 : ℚ), (0/1 : ℚ), (0/1 : ℚ), (0/1 : ℚ), (0/1 : ℚ), (0/1 : ℚ), (0/1 : ℚ), (0/1 : ℚ), (0/1 : ℚ), (0/1 : ℚ), (0/1 : ℚ), (0/1 : ℚ), (0/1 : ℚ), (0/1 : ℚ), (0/1 : ℚ), (0/1 : ℚ), (0/1 : ℚ), (0/1 : ℚ), (0/1 : ℚ), (0/1 : ℚ), (0/1 : ℚ), (0/1 : ℚ), (0/1 : ℚ), (0/1 : ℚ), (0/1 : ℚ), (0/1 : ℚ), (0/1 : ℚ), (0/1 : ℚ), (0/1 : ℚ), (0/1 : ℚ), (0/1 : ℚ), (0/1 : ℚ), (0/1 : ℚ), (0/1 : ℚ), (0/1 : ℚ), (0/1 : ℚ), (0/1 : ℚ), (0/1 : ℚ), (0/1 : ℚ), (0/1 : ℚ), (0/1 : ℚ), (0/1 : ℚ), (0/1 : ℚ), (0/1 : ℚ), (0/1 : ℚ), (0/1 : ℚ), (0/1 : ℚ), (0/1 : ℚ), (0/1 : ℚ), (0/1 : ℚ), (0/1 : ℚ), (0/1 : ℚ), (0/1 : ℚ), (0/1 : ℚ), (0/1 : ℚ), (0/1 : ℚ), (0/1 : ℚ), (0/1 : ℚ), (0/1 : ℚ), (0/1 : ℚ), (0/1 : ℚ), (0/1 : ℚ), (0/1 : ℚ), (0/1 : ℚ), (0/1 : ℚ), (0/1 : ℚ), (0/1 : ℚ), (0/1 : ℚ), (0/1 : ℚ), (0/1 : ℚ), (0/1 : ℚ), (0/1 : ℚ), (0/1 : ℚ), (0/1 : ℚ), (0/1 : ℚ), (0/1 : ℚ), (0/1 : ℚ), (0/1 : ℚ), (0/1 : ℚ), (0/1 : ℚ), (0/1 : ℚ), (0/1 : ℚ), (0/1 : ℚ), (0/1 : ℚ), (0/1 : ℚ), (0/1 : ℚ), (0/1 : ℚ), (0/1 : ℚ), (0/1 : ℚ), (0/1 : ℚ), (0/1 : ℚ), (0/1 : ℚ), (0/1 : ℚ), (0/1 : ℚ), (0/1 : ℚ), (3/40 : ℚ), (3/20 : ℚ), (1/2 : ℚ), (3/20 : ℚ), (3/40 : ℚ), (0/1 : ℚ), (0/1 : ℚ), (0/1 : ℚ), (0/1 : ℚ), (0/1 : ℚ), (3/20 : ℚ), (3/10 : ℚ), (1/1 : ℚ), (3/10 : ℚ), (3/20 : ℚ), (0/1 : ℚ), (0/1 : ℚ), (0/1 : ℚ), (0/1 : ℚ), (0/1 : ℚ), (0/1 : ℚ), (0/1 : ℚ)]

/-- Seyir analysis of `c4Notes`. -/
def c4Seyir : SeyirAnalysis := { type := "descending", contour := [(1 : ℤ), (0 : ℤ), (-1 : ℤ)], avgThird := some (((1/2 : ℚ), (1/1 : ℚ), (0/1 : ℚ))), dominantCents := some ((3200/3 : ℚ)) }

/-- Candidate scores of `c4Notes` at its first inferred root. -/
def c4CandsA : List Candidate := [
  { key := "rast", maqam := { name := "Rast", intervals := [(0/1 : ℚ), (200/1 : ℚ), (350/1 : ℚ), (500/1 : ℚ), (700/1 : ℚ), (900/1 : ℚ), (1050/1 : ℚ), (1200/1 : ℚ)], characteristic := [(350/1 : ℚ), (700/1 : ℚ)], seyir := { type := "ascending", start := "lower", dominantRegion := some (((500/1 : ℚ), (900/1 : ℚ))) } }, root := (10 : ℤ), score := { total := (7/4 : ℚ), pcScore := (25/4 : ℚ), charScore := (0/1 : ℚ), penalty := (19/2 : ℚ), seyirScore := (5/1 : ℚ) } },
  { key := "bayati", maqam := { name := "Bayati", intervals := [(0/1 : ℚ), (150/1 : ℚ), (300/1 : ℚ), (500/1 : ℚ), (700/1 : ℚ), (800/1 : ℚ), (1000/1 : ℚ), (1200/1 : ℚ)], characteristic := [(150/1 : ℚ), (700/1 : ℚ)], seyir := { type := "ascending", start := "lower", dominantRegion := some (((500/1 : ℚ), (800/1 : ℚ))) } }, root := (10 : ℤ), score := { total := (7/4 : ℚ), pcScore := (25/4 : ℚ), charScore := (0/1 : ℚ), penalty := (19/2 : ℚ), seyirScore := (5/1 : ℚ) } },
  { key := "hijaz", maqam := { name := "Hijaz", intervals := [(0/1 : ℚ), (100/1 : ℚ), (400/1 : ℚ), (500/1 : ℚ), (700/1 : ℚ), (800/1 : ℚ), (1100/1 : ℚ), (1200/1 : ℚ)], characteristic := [(100/1 : ℚ), (400/1 : ℚ)], seyir := { type := "descending", start := "middle", dominantRegion := some (((700/1 : ℚ), (800/1 : ℚ))) } }, root := (10 : ℤ), score := { total := (85/2 : ℚ), pcScore := (25/2 : ℚ), charScore := (10/1 : ℚ), penalty := (0/1 : ℚ), seyirScore := (20/1 : ℚ) } },
  { key := "nahawand", maqam := { name := "Nahawand", intervals := [(0/1 : ℚ), (200/1 : ℚ), (300/1 : ℚ), (500/1 : ℚ), (700/1 : ℚ), (800/1 : ℚ), (1100/1 : ℚ), (1200/1 : ℚ)], characteristic := [(300/1 : ℚ), (700/1 : ℚ)], seyir := { type := "descending", start := "upper", dominantRegion := some (((200/1 : ℚ), (700/1 : ℚ))) } }, root := (10 : ℤ), score := { total := (67/4 : ℚ), pcScore := (25/4 : ℚ), charScore := (0/1 : ℚ), penalty := (19/2 : ℚ), seyirScore := (20/1 : ℚ) } },
  { key := "ajam", maqam := { name := "Ajam", intervals := [(0/1 : ℚ), (200/1 : ℚ), (400/1 : ℚ), (500/1 : ℚ), (700/1 : ℚ), (900/1 : ℚ), (1100/1 : ℚ), (1200/1 : ℚ)], characteristic := [(400/1 : ℚ), (1100/1 : ℚ)], seyir := { type := "ascending", start := "lower", dominantRegion := some (((400/1 : ℚ), (900/1 : ℚ))) } }, root := (10 : ℤ), score := { total := (7/4 : ℚ), pcScore := (25/4 : ℚ), charScore := (0/1 : ℚ), penalty := (19/2 : ℚ), seyirScore := (5/1 : ℚ) } },
  { key := "husseini", maqam := { name := "Husseini", intervals := [(0/1 : ℚ), (150/1 : ℚ), (350/1 : ℚ), (500/1 : ℚ), (700/1 : ℚ), (850/1 : ℚ), (1000/1 : ℚ), (1200/1 : ℚ)], characteristic := [(150/1 : ℚ), (350/1 : ℚ), (850/1 : ℚ)], seyir := { type := "ascending", start := "lower", dominantRegion := some (((500/1 : ℚ), (850/1 : ℚ))) } }, root := (10 : ℤ), score := { total := (7/4 : ℚ), pcScore := (25/4 : ℚ), charScore := (0/1 : ℚ), penalty := (19/2 : ℚ), seyirScore := (5/1 : ℚ) } },
  { key := "saba", maqam := { name := "Saba", intervals := [(0/1 : ℚ), (150/1 : ℚ), (300/1 : ℚ), (450/1 : ℚ), (700/1 : ℚ), (800/1 : ℚ), (1000/1 : ℚ), (1200/1 : ℚ)], characteristic := [(150/1 : ℚ), (450/1 : ℚ)], seyir := { type := "ascending", start := "lower", dominantRegion := some (((150/1 : ℚ), (500/1 : ℚ))) } }, root := (10 : ℤ), score := { total := (7/4 : ℚ), pcScore := (25/4 : ℚ), charScore := (0/1 : ℚ), penalty := (19/2 : ℚ), seyirScore := (5/1 : ℚ) } },
  { key := "kurd", maqam := { name := "Kurd", intervals := [(0/1 : ℚ), (100/1 : ℚ), (300/1 : ℚ), (500/1 : ℚ), (700/1 : ℚ), (800/1 : ℚ), (1000/1 : ℚ), (1200/1 : ℚ)], characteristic := [(100/1 : ℚ), (300/1 : ℚ)], seyir := { type := "descending", start := "middle", dominantRegion := some (((200/1 : ℚ), (700/1 : ℚ))) } }, root := (10 : ℤ), score := { total := (85/2 : ℚ), pcScore := (25/2 : ℚ), charScore := (10/1 : ℚ), penalty := (0/1 : ℚ), seyirScore := (20/1 : ℚ) } },
  { key := "sikah", maqam := { name := "Sikah", intervals := [(0/1 : ℚ), (150/1 : ℚ), (350/1 : ℚ), (500/1 : ℚ), (700/1 : ℚ), (850/1 : ℚ), (1050/1 : ℚ), (1200/1 : ℚ)], characteristic := [(150/1 : ℚ), (350/1 : ℚ)], seyir := { type := "ascending", start := "lower", dominantRegion := some (((350/1 : ℚ), (700/1 : ℚ))) } }, root := (10 : ℤ), score := { total := (7/4 : ℚ), pcScore := (25/4 : ℚ), charScore := (0/1 : ℚ), penalty := (19/2 : ℚ), seyirScore := (5/1 : ℚ) } },
  { key := "hicazkar", maqam := { name := "Hicazkar", intervals := [(0/1 : ℚ), (100/1 : ℚ), (400/1 : ℚ), (500/1 : ℚ), (700/1 : ℚ), (800/1 : ℚ), (1100/1 : ℚ), (1200/1 : ℚ)], characteristic := [(100/1 : ℚ), (400/1 : ℚ), (800/1 : ℚ)], seyir := { type := "mixed", start := "lower", dominantRegion := some (((400/1 : ℚ), (900/1 : ℚ))) } }, root := (10 : ℤ), score := { total := (175/6 : ℚ), pcScore := (25/2 : ℚ), charScore := (20/3 : ℚ), penalty := (0/1 : ℚ), seyirScore := (10/1 : ℚ) } },
  { key := "ushshaq", maqam := { name := "Ushshaq", intervals := [(0/1 : ℚ), (150/1 : ℚ), (300/1 : ℚ), (500/1 : ℚ), (700/1 : ℚ), (900/1 : ℚ), (1050/1 : ℚ), (1200/1 : ℚ)], characteristic := [(150/1 : ℚ), (300/1 : ℚ), (900/1 : ℚ)], seyir := { type := "ascending", start := "lower", dominantRegion := some (((500/1 : ℚ), (900/1 : ℚ))) } }, root := (10 : ℤ), score := { total := (7/4 : ℚ), pcScore := (25/4 : ℚ), charScore := (0/1 : ℚ), penalty := (19/2 : ℚ), seyirScore := (5/1 : ℚ) } },
  { key := "nawa_athar", maqam := { name := "Nawa Athar", intervals := [(0/1 : ℚ), (200/1 : ℚ), (300/1 : ℚ), (600/1 : ℚ), (700/1 : ℚ), (800/1 : ℚ), (1100/1 : ℚ), (1200/1 : ℚ)], characteristic := [(300/1 : ℚ), (600/1 : ℚ)], seyir := { type := "descending", start := "upper", dominantRegion := some (((200/1 : ℚ), (700/1 : ℚ))) } }, root := (10 : ℤ), score := { total := (67/4 : ℚ), pcScore := (25/4 : ℚ), charScore := (0/1 : ℚ), penalty := (19/2 : ℚ), seyirScore := (20/1 : ℚ) } },
  { key := "nikriz", maqam := { name := "Nikriz", intervals := [(0/1 : ℚ), (200/1 : ℚ), (300/1 : ℚ), (600/1 : ℚ), (700/1 : ℚ), (900/1 : ℚ), (1100/1 : ℚ), (1200/1 : ℚ)], characteristic := [(300/1 : ℚ), (600/1 : ℚ)], seyir := { type := "ascending", start := "lower", dominantRegion := some (((600/1 : ℚ), (900/1 : ℚ))) } }, root := (10 : ℤ), score := { total := (7/4 : ℚ), pcScore := (25/4 : ℚ), charScore := (0/1 : ℚ), penalty := (19/2 : ℚ), seyirScore := (5/1 : ℚ) } },
  { key := "suznak", maqam := { name := "Suznak", intervals := [(0/1 : ℚ), (200/1 : ℚ), (350/1 : ℚ), (500/1 : ℚ), (700/1 : ℚ), (800/1 : ℚ), (1100/1 : ℚ), (1200/1 : ℚ)], characteristic := [(350/1 : ℚ), (800/1 : ℚ), (1100/1 : ℚ)], seyir := { type := "ascending", start := "lower", dominantRegion := some (((500/1 : ℚ), (900/1 : ℚ))) } }, root := (10 : ℤ), score := { total := (7/4 : ℚ), pcScore := (25/4 : ℚ), charScore := (0/1 : ℚ), penalty := (19/2 : ℚ), seyirScore := (5/1 : ℚ) } },
  { key := "segah", maqam := { name := "Segah", intervals := [(0/1 : ℚ), (150/1 : ℚ), (350/1 : ℚ), (500/1 : ℚ), (700/1 : ℚ), (850/1 : ℚ), (1050/1 : ℚ), (1200/1 : ℚ)], characteristic := [(150/1 : ℚ), (350/1 : ℚ)], seyir := { type := "ascending", start := "lower", dominantRegion := some (((350/1 : ℚ), (700/1 : ℚ))) } }, root := (10 : ℤ), score := { total := (7/4 : ℚ), pcScore := (25/4 : ℚ), charScore := (0/1 : ℚ), penalty := (19/2 : ℚ), seyirScore := (5/1 : ℚ) } },
  { key := "mahur", maqam := { name := "Mahur", intervals := [(0/1 : ℚ), (200/1 : ℚ), (400/1 : ℚ), (500/1 : ℚ), (700/1 : ℚ), (900/1 : ℚ), (1100/1 : ℚ), (1200/1 : ℚ)], characteristic := [(400/1 : ℚ), (700/1 : ℚ)], seyir := { type := "ascending", start := "lower", dominantRegion := some (((400/1 : ℚ), (900/1 : ℚ))) } }, root := (10 : ℤ), score := { total := (7/4 : ℚ), pcScore := (25/4 : ℚ), charScore := (0/1 : ℚ), penalty := (19/2 : ℚ), seyirScore := (5/1 : ℚ) } },
  { key := "chahargah", maqam := { name := "Chahargah", intervals := [(0/1 : ℚ), (150/1 : ℚ), (400/1 : ℚ), (500/1 : ℚ), (700/1 : ℚ), (850/1 : ℚ), (1100/1 : ℚ), (1200/1 : ℚ)], characteristic := [(150/1 : ℚ), (400/1 : ℚ), (850/1 : ℚ)], seyir := { type := "ascending", start := "lower", dominantRegion := some (((500/1 : ℚ), (900/1 : ℚ))) } }, root := (10 : ℤ), score := { total := (7/4 : ℚ), pcScore := (25/4 : ℚ), charScore := (0/1 : ℚ), penalty := (19/2 : ℚ), seyirScore := (5/1 : ℚ) } },
  { key := "shur", maqam := { name := "Shur", intervals := [(0/1 : ℚ), (150/1 : ℚ), (300/1 : ℚ), (500/1 : ℚ), (700/1 : ℚ), (800/1 : ℚ), (1000/1 : ℚ), (1200/1 : ℚ)], characteristic := [(150/1 : ℚ), (300/1 : ℚ)], seyir := { type := "descending", start := "upper", dominantRegion := some (((300/1 : ℚ), (700/1 : ℚ))) } }, root := (10 : ℤ), score := { total := (67/4 : ℚ), pcScore := (25/4 : ℚ), charScore := (0/1 : ℚ), penalty := (19/2 : ℚ), seyirScore := (20/1 : ℚ) } },
  { key := "dashti", maqam := { name := "Dashti", intervals := [(0/1 : ℚ), (150/1 : ℚ), (300/1 : ℚ), (500/1 : ℚ), (700/1 : ℚ), (800/1 : ℚ), (950/1 : ℚ), (1200/1 : ℚ)], characteristic := [(150/1 : ℚ), (950/1 : ℚ)], seyir := { type := "descending", start := "upper", dominantRegion := some (((300/1 : ℚ), (700/1 : ℚ))) } }, root := (10 : ℤ), score := { total := (67/4 : ℚ), pcScore := (25/4 : ℚ), charScore := (0/1 : ℚ), penalty := (19/2 : ℚ), seyirScore := (20/1 : ℚ) } },
  { key := "homayoun", maqam := { name := "Homayoun", intervals := [(0/1 : ℚ), (150/1 : ℚ), (400/1 : ℚ), (500/1 : ℚ), (700/1 : ℚ), (800/1 : ℚ), (1100/1 : ℚ), (1200/1 : ℚ)], characteristic := [(150/1 : ℚ), (400/1 : ℚ)], seyir := { type := "ascending", start := "lower", dominantRegion := some (((500/1 : ℚ), (900/1 : ℚ))) } }, root := (10 : ℤ), score := { total := (7/4 : ℚ), pcScore := (25/4 : ℚ), charScore := (0/1 : ℚ), penalty := (19/2 : ℚ), seyirScore := (5/1 : ℚ) } },
  { key := "shadd_araban", maqam := { name := "Shadd Araban", intervals := [(0/1 : ℚ), (100/1 : ℚ), (400/1 : ℚ), (500/1 : ℚ), (700/1 : ℚ), (800/1 : ℚ), (1100/1 : ℚ), (1200/1 : ℚ)], characteristic := [(100/1 : ℚ), (400/1 : ℚ)], seyir := { type := "descending", start := "upper", dominantRegion := some (((400/1 : ℚ), (800/1 : ℚ))) } }, root := (10 : ℤ), score := { total := (85/2 : ℚ), pcScore := (25/2 : ℚ), charScore := (10/1 : ℚ), penalty := (0/1 : ℚ), seyirScore := (20/1 : ℚ) } },
  { key := "zanjaran", maqam := { name := "Zanjaran", intervals := [(0/1 : ℚ), (150/1 : ℚ), (300/1 : ℚ), (500/1 : ℚ), (700/1 : ℚ), (900/1 : ℚ), (1050/1 : ℚ), (1200/1 : ℚ)], characteristic := [(150/1 : ℚ), (900/1 : ℚ)], seyir := { type := "ascending", start := "lower", dominantRegion := some (((500/1 : ℚ), (900/1 : ℚ))) } }, root := (10 : ℤ), score := { total := (7/4 : ℚ), pcScore := (25/4 : ℚ), charScore := (0/1 : ℚ), penalty := (19/2 : ℚ), seyirScore := (5/1 : ℚ) } },
  { key := "farahfaza", maqam := { name := "Farahfaza", intervals := [(0/1 : ℚ), (200/1 : ℚ), (300/1 : ℚ), (500/1 : ℚ), (700/1 : ℚ), (800/1 : ℚ), (1000/1 : ℚ), (1200/1 : ℚ)], characteristic := [(300/1 : ℚ), (700/1 : ℚ), (800/1 : ℚ)], seyir := { type := "descending", start := "upper", dominantRegion := some (((200/1 : ℚ), (700/1 : ℚ))) } }, root := (10 : ℤ), score := { total := (67/4 : ℚ), pcScore := (25/4 : ℚ), charScore := (0/1 : ℚ), penalty := (19/2 : ℚ), seyirScore := (20/1 : ℚ) } },
  { key := "iraq", maqam := { name := "Iraq", intervals := [(0/1 : ℚ), (150/1 : ℚ), (350/1 : ℚ), (500/1 : ℚ), (650/1 : ℚ), (850/1 : ℚ), (1050/1 : ℚ), (1200/1 : ℚ)], characteristic := [(150/1 : ℚ), (650/1 : ℚ)], seyir := { type := "ascending", start := "lower", dominantRegion := some (((350/1 : ℚ), (700/1 : ℚ))) } }, root := (10 : ℤ), score := { total := (7/4 : ℚ), pcScore := (25/4 : ℚ), charScore := (0/1 : ℚ), penalty := (19/2 : ℚ), seyirScore := (5/1 : ℚ) } },
  { key := "athar_kurd", maqam := { name := "Athar Kurd", intervals := [(0/1 : ℚ), (100/1 : ℚ), (300/1 : ℚ), (600/1 : ℚ), (700/1 : ℚ), (800/1 : ℚ), (1100/1 : ℚ), (1200/1 : ℚ)], characteristic := [(100/1 : ℚ), (300/1 : ℚ), (600/1 : ℚ)], seyir := { type := "descending", start := "upper", dominantRegion := some (((300/1 : ℚ), (700/1 : ℚ))) } }, root := (10 : ℤ), score := { total := (235/6 : ℚ), pcScore := (25/2 : ℚ), charScore := (20/3 : ℚ), penalty := (0/1 : ℚ), seyirScore := (20/1 : ℚ) } },
  { key := "jiharkah", maqam := { name := "Jiharkah", intervals := [(0/1 : ℚ), (200/1 : ℚ), (350/1 : ℚ), (500/1 : ℚ), (700/1 : ℚ), (900/1 : ℚ), (1100/1 : ℚ), (1200/1 : ℚ)], characteristic := [(350/1 : ℚ), (900/1 : ℚ)], seyir := { type := "ascending", start := "lower", dominantRegion := some (((500/1 : ℚ), (900/1 : ℚ))) } }, root := (10 : ℤ), score := { total := (7/4 : ℚ), pcScore := (25/4 : ℚ), charScore := (0/1 : ℚ), penalty := (19/2 : ℚ), seyirScore := (5/1 : ℚ) } },
  { key := "muhayyer", maqam := { name := "Muhayyer", intervals := [(0/1 : ℚ), (150/1 : ℚ), (350/1 : ℚ), (500/1 : ℚ), (700/1 : ℚ), (850/1 : ℚ), (1050/1 : ℚ), (1200/1 : ℚ)], characteristic := [(150/1 : ℚ), (850/1 : ℚ)], seyir := { type := "descending", start := "upper", dominantRegion := some (((500/1 : ℚ), (850/1 : ℚ))) } }, root := (10 : ℤ), score := { total := (67/4 : ℚ), pcScore := (25/4 : ℚ), charScore := (0/1 : ℚ), penalty := (19/2 : ℚ), seyirScore := (20/1 : ℚ) } },
  { key := "saba_zamzam", maqam := { name := "Saba Zamzam", intervals := [(0/1 : ℚ), (150/1 : ℚ), (300/1 : ℚ), (450/1 : ℚ), (600/1 : ℚ), (800/1 : ℚ), (1000/1 : ℚ), (1200/1 : ℚ)], characteristic := [(150/1 : ℚ), (450/1 : ℚ), (600/1 : ℚ)], seyir := { type := "ascending", start := "lower", dominantRegion := some (((150/1 : ℚ), (500/1 : ℚ))) } }, root := (10 : ℤ), score := { total := (7/4 : ℚ), pcScore := (25/4 : ℚ), charScore := (0/1 : ℚ), penalty := (19/2 : ℚ), seyirScore := (5/1 : ℚ) } },
  { key := "awj_ara", maqam := { name := "Awj Ara", intervals := [(0/1 : ℚ), (150/1 : ℚ), (350/1 : ℚ), (500/1 : ℚ), (700/1 : ℚ), (800/1 : ℚ), (1050/1 : ℚ), (1200/1 : ℚ)], characteristic := [(150/1 : ℚ), (350/1 : ℚ), (1050/1 : ℚ)], seyir := { type := "ascending", start := "lower", dominantRegion := some (((350/1 : ℚ), (700/1 : ℚ))) } }, root := (10 : ℤ), score := { total := (7/4 : ℚ), pcScore := (25/4 : ℚ), charScore := (0/1 : ℚ), penalty := (19/2 : ℚ), seyirScore := (5/1 : ℚ) } },
  { key := "mustar", maqam := { name := "Mustar", intervals := [(0/1 : ℚ), (200/1 : ℚ), (350/1 : ℚ), (500/1 : ℚ), (700/1 : ℚ), (800/1 : ℚ), (1050/1 : ℚ), (1200/1 : ℚ)], characteristic := [(350/1 : ℚ), (800/1 : ℚ)], seyir := { type := "ascending", start := "lower", dominantRegion := some (((500/1 : ℚ), (800/1 : ℚ))) } }, root := (10 : ℤ), score := { total := (7/4 : ℚ), pcScore := (25/4 : ℚ), charScore := (0/1 : ℚ), penalty := (19/2 : ℚ), seyirScore := (5/1 : ℚ) } },
  { key := "buselik", maqam := { name := "Buselik", intervals := [(0/1 : ℚ), (200/1 : ℚ), (300/1 : ℚ), (500/1 : ℚ), (700/1 : ℚ), (900/1 : ℚ), (1000/1 : ℚ), (1200/1 : ℚ)], characteristic := [(300/1 : ℚ), (900/1 : ℚ)], seyir := { type := "ascending", start := "lower", dominantRegion := some (((400/1 : ℚ), (900/1 : ℚ))) } }, root := (10 : ℤ), score := { total := (7/4 : ℚ), pcScore := (25/4 : ℚ), charScore := (0/1 : ℚ), penalty := (19/2 : ℚ), seyirScore := (5/1 : ℚ) } },
  { key := "kurdilihicazkar", maqam := { name := "Kurdilihicazkar", intervals := [(0/1 : ℚ), (100/1 : ℚ), (300/1 : ℚ), (500/1 : ℚ), (700/1 : ℚ), (800/1 : ℚ), (1100/1 : ℚ), (1200/1 : ℚ)], characteristic := [(100/1 : ℚ), (300/1 : ℚ), (1100/1 : ℚ)], seyir := { type := "mixed", start := "lower", dominantRegion := some (((400/1 : ℚ), (900/1 : ℚ))) } }, root := (10 : ℤ), score := { total := (175/6 : ℚ), pcScore := (25/2 : ℚ), charScore := (20/3 : ℚ), penalty := (0/1 : ℚ), seyirScore := (10/1 : ℚ) } },
  { key := "sazkar", maqam := { name := "Sazkar", intervals := [(0/1 : ℚ), (200/1 : ℚ), (350/1 : ℚ), (500/1 : ℚ), (700/1 : ℚ), (800/1 : ℚ), (1050/1 : ℚ), (1200/1 : ℚ)], characteristic := [(350/1 : ℚ), (800/1 : ℚ), (1050/1 : ℚ)], seyir := { type := "ascending", start := "lower", dominantRegion := some (((500/1 : ℚ), (850/1 : ℚ))) } }, root := (10 : ℤ), score := { total := (7/4 : ℚ), pcScore := (25/4 : ℚ), charScore := (0/1 : ℚ), penalty := (19/2 : ℚ), seyirScore := (5/1 : ℚ) } },
  { key := "shahnaz", maqam := { name := "Shahnaz", intervals := [(0/1 : ℚ), (100/1 : ℚ), (400/1 : ℚ), (500/1 : ℚ), (650/1 : ℚ), (800/1 : ℚ), (1100/1 : ℚ), (1200/1 : ℚ)], characteristic := [(100/1 : ℚ), (400/1 : ℚ), (650/1 : ℚ)], seyir := { type := "descending", start := "upper", dominantRegion := some (((400/1 : ℚ), (700/1 : ℚ))) } }, root := (10 : ℤ), score := { total := (235/6 : ℚ), pcScore := (25/2 : ℚ), charScore := (20/3 : ℚ), penalty := (0/1 : ℚ), seyirScore := (20/1 : ℚ) } },
  { key := "bayati_shuri", maqam := { name := "Bayati Shuri", intervals := [(0/1 : ℚ), (150/1 : ℚ), (300/1 : ℚ), (500/1 : ℚ), (700/1 : ℚ), (800/1 : ℚ), (950/1 : ℚ), (1200/1 : ℚ)], characteristic := [(150/1 : ℚ), (950/1 : ℚ)], seyir := { type := "ascending", start := "lower", dominantRegion := some (((500/1 : ℚ), (800/1 : ℚ))) } }, root := (10 : ℤ), score := { total := (7/4 : ℚ), pcScore := (25/4 : ℚ), charScore := (0/1 : ℚ), penalty := (19/2 : ℚ), seyirScore := (5/1 : ℚ) } },
  { key := "isfahan", maqam := { name := "Isfahan", intervals := [(0/1 : ℚ), (200/1 : ℚ), (350/1 : ℚ), (500/1 : ℚ), (700/1 : ℚ), (850/1 : ℚ), (1050/1 : ℚ), (1200/1 : ℚ)], characteristic := [(350/1 : ℚ), (850/1 : ℚ)], seyir := { type := "ascending", start := "lower", dominantRegion := some (((500/1 : ℚ), (850/1 : ℚ))) } }, root := (10 : ℤ), score := { total := (7/4 : ℚ), pcScore := (25/4 : ℚ), charScore := (0/1 : ℚ), penalty := (19/2 : ℚ), seyirScore := (5/1 : ℚ) } },
  { key := "hijaz_kar_kurd", maqam := { name := "Hijaz Kar Kurd", intervals := [(0/1 : ℚ), (100/1 : ℚ), (400/1 : ℚ), (500/1 : ℚ), (700/1 : ℚ), (800/1 : ℚ), (1100/1 : ℚ), (1200/1 : ℚ)], characteristic := [(100/1 : ℚ), (400/1 : ℚ), (700/1 : ℚ)], seyir := { type := "ascending", start := "lower", dominantRegion := some (((400/1 : ℚ), (800/1 : ℚ))) } }, root := (10 : ℤ), score := { total := (145/6 : ℚ), pcScore := (25/2 : ℚ), charScore := (20/3 : ℚ), penalty := (0/1 : ℚ), seyirScore := (5/1 : ℚ) } },
  { key := "lami", maqam := { name := "Lami", intervals := [(0/1 : ℚ), (150/1 : ℚ), (300/1 : ℚ), (500/1 : ℚ), (700/1 : ℚ), (850/1 : ℚ), (1000/1 : ℚ), (1200/1 : ℚ)], characteristic := [(150/1 : ℚ), (850/1 : ℚ)], seyir := { type := "ascending", start := "lower", dominantRegion := some (((500/1 : ℚ), (850/1 : ℚ))) } }, root := (10 : ℤ), score := { total := (7/4 : ℚ), pcScore := (25/4 : ℚ), charScore := (0/1 : ℚ), penalty := (19/2 : ℚ), seyirScore := (5/1 : ℚ) } },
  { key := "awshar", maqam := { name := "Awshar", intervals := [(0/1 : ℚ), (150/1 : ℚ), (300/1 : ℚ), (500/1 : ℚ), (700/1 : ℚ), (800/1 : ℚ), (1100/1 : ℚ), (1200/1 : ℚ)], characteristic := [(150/1 : ℚ), (300/1 : ℚ)], seyir := { type := "descending", start := "upper", dominantRegion := some (((300/1 : ℚ), (700/1 : ℚ))) } }, root := (10 : ℤ), score := { total := (67/4 : ℚ), pcScore := (25/4 : ℚ), charScore := (0/1 : ℚ), penalty := (19/2 : ℚ), seyirScore := (20/1 : ℚ) } },
  { key := "penchgah", maqam := { name := "Penchgah", intervals := [(0/1 : ℚ), (200/1 : ℚ), (400/1 : ℚ), (500/1 : ℚ), (700/1 : ℚ), (900/1 : ℚ), (1050/1 : ℚ), (1200/1 : ℚ)], characteristic := [(400/1 : ℚ), (1050/1 : ℚ)], seyir := { type := "ascending", start := "lower", dominantRegion := some (((400/1 : ℚ), (900/1 : ℚ))) } }, root := (10 : ℤ), score := { total := (7/4 : ℚ), pcScore := (25/4 : ℚ), charScore := (0/1 : ℚ), penalty := (19/2 : ℚ), seyirScore := (5/1 : ℚ) } },
  { key := "mustaar", maqam := { name := "Mustaar", intervals := [(0/1 : ℚ), (200/1 : ℚ), (350/1 : ℚ), (500/1 : ℚ), (700/1 : ℚ), (900/1 : ℚ), (1050/1 : ℚ), (1200/1 : ℚ)], characteristic := [(350/1 : ℚ), (900/1 : ℚ)], seyir := { type := "ascending", start := "lower", dominantRegion := some (((500/1 : ℚ), (900/1 : ℚ))) } }, root := (10 : ℤ), score := { total := (7/4 : ℚ), pcScore := (25/4 : ℚ), charScore := (0/1 : ℚ), penalty := (19/2 : ℚ), seyirScore := (5/1 : ℚ) } },
  { key := "nairuz", maqam := { name := "Nairuz", intervals := [(0/1 : ℚ), (200/1 : ℚ), (350/1 : ℚ), (500/1 : ℚ), (700/1 : ℚ), (900/1 : ℚ), (1100/1 : ℚ), (1200/1 : ℚ)], characteristic := [(350/1 : ℚ), (1100/1 : ℚ)], seyir := { type := "ascending", start := "lower", dominantRegion := some (((500/1 : ℚ), (900/1 : ℚ))) } }, root := (10 : ℤ), score := { total := (7/4 : ℚ), pcScore := (25/4 : ℚ), charScore := (0/1 : ℚ), penalty := (19/2 : ℚ), seyirScore := (5/1 : ℚ) } },
  { key := "bastah_nikar", maqam := { name := "Bastah Nikar", intervals := [(0/1 : ℚ), (100/1 : ℚ), (400/1 : ℚ), (500/1 : ℚ), (700/1 : ℚ), (900/1 : ℚ), (1100/1 : ℚ), (1200/1 : ℚ)], characteristic := [(100/1 : ℚ), (400/1 : ℚ), (900/1 : ℚ)], seyir := { type := "ascending", start := "lower", dominantRegion := some (((400/1 : ℚ), (900/1 : ℚ))) } }, root := (10 : ℤ), score := { total := (145/6 : ℚ), pcScore := (25/2 : ℚ), charScore := (20/3 : ℚ), penalty := (0/1 : ℚ), seyirScore := (5/1 : ℚ) } },
  { key := "murassa", maqam := { name := "Murassa", intervals := [(0/1 : ℚ), (100/1 : ℚ), (300/1 : ℚ), (500/1 : ℚ), (700/1 : ℚ), (800/1 : ℚ), (1100/1 : ℚ), (1200/1 : ℚ)], characteristic := [(100/1 : ℚ), (300/1 : ℚ), (800/1 : ℚ)], seyir := { type := "descending", start := "upper", dominantRegion := some (((400/1 : ℚ), (800/1 : ℚ))) } }, root := (10 : ℤ), score := { total := (235/6 : ℚ), pcScore := (25/2 : ℚ), charScore := (20/3 : ℚ), penalty := (0/1 : ℚ), seyirScore := (20/1 : ℚ) } },
  { key := "mazmum", maqam := { name := "Mazmum", intervals := [(0/1 : ℚ), (150/1 : ℚ), (300/1 : ℚ), (500/1 : ℚ), (700/1 : ℚ), (900/1 : ℚ), (1100/1 : ℚ), (1200/1 : ℚ)], characteristic := [(150/1 : ℚ), (300/1 : ℚ)], seyir := { type := "ascending", start := "lower", dominantRegion := some (((500/1 : ℚ), (900/1 : ℚ))) } }, root := (10 : ℤ), score := { total := (7/4 : ℚ), pcScore := (25/4 : ℚ), charScore := (0/1 : ℚ), penalty := (19/2 : ℚ), seyirScore := (5/1 : ℚ) } },
  { key := "nawakht", maqam := { name := "Nawakht", intervals := [(0/1 : ℚ), (200/1 : ℚ), (300/1 : ℚ), (600/1 : ℚ), (700/1 : ℚ), (900/1 : ℚ), (1100/1 : ℚ), (1200/1 : ℚ)], characteristic := [(300/1 : ℚ), (600/1 : ℚ)], seyir := { type := "ascending", start := "lower", dominantRegion := some (((600/1 : ℚ), (900/1 : ℚ))) } }, root := (10 : ℤ), score := { total := (7/4 : ℚ), pcScore := (25/4 : ℚ), charScore := (0/1 : ℚ), penalty := (19/2 : ℚ), seyirScore := (5/1 : ℚ) } },
  { key := "bayati_ajam", maqam := { name := "Bayati Ajam", intervals := [(0/1 : ℚ), (150/1 : ℚ), (300/1 : ℚ), (500/1 : ℚ), (700/1 : ℚ), (900/1 : ℚ), (1100/1 : ℚ), (1200/1 : ℚ)], characteristic := [(150/1 : ℚ), (900/1 : ℚ), (1100/1 : ℚ)], seyir := { type := "ascending", start := "lower", dominantRegion := some (((500/1 : ℚ), (1000/1 : ℚ))) } }, root := (10 : ℤ), score := { total := (7/4 : ℚ), pcScore := (25/4 : ℚ), charScore := (0/1 : ℚ), penalty := (19/2 : ℚ), seyirScore := (5/1 : ℚ) } },
  { key := "rast_jadid", maqam := { name := "Rast Jadid", intervals := [(0/1 : ℚ), (200/1 : ℚ), (350/1 : ℚ), (500/1 : ℚ), (700/1 : ℚ), (850/1 : ℚ), (1050/1 : ℚ), (1200/1 : ℚ)], characteristic := [(350/1 : ℚ), (850/1 : ℚ)], seyir := { type := "ascending", start := "lower", dominantRegion := some (((500/1 : ℚ), (900/1 : ℚ))) } }, root := (10 : ℤ), score := { total := (7/4 : ℚ), pcScore := (25/4 : ℚ), charScore := (0/1 : ℚ), penalty := (19/2 : ℚ), seyirScore := (5/1 : ℚ) } }]

/-- Candidate scores of `c4Notes` at its second inferred root. -/
def c4CandsB : List Candidate := [
  { key := "rast", maqam := { name := "Rast", intervals := [(0/1 : ℚ), (200/1 : ℚ), (350/1 : ℚ), (500/1 : ℚ), (700/1 : ℚ), (900/1 : ℚ), (1050/1 : ℚ), (1200/1 : ℚ)], characteristic := [(350/1 : ℚ), (700/1 : ℚ)], seyir := { type := "ascending", start := "lower", dominantRegion := some (((500/1 : ℚ), (900/1 : ℚ))) } }, root := (11 : ℤ), score := { total := (27/2 : ℚ), pcScore := (25/2 : ℚ), charScore := (0/1 : ℚ), penalty := (4/1 : ℚ), seyirScore := (5/1 : ℚ) } },
  { key := "bayati", maqam := { name := "Bayati", intervals := [(0/1 : ℚ), (150/1 : ℚ), (300/1 : ℚ), (500/1 : ℚ), (700/1 : ℚ), (800/1 : ℚ), (1000/1 : ℚ), (1200/1 : ℚ)], characteristic := [(150/1 : ℚ), (700/1 : ℚ)], seyir := { type := "ascending", start := "lower", dominantRegion := some (((500/1 : ℚ), (800/1 : ℚ))) } }, root := (11 : ℤ), score := { total := (27/2 : ℚ), pcScore := (25/2 : ℚ), charScore := (0/1 : ℚ), penalty := (4/1 : ℚ), seyirScore := (5/1 : ℚ) } },
  { key := "hijaz", maqam := { name := "Hijaz", intervals := [(0/1 : ℚ), (100/1 : ℚ), (400/1 : ℚ), (500/1 : ℚ), (700/1 : ℚ), (800/1 : ℚ), (1100/1 : ℚ), (1200/1 : ℚ)], characteristic := [(100/1 : ℚ), (400/1 : ℚ)], seyir := { type := "descending", start := "middle", dominantRegion := some (((700/1 : ℚ), (800/1 : ℚ))) } }, root := (11 : ℤ), score := { total := (285/8 : ℚ), pcScore := (125/8 : ℚ), charScore := (0/1 : ℚ), penalty := (0/1 : ℚ), seyirScore := (20/1 : ℚ) } },
  { key := "nahawand", maqam := { name := "Nahawand", intervals := [(0/1 : ℚ), (200/1 : ℚ), (300/1 : ℚ), (500/1 : ℚ), (700/1 : ℚ), (800/1 : ℚ), (1100/1 : ℚ), (1200/1 : ℚ)], characteristic := [(300/1 : ℚ), (700/1 : ℚ)], seyir := { type := "descending", start := "upper", dominantRegion := some (((200/1 : ℚ), (700/1 : ℚ))) } }, root := (11 : ℤ), score := { total := (285/8 : ℚ), pcScore := (125/8 : ℚ), charScore := (0/1 : ℚ), penalty := (0/1 : ℚ), seyirScore := (20/1 : ℚ) } },
  { key := "ajam", maqam := { name := "Ajam", intervals := [(0/1 : ℚ), (200/1 : ℚ), (400/1 : ℚ), (500/1 : ℚ), (700/1 : ℚ), (900/1 : ℚ), (1100/1 : ℚ), (1200/1 : ℚ)], characteristic := [(400/1 : ℚ), (1100/1 : ℚ)], seyir := { type := "ascending", start := "lower", dominantRegion := some (((400/1 : ℚ), (900/1 : ℚ))) } }, root := (11 : ℤ), score := { total := (205/8 : ℚ), pcScore := (125/8 : ℚ), charScore := (5/1 : ℚ), penalty := (0/1 : ℚ), seyirScore := (5/1 : ℚ) } },
  { key := "husseini", maqam := { name := "Husseini", intervals := [(0/1 : ℚ), (150/1 : ℚ), (350/1 : ℚ), (500/1 : ℚ), (700/1 : ℚ), (850/1 : ℚ), (1000/1 : ℚ), (1200/1 : ℚ)], characteristic := [(150/1 : ℚ), (350/1 : ℚ), (850/1 : ℚ)], seyir := { type := "ascending", start := "lower", dominantRegion := some (((500/1 : ℚ), (850/1 : ℚ))) } }, root := (11 : ℤ), score := { total := (27/2 : ℚ), pcScore := (25/2 : ℚ), charScore := (0/1 : ℚ), penalty := (4/1 : ℚ), seyirScore := (5/1 : ℚ) } },
  { key := "saba", maqam := { name := "Saba", intervals := [(0/1 : ℚ), (150/1 : ℚ), (300/1 : ℚ), (450/1 : ℚ), (700/1 : ℚ), (800/1 : ℚ), (1000/1 : ℚ), (1200/1 : ℚ)], characteristic := [(150/1 : ℚ), (450/1 : ℚ)], seyir := { type := "ascending", start := "lower", dominantRegion := some (((150/1 : ℚ), (500/1 : ℚ))) } }, root := (11 : ℤ), score := { total := (27/2 : ℚ), pcScore := (25/2 : ℚ), charScore := (0/1 : ℚ), penalty := (4/1 : ℚ), seyirScore := (5/1 : ℚ) } },
  { key := "kurd", maqam := { name := "Kurd", intervals := [(0/1 : ℚ), (100/1 : ℚ), (300/1 : ℚ), (500/1 : ℚ), (700/1 : ℚ), (800/1 : ℚ), (1000/1 : ℚ), (1200/1 : ℚ)], characteristic := [(100/1 : ℚ), (300/1 : ℚ)], seyir := { type := "descending", start := "middle", dominantRegion := some (((200/1 : ℚ), (700/1 : ℚ))) } }, root := (11 : ℤ), score := { total := (57/2 : ℚ), pcScore := (25/2 : ℚ), charScore := (0/1 : ℚ), penalty := (4/1 : ℚ), seyirScore := (20/1 : ℚ) } },
  { key := "sikah", maqam := { name := "Sikah", intervals := [(0/1 : ℚ), (150/1 : ℚ), (350/1 : ℚ), (500/1 : ℚ), (700/1 : ℚ), (850/1 : ℚ), (1050/1 : ℚ), (1200/1 : ℚ)], characteristic := [(150/1 : ℚ), (350/1 : ℚ)], seyir := { type := "ascending", start := "lower", dominantRegion := some (((350/1 : ℚ), (700/1 : ℚ))) } }, root := (11 : ℤ), score := { total := (27/2 : ℚ), pcScore := (25/2 : ℚ), charScore := (0/1 : ℚ), penalty := (4/1 : ℚ), seyirScore := (5/1 : ℚ) } },
  { key := "hicazkar", maqam := { name := "Hicazkar", intervals := [(0/1 : ℚ), (100/1 : ℚ), (400/1 : ℚ), (500/1 : ℚ), (700/1 : ℚ), (800/1 : ℚ), (1100/1 : ℚ), (1200/1 : ℚ)], characteristic := [(100/1 : ℚ), (400/1 : ℚ), (800/1 : ℚ)], seyir := { type := "mixed", start := "lower", dominantRegion := some (((400/1 : ℚ), (900/1 : ℚ))) } }, root := (11 : ℤ), score := { total := (205/8 : ℚ), pcScore := (125/8 : ℚ), charScore := (0/1 : ℚ), penalty := (0/1 : ℚ), seyirScore := (10/1 : ℚ) } },
  { key := "ushshaq", maqam := { name := "Ushshaq", intervals := [(0/1 : ℚ), (150/1 : ℚ), (300/1 : ℚ), (500/1 : ℚ), (700/1 : ℚ), (900/1 : ℚ), (1050/1 : ℚ), (1200/1 : ℚ)], characteristic := [(150/1 : ℚ), (300/1 : ℚ), (900/1 : ℚ)], seyir := { type := "ascending", start := "lower", dominantRegion := some (((500/1 : ℚ), (900/1 : ℚ))) } }, root := (11 : ℤ), score := { total := (27/2 : ℚ), pcScore := (25/2 : ℚ), charScore := (0/1 : ℚ), penalty := (4/1 : ℚ), seyirScore := (5/1 : ℚ) } },
  { key := "nawa_athar", maqam := { name := "Nawa Athar", intervals := [(0/1 : ℚ), (200/1 : ℚ), (300/1 : ℚ), (600/1 : ℚ), (700/1 : ℚ), (800/1 : ℚ), (1100/1 : ℚ), (1200/1 : ℚ)], characteristic := [(300/1 : ℚ), (600/1 : ℚ)], seyir := { type := "descending", start := "upper", dominantRegion := some (((200/1 : ℚ), (700/1 : ℚ))) } }, root := (11 : ℤ), score := { total := (285/8 : ℚ), pcScore := (125/8 : ℚ), charScore := (0/1 : ℚ), penalty := (0/1 : ℚ), seyirScore := (20/1 : ℚ) } },
  { key := "nikriz", maqam := { name := "Nikriz", intervals := [(0/1 : ℚ), (200/1 : ℚ), (300/1 : ℚ), (600/1 : ℚ), (700/1 : ℚ), (900/1 : ℚ), (1100/1 : ℚ), (1200/1 : ℚ)], characteristic := [(300/1 : ℚ), (600/1 : ℚ)], seyir := { type := "ascending", start := "lower", dominantRegion := some (((600/1 : ℚ), (900/1 : ℚ))) } }, root := (11 : ℤ), score := { total := (165/8 : ℚ), pcScore := (125/8 : ℚ), charScore := (0/1 : ℚ), penalty := (0/1 : ℚ), seyirScore := (5/1 : ℚ) } },
  { key := "suznak", maqam := { name := "Suznak", intervals := [(0/1 : ℚ), (200/1 : ℚ), (350/1 : ℚ), (500/1 : ℚ), (700/1 : ℚ), (800/1 : ℚ), (1100/1 : ℚ), (1200/1 : ℚ)], characteristic := [(350/1 : ℚ), (800/1 : ℚ), (1100/1 : ℚ)], seyir := { type := "ascending", start := "lower", dominantRegion := some (((500/1 : ℚ), (900/1 : ℚ))) } }, root := (11 : ℤ), score := { total := (575/24 : ℚ), pcScore := (125/8 : ℚ), charScore := (10/3 : ℚ), penalty := (0/1 : ℚ), seyirScore := (5/1 : ℚ) } },
  { key := "segah", maqam := { name := "Segah", intervals := [(0/1 : ℚ), (150/1 : ℚ), (350/1 : ℚ), (500/1 : ℚ), (700/1 : ℚ), (850/1 : ℚ), (1050/1 : ℚ), (1200/1 : ℚ)], characteristic := [(150/1 : ℚ), (350/1 : ℚ)], seyir := { type := "ascending", start := "lower", dominantRegion := some (((350/1 : ℚ), (700/1 : ℚ))) } }, root := (11 : ℤ), score := { total := (27/2 : ℚ), pcScore := (25/2 : ℚ), charScore := (0/1 : ℚ), penalty := (4/1 : ℚ), seyirScore := (5/1 : ℚ) } },
  { key := "mahur", maqam := { name := "Mahur", intervals := [(0/1 : ℚ), (200/1 : ℚ), (400/1 : ℚ), (500/1 : ℚ), (700/1 : ℚ), (900/1 : ℚ), (1100/1 : ℚ), (1200/1 : ℚ)], characteristic := [(400/1 : ℚ), (700/1 : ℚ)], seyir := { type := "ascending", start := "lower", dominantRegion := some (((400/1 : ℚ), (900/1 : ℚ))) } }, root := (11 : ℤ), score := { total := (165/8 : ℚ), pcScore := (125/8 : ℚ), charScore := (0/1 : ℚ), penalty := (0/1 : ℚ), seyirScore := (5/1 : ℚ) } },
  { key := "chahargah", maqam := { name := "Chahargah", intervals := [(0/1 : ℚ), (150/1 : ℚ), (400/1 : ℚ), (500/1 : ℚ), (700/1 : ℚ), (850/1 : ℚ), (1100/1 : ℚ), (1200/1 : ℚ)], characteristic := [(150/1 : ℚ), (400/1 : ℚ), (850/1 : ℚ)], seyir := { type := "ascending", start := "lower", dominantRegion := some (((500/1 : ℚ), (900/1 : ℚ))) } }, root := (11 : ℤ), score := { total := (165/8 : ℚ), pcScore := (125/8 : ℚ), charScore := (0/1 : ℚ), penalty := (0/1 : ℚ), seyirScore := (5/1 : ℚ) } },
  { key := "shur", maqam := { name := "Shur", intervals := [(0/1 : ℚ), (150/1 : ℚ), (300/1 : ℚ), (500/1 : ℚ), (700/1 : ℚ), (800/1 : ℚ), (1000/1 : ℚ), (1200/1 : ℚ)], characteristic := [(150/1 : ℚ), (300/1 : ℚ)], seyir := { type := "descending", start := "upper", dominantRegion := some (((300/1 : ℚ), (700/1 : ℚ))) } }, root := (11 : ℤ), score := { total := (57/2 : ℚ), pcScore := (25/2 : ℚ), charScore := (0/1 : ℚ), penalty := (4/1 : ℚ), seyirScore := (20/1 : ℚ) } },
  { key := "dashti", maqam := { name := "Dashti", intervals := [(0/1 : ℚ), (150/1 : ℚ), (300/1 : ℚ), (500/1 : ℚ), (700/1 : ℚ), (800/1 : ℚ), (950/1 : ℚ), (1200/1 : ℚ)], characteristic := [(150/1 : ℚ), (950/1 : ℚ)], seyir := { type := "descending", start := "upper", dominantRegion := some (((300/1 : ℚ), (700/1 : ℚ))) } }, root := (11 : ℤ), score := { total := (57/2 : ℚ), pcScore := (25/2 : ℚ), charScore := (0/1 : ℚ), penalty := (4/1 : ℚ), seyirScore := (20/1 : ℚ) } },
  { key := "homayoun", maqam := { name := "Homayoun", intervals := [(0/1 : ℚ), (150/1 : ℚ), (400/1 : ℚ), (500/1 : ℚ), (700/1 : ℚ), (800/1 : ℚ), (1100/1 : ℚ), (1200/1 : ℚ)], characteristic := [(150/1 : ℚ), (400/1 : ℚ)], seyir := { type := "ascending", start := "lower", dominantRegion := some (((500/1 : ℚ), (900/1 : ℚ))) } }, root := (11 : ℤ), score := { total := (165/8 : ℚ), pcScore := (125/8 : ℚ), charScore := (0/1 : ℚ), penalty := (0/1 : ℚ), seyirScore := (5/1 : ℚ) } },
  { key := "shadd_araban", maqam := { name := "Shadd Araban", intervals := [(0/1 : ℚ), (100/1 : ℚ), (400/1 : ℚ), (500/1 : ℚ), (700/1 : ℚ), (800/1 : ℚ), (1100/1 : ℚ), (1200/1 : ℚ)], characteristic := [(100/1 : ℚ), (400/1 : ℚ)], seyir := { type := "descending", start := "upper", dominantRegion := some (((400/1 : ℚ), (800/1 : ℚ))) } }, root := (11 : ℤ), score := { total := (285/8 : ℚ), pcScore := (125/8 : ℚ), charScore := (0/1 : ℚ), penalty := (0/1 : ℚ), seyirScore := (20/1 : ℚ) } },
  { key := "zanjaran", maqam := { name := "Zanjaran", intervals := [(0/1 : ℚ), (150/1 : ℚ), (300/1 : ℚ), (500/1 : ℚ), (700/1 : ℚ), (900/1 : ℚ), (1050/1 : ℚ), (1200/1 : ℚ)], characteristic := [(150/1 : ℚ), (900/1 : ℚ)], seyir := { type := "ascending", start := "lower", dominantRegion := some (((500/1 : ℚ), (900/1 : ℚ))) } }, root := (11 : ℤ), score := { total := (27/2 : ℚ), pcScore := (25/2 : ℚ), charScore := (0/1 : ℚ), penalty := (4/1 : ℚ), seyirScore := (5/1 : ℚ) } },
  { key := "farahfaza", maqam := { name := "Farahfaza", intervals := [(0/1 : ℚ), (200/1 : ℚ), (300/1 : ℚ), (500/1 : ℚ), (700/1 : ℚ), (800/1 : ℚ), (1000/1 : ℚ), (1200/1 : ℚ)], characteristic := [(300/1 : ℚ), (700/1 : ℚ), (800/1 : ℚ)], seyir := { type := "descending", start := "upper", dominantRegion := some (((200/1 : ℚ), (700/1 : ℚ))) } }, root := (11 : ℤ), score := { total := (57/2 : ℚ), pcScore := (25/2 : ℚ), charScore := (0/1 : ℚ), penalty := (4/1 : ℚ), seyirScore := (20/1 : ℚ) } },
  { key := "iraq", maqam := { name := "Iraq", intervals := [(0/1 : ℚ), (150/1 : ℚ), (350/1 : ℚ), (500/1 : ℚ), (650/1 : ℚ), (850/1 : ℚ), (1050/1 : ℚ), (1200/1 : ℚ)], characteristic := [(150/1 : ℚ), (650/1 : ℚ)], seyir := { type := "ascending", start := "lower", dominantRegion := some (((350/1 : ℚ), (700/1 : ℚ))) } }, root := (11 : ℤ), score := { total := (27/2 : ℚ), pcScore := (25/2 : ℚ), charScore := (0/1 : ℚ), penalty := (4/1 : ℚ), seyirScore := (5/1 : ℚ) } },
  { key := "athar_kurd", maqam := { name := "Athar Kurd", intervals := [(0/1 : ℚ), (100/1 : ℚ), (300/1 : ℚ), (600/1 : ℚ), (700/1 : ℚ), (800/1 : ℚ), (1100/1 : ℚ), (1200/1 : ℚ)], characteristic := [(100/1 : ℚ), (300/1 : ℚ), (600/1 : ℚ)], seyir := { type := "descending", start := "upper", dominantRegion := some (((300/1 : ℚ), (700/1 : ℚ))) } }, root := (11 : ℤ), score := { total := (285/8 : ℚ), pcScore := (125/8 : ℚ), charScore := (0/1 : ℚ), penalty := (0/1 : ℚ), seyirScore := (20/1 : ℚ) } },
  { key := "jiharkah", maqam := { name := "Jiharkah", intervals := [(0/1 : ℚ), (200/1 : ℚ), (350/1 : ℚ), (500/1 : ℚ), (700/1 : ℚ), (900/1 : ℚ), (1100/1 : ℚ), (1200/1 : ℚ)], characteristic := [(350/1 : ℚ), (900/1 : ℚ)], seyir := { type := "ascending", start := "lower", dominantRegion := some (((500/1 : ℚ), (900/1 : ℚ))) } }, root := (11 : ℤ), score := { total := (165/8 : ℚ), pcScore := (125/8 : ℚ), charScore := (0/1 : ℚ), penalty := (0/1 : ℚ), seyirScore := (5/1 : ℚ) } },
  { key := "muhayyer", maqam := { name := "Muhayyer", intervals := [(0/1 : ℚ), (150/1 : ℚ), (350/1 : ℚ), (500/1 : ℚ), (700/1 : ℚ), (850/1 : ℚ), (1050/1 : ℚ), (1200/1 : ℚ)], characteristic := [(150/1 : ℚ), (850/1 : ℚ)], seyir := { type := "descending", start := "upper", dominantRegion := some (((500/1 : ℚ), (850/1 : ℚ))) } }, root := (11 : ℤ), score := { total := (57/2 : ℚ), pcScore := (25/2 : ℚ), charScore := (0/1 : ℚ), penalty := (4/1 : ℚ), seyirScore := (20/1 : ℚ) } },
  { key := "saba_zamzam", maqam := { name := "Saba Zamzam", intervals := [(0/1 : ℚ), (150/1 : ℚ), (300/1 : ℚ), (450/1 : ℚ), (600/1 : ℚ), (800/1 : ℚ), (1000/1 : ℚ), (1200/1 : ℚ)], characteristic := [(150/1 : ℚ), (450/1 : ℚ), (600/1 : ℚ)], seyir := { type := "ascending", start := "lower", dominantRegion := some (((150/1 : ℚ), (500/1 : ℚ))) } }, root := (11 : ℤ), score := { total := (27/2 : ℚ), pcScore := (25/2 : ℚ), charScore := (0/1 : ℚ), penalty := (4/1 : ℚ), seyirScore := (5/1 : ℚ) } },
  { key := "awj_ara", maqam := { name := "Awj Ara", intervals := [(0/1 : ℚ), (150/1 : ℚ), (350/1 : ℚ), (500/1 : ℚ), (700/1 : ℚ), (800/1 : ℚ), (1050/1 : ℚ), (1200/1 : ℚ)], characteristic := [(150/1 : ℚ), (350/1 : ℚ), (1050/1 : ℚ)], seyir := { type := "ascending", start := "lower", dominantRegion := some (((350/1 : ℚ), (700/1 : ℚ))) } }, root := (11 : ℤ), score := { total := (27/2 : ℚ), pcScore := (25/2 : ℚ), charScore := (0/1 : ℚ), penalty := (4/1 : ℚ), seyirScore := (5/1 : ℚ) } },
  { key := "mustar", maqam := { name := "Mustar", intervals := [(0/1 : ℚ), (200/1 : ℚ), (350/1 : ℚ), (500/1 : ℚ), (700/1 : ℚ), (800/1 : ℚ), (1050/1 : ℚ), (1200/1 : ℚ)], characteristic := [(350/1 : ℚ), (800/1 : ℚ)], seyir := { type := "ascending", start := "lower", dominantRegion := some (((500/1 : ℚ), (800/1 : ℚ))) } }, root := (11 : ℤ), score := { total := (27/2 : ℚ), pcScore := (25/2 : ℚ), charScore := (0/1 : ℚ), penalty := (4/1 : ℚ), seyirScore := (5/1 : ℚ) } },
  { key := "buselik", maqam := { name := "Buselik", intervals := [(0/1 : ℚ), (200/1 : ℚ), (300/1 : ℚ), (500/1 : ℚ), (700/1 : ℚ), (900/1 : ℚ), (1000/1 : ℚ), (1200/1 : ℚ)], characteristic := [(300/1 : ℚ), (900/1 : ℚ)], seyir := { type := "ascending", start := "lower", dominantRegion := some (((400/1 : ℚ), (900/1 : ℚ))) } }, root := (11 : ℤ), score := { total := (27/2 : ℚ), pcScore := (25/2 : ℚ), charScore := (0/1 : ℚ), penalty := (4/1 : ℚ), seyirScore := (5/1 : ℚ) } },
  { key := "kurdilihicazkar", maqam := { name := "Kurdilihicazkar", intervals := [(0/1 : ℚ), (100/1 : ℚ), (300/1 : ℚ), (500/1 : ℚ), (700/1 : ℚ), (800/1 : ℚ), (1100/1 : ℚ), (1200/1 : ℚ)], characteristic := [(100/1 : ℚ), (300/1 : ℚ), (1100/1 : ℚ)], seyir := { type := "mixed", start := "lower", dominantRegion := some (((400/1 : ℚ), (900/1 : ℚ))) } }, root := (11 : ℤ), score := { total := (695/24 : ℚ), pcScore := (125/8 : ℚ), charScore := (10/3 : ℚ), penalty := (0/1 : ℚ), seyirScore := (10/1 : ℚ) } },
  { key := "sazkar", maqam := { name := "Sazkar", intervals := [(0/1 : ℚ), (200/1 : ℚ), (350/1 : ℚ), (500/1 : ℚ), (700/1 : ℚ), (800/1 : ℚ), (1050/1 : ℚ), (1200/1 : ℚ)], characteristic := [(350/1 : ℚ), (800/1 : ℚ), (1050/1 : ℚ)], seyir := { type := "ascending", start := "lower", dominantRegion := some (((500/1 : ℚ), (850/1 : ℚ))) } }, root := (11 : ℤ), score := { total := (27/2 : ℚ), pcScore := (25/2 : ℚ), charScore := (0/1 : ℚ), penalty := (4/1 : ℚ), seyirScore := (5/1 : ℚ) } },
  { key := "shahnaz", maqam := { name := "Shahnaz", intervals := [(0/1 : ℚ), (100/1 : ℚ), (400/1 : ℚ), (500/1 : ℚ), (650/1 : ℚ), (800/1 : ℚ), (1100/1 : ℚ), (1200/1 : ℚ)], characteristic := [(100/1 : ℚ), (400/1 : ℚ), (650/1 : ℚ)], seyir := { type := "descending", start := "upper", dominantRegion := some (((400/1 : ℚ), (700/1 : ℚ))) } }, root := (11 : ℤ), score := { total := (285/8 : ℚ), pcScore := (125/8 : ℚ), charScore := (0/1 : ℚ), penalty := (0/1 : ℚ), seyirScore := (20/1 : ℚ) } },
  { key := "bayati_shuri", maqam := { name := "Bayati Shuri", intervals := [(0/1 : ℚ), (150/1 : ℚ), (300/1 : ℚ), (500/1 : ℚ), (700/1 : ℚ), (800/1 : ℚ), (950/1 : ℚ), (1200/1 : ℚ)], characteristic := [(150/1 : ℚ), (950/1 : ℚ)], seyir := { type := "ascending", start := "lower", dominantRegion := some (((500/1 : ℚ), (800/1 : ℚ))) } }, root := (11 : ℤ), score := { total := (27/2 : ℚ), pcScore := (25/2 : ℚ), charScore := (0/1 : ℚ), penalty := (4/1 : ℚ), seyirScore := (5/1 : ℚ) } },
  { key := "isfahan", maqam := { name := "Isfahan", intervals := [(0/1 : ℚ), (200/1 : ℚ), (350/1 : ℚ), (500/1 : ℚ), (700/1 : ℚ), (850/1 : ℚ), (1050/1 : ℚ), (1200/1 : ℚ)], characteristic := [(350/1 : ℚ), (850/1 : ℚ)], seyir := { type := "ascending", start := "lower", dominantRegion := some (((500/1 : ℚ), (850/1 : ℚ))) } }, root := (11 : ℤ), score := { total := (27/2 : ℚ), pcScore := (25/2 : ℚ), charScore := (0/1 : ℚ), penalty := (4/1 : ℚ), seyirScore := (5/1 : ℚ) } },
  { key := "hijaz_kar_kurd", maqam := { name := "Hijaz Kar Kurd", intervals := [(0/1 : ℚ), (100/1 : ℚ), (400/1 : ℚ), (500/1 : ℚ), (700/1 : ℚ), (800/1 : ℚ), (1100/1 : ℚ), (1200/1 : ℚ)], characteristic := [(100/1 : ℚ), (400/1 : ℚ), (700/1 : ℚ)], seyir := { type := "ascending", start := "lower", dominantRegion := some (((400/1 : ℚ), (800/1 : ℚ))) } }, root := (11 : ℤ), score := { total := (165/8 : ℚ), pcScore := (125/8 : ℚ), charScore := (0/1 : ℚ), penalty := (0/1 : ℚ), seyirScore := (5/1 : ℚ) } },
  { key := "lami", maqam := { name := "Lami", intervals := [(0/1 : ℚ), (150/1 : ℚ), (300/1 : ℚ), (500/1 : ℚ), (700/1 : ℚ), (850/1 : ℚ), (1000/1 : ℚ), (1200/1 : ℚ)], characteristic := [(150/1 : ℚ), (850/1 : ℚ)], seyir := { type := "ascending", start := "lower", dominantRegion := some (((500/1 : ℚ), (850/1 : ℚ))) } }, root := (11 : ℤ), score := { total := (27/2 : ℚ), pcScore := (25/2 : ℚ), charScore := (0/1 : ℚ), penalty := (4/1 : ℚ), seyirScore := (5/1 : ℚ) } },
  { key := "awshar", maqam := { name := "Awshar", intervals := [(0/1 : ℚ), (150/1 : ℚ), (300/1 : ℚ), (500/1 : ℚ), (700/1 : ℚ), (800/1 : ℚ), (1100/1 : ℚ), (1200/1 : ℚ)], characteristic := [(150/1 : ℚ), (300/1 : ℚ)], seyir := { type := "descending", start := "upper", dominantRegion := some (((300/1 : ℚ), (700/1 : ℚ))) } }, root := (11 : ℤ), score := { total := (285/8 : ℚ), pcScore := (125/8 : ℚ), charScore := (0/1 : ℚ), penalty := (0/1 : ℚ), seyirScore := (20/1 : ℚ) } },
  { key := "penchgah", maqam := { name := "Penchgah", intervals := [(0/1 : ℚ), (200/1 : ℚ), (400/1 : ℚ), (500/1 : ℚ), (700/1 : ℚ), (900/1 : ℚ), (1050/1 : ℚ), (1200/1 : ℚ)], characteristic := [(400/1 : ℚ), (1050/1 : ℚ)], seyir := { type := "ascending", start := "lower", dominantRegion := some (((400/1 : ℚ), (900/1 : ℚ))) } }, root := (11 : ℤ), score := { total := (27/2 : ℚ), pcScore := (25/2 : ℚ), charScore := (0/1 : ℚ), penalty := (4/1 : ℚ), seyirScore := (5/1 : ℚ) } },
  { key := "mustaar", maqam := { name := "Mustaar", intervals := [(0/1 : ℚ), (200/1 : ℚ), (350/1 : ℚ), (500/1 : ℚ), (700/1 : ℚ), (900/1 : ℚ), (1050/1 : ℚ), (1200/1 : ℚ)], characteristic := [(350/1 : ℚ), (900/1 : ℚ)], seyir := { type := "ascending", start := "lower", dominantRegion := some (((500/1 : ℚ), (900/1 : ℚ))) } }, root := (11 : ℤ), score := { total := (27/2 : ℚ), pcScore := (25/2 : ℚ), charScore := (0/1 : ℚ), penalty := (4/1 : ℚ), seyirScore := (5/1 : ℚ) } },
  { key := "nairuz", maqam := { name := "Nairuz", intervals := [(0/1 : ℚ), (200/1 : ℚ), (350/1 : ℚ), (500/1 : ℚ), (700/1 : ℚ), (900/1 : ℚ), (1100/1 : ℚ), (1200/1 : ℚ)], characteristic := [(350/1 : ℚ), (1100/1 : ℚ)], seyir := { type := "ascending", start := "lower", dominantRegion := some (((500/1 : ℚ), (900/1 : ℚ))) } }, root := (11 : ℤ), score := { total := (205/8 : ℚ), pcScore := (125/8 : ℚ), charScore := (5/1 : ℚ), penalty := (0/1 : ℚ), seyirScore := (5/1 : ℚ) } },
  { key := "bastah_nikar", maqam := { name := "Bastah Nikar", intervals := [(0/1 : ℚ), (100/1 : ℚ), (400/1 : ℚ), (500/1 : ℚ), (700/1 : ℚ), (900/1 : ℚ), (1100/1 : ℚ), (1200/1 : ℚ)], characteristic := [(100/1 : ℚ), (400/1 : ℚ), (900/1 : ℚ)], seyir := { type := "ascending", start := "lower", dominantRegion := some (((400/1 : ℚ), (900/1 : ℚ))) } }, root := (11 : ℤ), score := { total := (165/8 : ℚ), pcScore := (125/8 : ℚ), charScore := (0/1 : ℚ), penalty := (0/1 : ℚ), seyirScore := (5/1 : ℚ) } },
  { key := "murassa", maqam := { name := "Murassa", intervals := [(0/1 : ℚ), (100/1 : ℚ), (300/1 : ℚ), (500/1 : ℚ), (700/1 : ℚ), (800/1 : ℚ), (1100/1 : ℚ), (1200/1 : ℚ)], characteristic := [(100/1 : ℚ), (300/1 : ℚ), (800/1 : ℚ)], seyir := { type := "descending", start := "upper", dominantRegion := some (((400/1 : ℚ), (800/1 : ℚ))) } }, root := (11 : ℤ), score := { total := (285/8 : ℚ), pcScore := (125/8 : ℚ), charScore := (0/1 : ℚ), penalty := (0/1 : ℚ), seyirScore := (20/1 : ℚ) } },
  { key := "mazmum", maqam := { name := "Mazmum", intervals := [(0/1 : ℚ), (150/1 : ℚ), (300/1 : ℚ), (500/1 : ℚ), (700/1 : ℚ), (900/1 : ℚ), (1100/1 : ℚ), (1200/1 : ℚ)], characteristic := [(150/1 : ℚ), (300/1 : ℚ)], seyir := { type := "ascending", start := "lower", dominantRegion := some (((500/1 : ℚ), (900/1 : ℚ))) } }, root := (11 : ℤ), score := { total := (165/8 : ℚ), pcScore := (125/8 : ℚ), charScore := (0/1 : ℚ), penalty := (0/1 : ℚ), seyirScore := (5/1 : ℚ) } },
  { key := "nawakht", maqam := { name := "Nawakht", intervals := [(0/1 : ℚ), (200/1 : ℚ), (300/1 : ℚ), (600/1 : ℚ), (700/1 : ℚ), (900/1 : ℚ), (1100/1 : ℚ), (1200/1 : ℚ)], characteristic := [(300/1 : ℚ), (600/1 : ℚ)], seyir := { type := "ascending", start := "lower", dominantRegion := some (((600/1 : ℚ), (900/1 : ℚ))) } }, root := (11 : ℤ), score := { total := (165/8 : ℚ), pcScore := (125/8 : ℚ), charScore := (0/1 : ℚ), penalty := (0/1 : ℚ), seyirScore := (5/1 : ℚ) } },
  { key := "bayati_ajam", maqam := { name := "Bayati Ajam", intervals := [(0/1 : ℚ), (150/1 : ℚ), (300/1 : ℚ), (500/1 : ℚ), (700/1 : ℚ), (900/1 : ℚ), (1100/1 : ℚ), (1200/1 : ℚ)], characteristic := [(150/1 : ℚ), (900/1 : ℚ), (1100/1 : ℚ)], seyir := { type := "ascending", start := "lower", dominantRegion := some (((500/1 : ℚ), (1000/1 : ℚ))) } }, root := (11 : ℤ), score := { total := (575/24 : ℚ), pcScore := (125/8 : ℚ), charScore := (10/3 : ℚ), penalty := (0/1 : ℚ), seyirScore := (5/1 : ℚ) } },
  { key := "rast_jadid", maqam := { name := "Rast Jadid", intervals := [(0/1 : ℚ), (200/1 : ℚ), (350/1 : ℚ), (500/1 : ℚ), (700/1 : ℚ), (850/1 : ℚ), (1050/1 : ℚ), (1200/1 : ℚ)], characteristic := [(350/1 : ℚ), (850/1 : ℚ)], seyir := { type := "ascending", start := "lower", dominantRegion := some (((500/1 : ℚ), (900/1 : ℚ))) } }, root := (11 : ℤ), score := { total := (27/2 : ℚ), pcScore := (25/2 : ℚ), charScore := (0/1 : ℚ), penalty := (4/1 : ℚ), seyirScore := (5/1 : ℚ) } }]

/-- The same melody with every pitch raised by one semitone (offset k = 1). -/
def c4sNotes : List Note := c4Notes.map fun n => { n with midi := n.midi + 1 }

/-- Raw (unnormalized) histogram bins of `c4sNotes`. -/
def c4sRawBins : List ℚ := [(2/3 : ℚ), (1/5 : ℚ), (1/10 : ℚ), (0/1 : ℚ), (0/1 : ℚ), (0/1 : ℚ), (0/1 : ℚ), (0/1 : ℚ), (0/1 : ℚ), (0/1 : ℚ), (0/1 : ℚ), (0/1 : ℚ), (0/1 : ℚ), (0/1 : ℚ), (0/1 : ℚ), (0/1 : ℚ), (0/1 : ℚ), (0/1 : ℚ), (0/1 : ℚ), (0/1 : ℚ), (0/1 : ℚ), (0/1 : ℚ), (0/1 : ℚ), (0/1 : ℚ), (0/1 : ℚ), (0/1 : ℚ), (0/1 : ℚ), (0/1 : ℚ), (0/1 : ℚ), (0/1 : ℚ), (0/1 : ℚ), (0/1 : ℚ), (0/1 : ℚ), (0/1 : ℚ), (0/1 : ℚ), (0/1 : ℚ), (0/1 : ℚ), (0/1 : ℚ), (0/1 : ℚ), (0/1 : ℚ), (0/1 : ℚ), (0/1 : ℚ), (0/1 : ℚ), (0/1 : ℚ), (0/1 : ℚ), (0/1 : ℚ), (0/1 : ℚ), (0/1 : ℚ), (0/1 : ℚ), (0/1 : ℚ), (0/1 : ℚ), (0/1 : ℚ), (0/1 : ℚ), (0/1 : ℚ), (0/1 : ℚ), (0/1 : ℚ), (0/1 : ℚ), (0/1 : ℚ), (0/1 : ℚ), (0/1 : ℚ), (0/1 : ℚ), (0/1 : ℚ), (0/1 : ℚ), (0/1 : ℚ), (0/1 : ℚ), (0/1 : ℚ), (0/1 : ℚ), (0/1 : ℚ), (0/1 : ℚ), (0/1 : ℚ), (0/1 : ℚ), (0/1 : ℚ), (0/1 : ℚ), (0/1 : ℚ), (0/1 : ℚ), (0/1 : ℚ), (0/1 : ℚ), (0/1 : ℚ), (0/1 : ℚ), (0/1 : ℚ), (0/1 : ℚ), (0/1 : ℚ), (0/1 : ℚ), (0/1 : ℚ), (0/1 : ℚ), (0/1 : ℚ), (0/1 : ℚ), (0/1 : ℚ), (0/1 : ℚ), (0/1 : ℚ), (0/1 : ℚ), (0/1 : ℚ), (0/1 : ℚ), (0/1 : ℚ), (0/1 : ℚ), (0/1 : ℚ), (0/1 : ℚ), (0/1 : ℚ), (0/1 : ℚ), (0/1 : ℚ), (0/1 : ℚ), (0/1 : ℚ), (0/1 : ℚ), (0/1 : ℚ), (0/1 : ℚ), (0/1 : ℚ), (0/1 : ℚ), (0/1 : ℚ), (1/20 : ℚ), (1/10 : ℚ), (1/3 : ℚ), (1/10 : ℚ), (1/20 : ℚ), (0/1 : ℚ), (0/1 : ℚ), (0/1 : ℚ), (0/1 : ℚ), (0/1 : ℚ), (1/10 : ℚ), (1/5 : ℚ)]

/-- Normalized histogram of `c4sNotes`. -/
def c4sHist : List ℚ := [(1/1 : ℚ), (3/10 : ℚ), (3/20 : ℚ), (0/1 : ℚ), (0/1 : ℚ), (0/1 : ℚ), (0/1 : ℚ), (0/1 : ℚ), (0/1 : ℚ), (0/1 : ℚ), (0/1 : ℚ), (0/1 : ℚ), (0/1 : ℚ), (0/1 : ℚ), (0/1 : ℚ), (0/1 : ℚ), (0/1 : ℚ), (0/1 : ℚ), (0/1 : ℚ), (0/1 : ℚ), (0/1 : ℚ), (0/1 : ℚ), (0/1 : ℚ), (0/1 : ℚ), (0/1 : ℚ), (0/1 : ℚ), (0/1 : ℚ), (0/1 : ℚ), (0/1 : ℚ), (0/1 : ℚ), (0/1 : ℚ), (0/1 : ℚ), (0/1 : ℚ), (0/1 : ℚ), (0/1 : ℚ), (0/1 : ℚ), (0/1 : ℚ), (0/1 : ℚ), (0/1 : ℚ), (0/1 : ℚ), (0/1 : ℚ), (0/1 : ℚ), (0/1 : ℚ), (0/1 : ℚ), (0/1 : ℚ), (0/1 : ℚ), (0/1 : ℚ), (0/1 : ℚ), (0/1 : ℚ), (0/1 : ℚ), (0/1 : ℚ), (0/1 : ℚ), (0/1 : ℚ), (0/1 : ℚ), (0/1 : ℚ), (0/1 : ℚ), (0/1 : ℚ), (0/1 : ℚ), (0/1 : ℚ), (0/1 : ℚ), (0/1 : ℚ), (0/1 : ℚ), (0/1 : ℚ), (0/1 : ℚ), (0/1 : ℚ), (0/1 : ℚ), (0/1 : ℚ), (0/1 : ℚ), (0/1 : ℚ), (0/1 : ℚ), (0/1 : ℚ), (0/1 : ℚ), (0/1 : ℚ), (0/1 : ℚ), (0/1 : ℚ), (0/1 : ℚ), (0/1 : ℚ), (0/1 : ℚ), (0/1 : ℚ), (0/1 : ℚ), (0/1 : ℚ), (0/1 : ℚ), (0/1 : ℚ), (0/1 : ℚ), (0/1 : ℚ), (0/1 : ℚ), (0/1 : ℚ), (0/1 : ℚ), (0/1 : ℚ), (0/1 : ℚ), (0/1 : ℚ), (0/1 : ℚ), (0/1 : ℚ), (0/1 : ℚ), (0/1 : ℚ), (0/1 : ℚ), (0/1 : ℚ), (0/1 : ℚ), (0/1 : ℚ), (0/1 : ℚ), (0/1 : ℚ), (0/1 : ℚ), (0/1 : ℚ), (0/1 : ℚ), (0/1 : ℚ), (0/1 : ℚ), (0/1 : ℚ), (0/1 : ℚ), (3/40 : ℚ), (3/20 : ℚ), (1/2 : ℚ), (3/20 : ℚ), (3/40 : ℚ), (0/1 : ℚ), (0/1 : ℚ), (0/1 : ℚ), (0/1 : ℚ), (0/1 : ℚ), (3/20 : ℚ), (3/10 : ℚ)]

/-- Seyir analysis of `c4sNotes`. -/
def c4sSeyir : SeyirAnalysis := { type := "descending", contour := [(1 : ℤ), (0 : ℤ), (-1 : ℤ)], avgThird := some (((1/2 : ℚ), (1/1 : ℚ), (0/1 : ℚ))), dominantCents := some ((1100/3 : ℚ)) }

/-- Candidate scores of `c4sNotes` at its first inferred root. -/
def c4sCandsA : List Candidate := [
  { key := "rast", maqam := { name := "Rast", intervals := [(0/1 : ℚ), (200/1 : ℚ), (350/1 : ℚ), (500/1 : ℚ), (700/1 : ℚ), (900/1 : ℚ), (1050/1 : ℚ), (1200/1 : ℚ)], characteristic := [(350/1 : ℚ), (700/1 : ℚ)], seyir := { type := "ascending", start := "lower", dominantRegion := some (((500/1 : ℚ), (900/1 : ℚ))) } }, root := (11 : ℤ), score := { total := (27/4 : ℚ), pcScore := (25/4 : ℚ), charScore := (0/1 : ℚ), penalty := (19/2 : ℚ), seyirScore := (10/1 : ℚ) } },
  { key := "bayati", maqam := { name := "Bayati", intervals := [(0/1 : ℚ), (150/1 : ℚ), (300/1 : ℚ), (500/1 : ℚ), (700/1 : ℚ), (800/1 : ℚ), (1000/1 : ℚ), (1200/1 : ℚ)], characteristic := [(150/1 : ℚ), (700/1 : ℚ)], seyir := { type := "ascending", start := "lower", dominantRegion := some (((500/1 : ℚ), (800/1 : ℚ))) } }, root := (11 : ℤ), score := { total := (27/4 : ℚ), pcScore := (25/4 : ℚ), charScore := (0/1 : ℚ), penalty := (19/2 : ℚ), seyirScore := (10/1 : ℚ) } },
  { key := "hijaz", maqam := { name := "Hijaz", intervals := [(0/1 : ℚ), (100/1 : ℚ), (400/1 : ℚ), (500/1 : ℚ), (700/1 : ℚ), (800/1 : ℚ), (1100/1 : ℚ), (1200/1 : ℚ)], characteristic := [(100/1 : ℚ), (400/1 : ℚ)], seyir := { type := "descending", start := "middle", dominantRegion := some (((700/1 : ℚ), (800/1 : ℚ))) } }, root := (11 : ℤ), score := { total := (85/2 : ℚ), pcScore := (25/2 : ℚ), charScore := (10/1 : ℚ), penalty := (0/1 : ℚ), seyirScore := (20/1 : ℚ) } },
  { key := "nahawand", maqam := { name := "Nahawand", intervals := [(0/1 : ℚ), (200/1 : ℚ), (300/1 : ℚ), (500/1 : ℚ), (700/1 : ℚ), (800/1 : ℚ), (1100/1 : ℚ), (1200/1 : ℚ)], characteristic := [(300/1 : ℚ), (700/1 : ℚ)], seyir := { type := "descending", start := "upper", dominantRegion := some (((200/1 : ℚ), (700/1 : ℚ))) } }, root := (11 : ℤ), score := { total := (87/4 : ℚ), pcScore := (25/4 : ℚ), charScore := (0/1 : ℚ), penalty := (19/2 : ℚ), seyirScore := (25/1 : ℚ) } },
  { key := "ajam", maqam := { name := "Ajam", intervals := [(0/1 : ℚ), (200/1 : ℚ), (400/1 : ℚ), (500/1 : ℚ), (700/1 : ℚ), (900/1 : ℚ), (1100/1 : ℚ), (1200/1 : ℚ)], characteristic := [(400/1 : ℚ), (1100/1 : ℚ)], seyir := { type := "ascending", start := "lower", dominantRegion := some (((400/1 : ℚ), (900/1 : ℚ))) } }, root := (11 : ℤ), score := { total := (27/4 : ℚ), pcScore := (25/4 : ℚ), charScore := (0/1 : ℚ), penalty := (19/2 : ℚ), seyirScore := (10/1 : ℚ) } },
  { key := "husseini", maqam := { name := "Husseini", intervals := [(0/1 : ℚ), (150/1 : ℚ), (350/1 : ℚ), (500/1 : ℚ), (700/1 : ℚ), (850/1 : ℚ), (1000/1 : ℚ), (1200/1 : ℚ)], characteristic := [(150/1 : ℚ), (350/1 : ℚ), (850/1 : ℚ)], seyir := { type := "ascending", start := "lower", dominantRegion := some (((500/1 : ℚ), (850/1 : ℚ))) } }, root := (11 : ℤ), score := { total := (27/4 : ℚ), pcScore := (25/4 : ℚ), charScore := (0/1 : ℚ), penalty := (19/2 : ℚ), seyirScore := (10/1 : ℚ) } },
  { key := "saba", maqam := { name := "Saba", intervals := [(0/1 : ℚ), (150/1 : ℚ), (300/1 : ℚ), (450/1 : ℚ), (700/1 : ℚ), (800/1 : ℚ), (1000/1 : ℚ), (1200/1 : ℚ)], characteristic := [(150/1 : ℚ), (450/1 : ℚ)], seyir := { type := "ascending", start := "lower", dominantRegion := some (((150/1 : ℚ), (500/1 : ℚ))) } }, root := (11 : ℤ), score := { total := (27/4 : ℚ), pcScore := (25/4 : ℚ), charScore := (0/1 : ℚ), penalty := (19/2 : ℚ), seyirScore := (10/1 : ℚ) } },
  { key := "kurd", maqam := { name := "Kurd", intervals := [(0/1 : ℚ), (100/1 : ℚ), (300/1 : ℚ), (500/1 : ℚ), (700/1 : ℚ), (800/1 : ℚ), (1000/1 : ℚ), (1200/1 : ℚ)], characteristic := [(100/1 : ℚ), (300/1 : ℚ)], seyir := { type := "descending", start := "middle", dominantRegion := some (((200/1 : ℚ), (700/1 : ℚ))) } }, root := (11 : ℤ), score := { total := (95/2 : ℚ), pcScore := (25/2 : ℚ), charScore := (10/1 : ℚ), penalty := (0/1 : ℚ), seyirScore := (25/1 : ℚ) } },
  { key := "sikah", maqam := { name := "Sikah", intervals := [(0/1 : ℚ), (150/1 : ℚ), (350/1 : ℚ), (500/1 : ℚ), (700/1 : ℚ), (850/1 : ℚ), (1050/1 : ℚ), (1200/1 : ℚ)], characteristic := [(150/1 : ℚ), (350/1 : ℚ)], seyir := { type := "ascending", start := "lower", dominantRegion := some (((350/1 : ℚ), (700/1 : ℚ))) } }, root := (11 : ℤ), score := { total := (27/4 : ℚ), pcScore := (25/4 : ℚ), charScore := (0/1 : ℚ), penalty := (19/2 : ℚ), seyirScore := (10/1 : ℚ) } },
  { key := "hicazkar", maqam := { name := "Hicazkar", intervals := [(0/1 : ℚ), (100/1 : ℚ), (400/1 : ℚ), (500/1 : ℚ), (700/1 : ℚ), (800/1 : ℚ), (1100/1 : ℚ), (1200/1 : ℚ)], characteristic := [(100/1 : ℚ), (400/1 : ℚ), (800/1 : ℚ)], seyir := { type := "mixed", start := "lower", dominantRegion := some (((400/1 : ℚ), (900/1 : ℚ))) } }, root := (11 : ℤ), score := { total := (205/6 : ℚ), pcScore := (25/2 : ℚ), charScore := (20/3 : ℚ), penalty := (0/1 : ℚ), seyirScore := (15/1 : ℚ) } },
  { key := "ushshaq", maqam := { name := "Ushshaq", intervals := [(0/1 : ℚ), (150/1 : ℚ), (300/1 : ℚ), (500/1 : ℚ), (700/1 : ℚ), (900/1 : ℚ), (1050/1 : ℚ), (1200/1 : ℚ)], characteristic := [(150/1 : ℚ), (300/1 : ℚ), (900/1 : ℚ)], seyir := { type := "ascending", start := "lower", dominantRegion := some (((500/1 : ℚ), (900/1 : ℚ))) } }, root := (11 : ℤ), score := { total := (27/4 : ℚ), pcScore := (25/4 : ℚ), charScore := (0/1 : ℚ), penalty := (19/2 : ℚ), seyirScore := (10/1 : ℚ) } },
  { key := "nawa_athar", maqam := { name := "Nawa Athar", intervals := [(0/1 : ℚ), (200/1 : ℚ), (300/1 : ℚ), (600/1 : ℚ), (700/1 : ℚ), (800/1 : ℚ), (1100/1 : ℚ), (1200/1 : ℚ)], characteristic := [(300/1 : ℚ), (600/1 : ℚ)], seyir := { type := "descending", start := "upper", dominantRegion := some (((200/1 : ℚ), (700/1 : ℚ))) } }, root := (11 : ℤ), score := { total := (87/4 : ℚ), pcScore := (25/4 : ℚ), charScore := (0/1 : ℚ), penalty := (19/2 : ℚ), seyirScore := (25/1 : ℚ) } },
  { key := "nikriz", maqam := { name := "Nikriz", intervals := [(0/1 : ℚ), (200/1 : ℚ), (300/1 : ℚ), (600/1 : ℚ), (700/1 : ℚ), (900/1 : ℚ), (1100/1 : ℚ), (1200/1 : ℚ)], characteristic := [(300/1 : ℚ), (600/1 : ℚ)], seyir := { type := "ascending", start := "lower", dominantRegion := some (((600/1 : ℚ), (900/1 : ℚ))) } }, root := (11 : ℤ), score := { total := (7/4 : ℚ), pcScore := (25/4 : ℚ), charScore := (0/1 : ℚ), penalty := (19/2 : ℚ), seyirScore := (5/1 : ℚ) } },
  { key := "suznak", maqam := { name := "Suznak", intervals := [(0/1 : ℚ), (200/1 : ℚ), (350/1 : ℚ), (500/1 : ℚ), (700/1 : ℚ), (800/1 : ℚ), (1100/1 : ℚ), (1200/1 : ℚ)], characteristic := [(350/1 : ℚ), (800/1 : ℚ), (1100/1 : ℚ)], seyir := { type := "ascending", start := "lower", dominantRegion := some (((500/1 : ℚ), (900/1 : ℚ))) } }, root := (11 : ℤ), score := { total := (27/4 : ℚ), pcScore := (25/4 : ℚ), charScore := (0/1 : ℚ), penalty := (19/2 : ℚ), seyirScore := (10/1 : ℚ) } },
  { key := "segah", maqam := { name := "Segah", intervals := [(0/1 : ℚ), (150/1 : ℚ), (350/1 : ℚ), (500/1 : ℚ), (700/1 : ℚ), (850/1 : ℚ), (1050/1 : ℚ), (1200/1 : ℚ)], characteristic := [(150/1 : ℚ), (350/1 : ℚ)], seyir := { type := "ascending", start := "lower", dominantRegion := some (((350/1 : ℚ), (700/1 : ℚ))) } }, root := (11 : ℤ), score := { total := (27/4 : ℚ), pcScore := (25/4 : ℚ), charScore := (0/1 : ℚ), penalty := (19/2 : ℚ), seyirScore := (10/1 : ℚ) } },
  { key := "mahur", maqam := { name := "Mahur", intervals := [(0/1 : ℚ), (200/1 : ℚ), (400/1 : ℚ), (500/1 : ℚ), (700/1 : ℚ), (900/1 : ℚ), (1100/1 : ℚ), (1200/1 : ℚ)], characteristic := [(400/1 : ℚ), (700/1 : ℚ)], seyir := { type := "ascending", start := "lower", dominantRegion := some (((400/1 : ℚ), (900/1 : ℚ))) } }, root := (11 : ℤ), score := { total := (27/4 : ℚ), pcScore := (25/4 : ℚ), charScore := (0/1 : ℚ), penalty := (19/2 : ℚ), seyirScore := (10/1 : ℚ) } },
  { key := "chahargah", maqam := { name := "Chahargah", intervals := [(0/1 : ℚ), (150/1 : ℚ), (400/1 : ℚ), (500/1 : ℚ), (700/1 : ℚ), (850/1 : ℚ), (1100/1 : ℚ), (1200/1 : ℚ)], characteristic := [(150/1 : ℚ), (400/1 : ℚ), (850/1 : ℚ)], seyir := { type := "ascending", start := "lower", dominantRegion := some (((500/1 : ℚ), (900/1 : ℚ))) } }, root := (11 : ℤ), score := { total := (27/4 : ℚ), pcScore := (25/4 : ℚ), charScore := (0/1 : ℚ), penalty := (19/2 : ℚ), seyirScore := (10/1 : ℚ) } },
  { key := "shur", maqam := { name := "Shur", intervals := [(0/1 : ℚ), (150/1 : ℚ), (300/1 : ℚ), (500/1 : ℚ), (700/1 : ℚ), (800/1 : ℚ), (1000/1 : ℚ), (1200/1 : ℚ)], characteristic := [(150/1 : ℚ), (300/1 : ℚ)], seyir := { type := "descending", start := "upper", dominantRegion := some (((300/1 : ℚ), (700/1 : ℚ))) } }, root := (11 : ℤ), score := { total := (87/4 : ℚ), pcScore := (25/4 : ℚ), charScore := (0/1 : ℚ), penalty := (19/2 : ℚ), seyirScore := (25/1 : ℚ) } },
  { key := "dashti", maqam := { name := "Dashti", intervals := [(0/1 : ℚ), (150/1 : ℚ), (300/1 : ℚ), (500/1 : ℚ), (700/1 : ℚ), (800/1 : ℚ), (950/1 : ℚ), (1200/1 : ℚ)], characteristic := [(150/1 : ℚ), (950/1 : ℚ)], seyir := { type := "descending", start := "upper", dominantRegion := some (((300/1 : ℚ), (700/1 : ℚ))) } }, root := (11 : ℤ), score := { total := (87/4 : ℚ), pcScore := (25/4 : ℚ), charScore := (0/1 : ℚ), penalty := (19/2 : ℚ), seyirScore := (25/1 : ℚ) } },
  { key := "homayoun", maqam := { name := "Homayoun", intervals := [(0/1 : ℚ), (150/1 : ℚ), (400/1 : ℚ), (500/1 : ℚ), (700/1 : ℚ), (800/1 : ℚ), (1100/1 : ℚ), (1200/1 : ℚ)], characteristic := [(150/1 : ℚ), (400/1 : ℚ)], seyir := { type := "ascending", start := "lower", dominantRegion := some (((500/1 : ℚ), (900/1 : ℚ))) } }, root := (11 : ℤ), score := { total := (27/4 : ℚ), pcScore := (25/4 : ℚ), charScore := (0/1 : ℚ), penalty := (19/2 : ℚ), seyirScore := (10/1 : ℚ) } },
  { key := "shadd_araban", maqam := { name := "Shadd Araban", intervals := [(0/1 : ℚ), (100/1 : ℚ), (400/1 : ℚ), (500/1 : ℚ), (700/1 : ℚ), (800/1 : ℚ), (1100/1 : ℚ), (1200/1 : ℚ)], characteristic := [(100/1 : ℚ), (400/1 : ℚ)], seyir := { type := "descending", start := "upper", dominantRegion := some (((400/1 : ℚ), (800/1 : ℚ))) } }, root := (11 : ℤ), score := { total := (95/2 : ℚ), pcScore := (25/2 : ℚ), charScore := (10/1 : ℚ), penalty := (0/1 : ℚ), seyirScore := (25/1 : ℚ) } },
  { key := "zanjaran", maqam := { name := "Zanjaran", intervals := [(0/1 : ℚ), (150/1 : ℚ), (300/1 : ℚ), (500/1 : ℚ), (700/1 : ℚ), (900/1 : ℚ), (1050/1 : ℚ), (1200/1 : ℚ)], characteristic := [(150/1 : ℚ), (900/1 : ℚ)], seyir := { type := "ascending", start := "lower", dominantRegion := some (((500/1 : ℚ), (900/1 : ℚ))) } }, root := (11 : ℤ), score := { total := (27/4 : ℚ), pcScore := (25/4 : ℚ), charScore := (0/1 : ℚ), penalty := (19/2 : ℚ), seyirScore := (10/1 : ℚ) } },
  { key := "farahfaza", maqam := { name := "Farahfaza", intervals := [(0/1 : ℚ), (200/1 : ℚ), (300/1 : ℚ), (500/1 : ℚ), (700/1 : ℚ), (800/1 : ℚ), (1000/1 : ℚ), (1200/1 : ℚ)], characteristic := [(300/1 : ℚ), (700/1 : ℚ), (800/1 : ℚ)], seyir := { type := "descending", start := "upper", dominantRegion := some (((200/1 : ℚ), (700/1 : ℚ))) } }, root := (11 : ℤ), score := { total := (87/4 : ℚ), pcScore := (25/4 : ℚ), charScore := (0/1 : ℚ), penalty := (19/2 : ℚ), seyirScore := (25/1 : ℚ) } },
  { key := "iraq", maqam := { name := "Iraq", intervals := [(0/1 : ℚ), (150/1 : ℚ), (350/1 : ℚ), (500/1 : ℚ), (650/1 : ℚ), (850/1 : ℚ), (1050/1 : ℚ), (1200/1 : ℚ)], characteristic := [(150/1 : ℚ), (650/1 : ℚ)], seyir := { type := "ascending", start := "lower", dominantRegion := some (((350/1 : ℚ), (700/1 : ℚ))) } }, root := (11 : ℤ), score := { total := (27/4 : ℚ), pcScore := (25/4 : ℚ), charScore := (0/1 : ℚ), penalty := (19/2 : ℚ), seyirScore := (10/1 : ℚ) } },
  { key := "athar_kurd", maqam := { name := "Athar Kurd", intervals := [(0/1 : ℚ), (100/1 : ℚ), (300/1 : ℚ), (600/1 : ℚ), (700/1 : ℚ), (800/1 : ℚ), (1100/1 : ℚ), (1200/1 : ℚ)], characteristic := [(100/1 : ℚ), (300/1 : ℚ), (600/1 : ℚ)], seyir := { type := "descending", start := "upper", dominantRegion := some (((300/1 : ℚ), (700/1 : ℚ))) } }, root := (11 : ℤ), score := { total := (265/6 : ℚ), pcScore := (25/2 : ℚ), charScore := (20/3 : ℚ), penalty := (0/1 : ℚ), seyirScore := (25/1 : ℚ) } },
  { key := "jiharkah", maqam := { name := "Jiharkah", intervals := [(0/1 : ℚ), (200/1 : ℚ), (350/1 : ℚ), (500/1 : ℚ), (700/1 : ℚ), (900/1 : ℚ), (1100/1 : ℚ), (1200/1 : ℚ)], characteristic := [(350/1 : ℚ), (900/1 : ℚ)], seyir := { type := "ascending", start := "lower", dominantRegion := some (((500/1 : ℚ), (900/1 : ℚ))) } }, root := (11 : ℤ), score := { total := (27/4 : ℚ), pcScore := (25/4 : ℚ), charScore := (0/1 : ℚ), penalty := (19/2 : ℚ), seyirScore := (10/1 : ℚ) } },
  { key := "muhayyer", maqam := { name := "Muhayyer", intervals := [(0/1 : ℚ), (150/1 : ℚ), (350/1 : ℚ), (500/1 : ℚ), (700/1 : ℚ), (850/1 : ℚ), (1050/1 : ℚ), (1200/1 : ℚ)], characteristic := [(150/1 : ℚ), (850/1 : ℚ)], seyir := { type := "descending", start := "upper", dominantRegion := some (((500/1 : ℚ), (850/1 : ℚ))) } }, root := (11 : ℤ), score := { total := (87/4 : ℚ), pcScore := (25/4 : ℚ), charScore := (0/1 : ℚ), penalty := (19/2 : ℚ), seyirScore := (25/1 : ℚ) } },
  { key := "saba_zamzam", maqam := { name := "Saba Zamzam", intervals := [(0/1 : ℚ), (150/1 : ℚ), (300/1 : ℚ), (450/1 : ℚ), (600/1 : ℚ), (800/1 : ℚ), (1000/1 : ℚ), (1200/1 : ℚ)], characteristic := [(150/1 : ℚ), (450/1 : ℚ), (600/1 : ℚ)], seyir := { type := "ascending", start := "lower", dominantRegion := some (((150/1 : ℚ), (500/1 : ℚ))) } }, root := (11 : ℤ), score := { total := (27/4 : ℚ), pcScore := (25/4 : ℚ), charScore := (0/1 : ℚ), penalty := (19/2 : ℚ), seyirScore := (10/1 : ℚ) } },
  { key := "awj_ara", maqam := { name := "Awj Ara", intervals := [(0/1 : ℚ), (150/1 : ℚ), (350/1 : ℚ), (500/1 : ℚ), (700/1 : ℚ), (800/1 : ℚ), (1050/1 : ℚ), (1200/1 : ℚ)], characteristic := [(150/1 : ℚ), (350/1 : ℚ), (1050/1 : ℚ)], seyir := { type := "ascending", start := "lower", dominantRegion := some (((350/1 : ℚ), (700/1 : ℚ))) } }, root := (11 : ℤ), score := { total := (27/4 : ℚ), pcScore := (25/4 : ℚ), charScore := (0/1 : ℚ), penalty := (19/2 : ℚ), seyirScore := (10/1 : ℚ) } },
  { key := "mustar", maqam := { name := "Mustar", intervals := [(0/1 : ℚ), (200/1 : ℚ), (350/1 : ℚ), (500/1 : ℚ), (700/1 : ℚ), (800/1 : ℚ), (1050/1 : ℚ), (1200/1 : ℚ)], characteristic := [(350/1 : ℚ), (800/1 : ℚ)], seyir := { type := "ascending", start := "lower", dominantRegion := some (((500/1 : ℚ), (800/1 : ℚ))) } }, root := (11 : ℤ), score := { total := (27/4 : ℚ), pcScore := (25/4 : ℚ), charScore := (0/1 : ℚ), penalty := (19/2 : ℚ), seyirScore := (10/1 : ℚ) } },
  { key := "buselik", maqam := { name := "Buselik", intervals := [(0/1 : ℚ), (200/1 : ℚ), (300/1 : ℚ), (500/1 : ℚ), (700/1 : ℚ), (900/1 : ℚ), (1000/1 : ℚ), (1200/1 : ℚ)], characteristic := [(300/1 : ℚ), (900/1 : ℚ)], seyir := { type := "ascending", start := "lower", dominantRegion := some (((400/1 : ℚ), (900/1 : ℚ))) } }, root := (11 : ℤ), score := { total := (27/4 : ℚ), pcScore := (25/4 : ℚ), charScore := (0/1 : ℚ), penalty := (19/2 : ℚ), seyirScore := (10/1 : ℚ) } },
  { key := "kurdilihicazkar", maqam := { name := "Kurdilihicazkar", intervals := [(0/1 : ℚ), (100/1 : ℚ), (300/1 : ℚ), (500/1 : ℚ), (700/1 : ℚ), (800/1 : ℚ), (1100/1 : ℚ), (1200/1 : ℚ)], characteristic := [(100/1 : ℚ), (300/1 : ℚ), (1100/1 : ℚ)], seyir := { type := "mixed", start := "lower", dominantRegion := some (((400/1 : ℚ), (900/1 : ℚ))) } }, root := (11 : ℤ), score := { total := (205/6 : ℚ), pcScore := (25/2 : ℚ), charScore := (20/3 : ℚ), penalty := (0/1 : ℚ), seyirScore := (15/1 : ℚ) } },
  { key := "sazkar", maqam := { name := "Sazkar", intervals := [(0/1 : ℚ), (200/1 : ℚ), (350/1 : ℚ), (500/1 : ℚ), (700/1 : ℚ), (800/1 : ℚ), (1050/1 : ℚ), (1200/1 : ℚ)], characteristic := [(350/1 : ℚ), (800/1 : ℚ), (1050/1 : ℚ)], seyir := { type := "ascending", start := "lower", dominantRegion := some (((500/1 : ℚ), (850/1 : ℚ))) } }, root := (11 : ℤ), score := { total := (27/4 : ℚ), pcScore := (25/4 : ℚ), charScore := (0/1 : ℚ), penalty := (19/2 : ℚ), seyirScore := (10/1 : ℚ) } },
  { key := "shahnaz", maqam := { name := "Shahnaz", intervals := [(0/1 : ℚ), (100/1 : ℚ), (400/1 : ℚ), (500/1 : ℚ), (650/1 : ℚ), (800/1 : ℚ), (1100/1 : ℚ), (1200/1 : ℚ)], characteristic := [(100/1 : ℚ), (400/1 : ℚ), (650/1 : ℚ)], seyir := { type := "descending", start := "upper", dominantRegion := some (((400/1 : ℚ), (700/1 : ℚ))) } }, root := (11 : ℤ), score := { total := (265/6 : ℚ), pcScore := (25/2 : ℚ), charScore := (20/3 : ℚ), penalty := (0/1 : ℚ), seyirScore := (25/1 : ℚ) } },
  { key := "bayati_shuri", maqam := { name := "Bayati Shuri", intervals := [(0/1 : ℚ), (150/1 : ℚ), (300/1 : ℚ), (500/1 : ℚ), (700/1 : ℚ), (800/1 : ℚ), (950/1 : ℚ), (1200/1 : ℚ)], characteristic := [(150/1 : ℚ), (950/1 : ℚ)], seyir := { type := "ascending", start := "lower", dominantRegion := some (((500/1 : ℚ), (800/1 : ℚ))) } }, root := (11 : ℤ), score := { total := (27/4 : ℚ), pcScore := (25/4 : ℚ), charScore := (0/1 : ℚ), penalty := (19/2 : ℚ), seyirScore := (10/1 : ℚ) } },
  { key := "isfahan", maqam := { name := "Isfahan", intervals := [(0/1 : ℚ), (200/1 : ℚ), (350/1 : ℚ), (500/1 : ℚ), (700/1 : ℚ), (850/1 : ℚ), (1050/1 : ℚ), (1200/1 : ℚ)], characteristic := [(350/1 : ℚ), (850/1 : ℚ)], seyir := { type := "ascending", start := "lower", dominantRegion := some (((500/1 : ℚ), (850/1 : ℚ))) } }, root := (11 : ℤ), score := { total := (27/4 : ℚ), pcScore := (25/4 : ℚ), charScore := (0/1 : ℚ), penalty := (19/2 : ℚ), seyirScore := (10/1 : ℚ) } },
  { key := "hijaz_kar_kurd", maqam := { name := "Hijaz Kar Kurd", intervals := [(0/1 : ℚ), (100/1 : ℚ), (400/1 : ℚ), (500/1 : ℚ), (700/1 : ℚ), (800/1 : ℚ), (1100/1 : ℚ), (1200/1 : ℚ)], characteristic := [(100/1 : ℚ), (400/1 : ℚ), (700/1 : ℚ)], seyir := { type := "ascending", start := "lower", dominantRegion := some (((400/1 : ℚ), (800/1 : ℚ))) } }, root := (11 : ℤ), score := { total := (175/6 : ℚ), pcScore := (25/2 : ℚ), charScore := (20/3 : ℚ), penalty := (0/1 : ℚ), seyirScore := (10/1 : ℚ) } },
  { key := "lami", maqam := { name := "Lami", intervals := [(0/1 : ℚ), (150/1 : ℚ), (300/1 : ℚ), (500/1 : ℚ), (700/1 : ℚ), (850/1 : ℚ), (1000/1 : ℚ), (1200/1 : ℚ)], characteristic := [(150/1 : ℚ), (850/1 : ℚ)], seyir := { type := "ascending", start := "lower", dominantRegion := some (((500/1 : ℚ), (850/1 : ℚ))) } }, root := (11 : ℤ), score := { total := (27/4 : ℚ), pcScore := (25/4 : ℚ), charScore := (0/1 : ℚ), penalty := (19/2 : ℚ), seyirScore := (10/1 : ℚ) } },
  { key := "awshar", maqam := { name := "Awshar", intervals := [(0/1 : ℚ), (150/1 : ℚ), (300/1 : ℚ), (500/1 : ℚ), (700/1 : ℚ), (800/1 : ℚ), (1100/1 : ℚ), (1200/1 : ℚ)], characteristic := [(150/1 : ℚ), (300/1 : ℚ)], seyir := { type := "descending", start := "upper", dominantRegion := some (((300/1 : ℚ), (700/1 : ℚ))) } }, root := (11 : ℤ), score := { total := (87/4 : ℚ), pcScore := (25/4 : ℚ), charScore := (0/1 : ℚ), penalty := (19/2 : ℚ), seyirScore := (25/1 : ℚ) } },
  { key := "penchgah", maqam := { name := "Penchgah", intervals := [(0/1 : ℚ), (200/1 : ℚ), (400/1 : ℚ), (500/1 : ℚ), (700/1 : ℚ), (900/1 : ℚ), (1050/1 : ℚ), (1200/1 : ℚ)], characteristic := [(400/1 : ℚ), (1050/1 : ℚ)], seyir := { type := "ascending", start := "lower", dominantRegion := some (((400/1 : ℚ), (900/1 : ℚ))) } }, root := (11 : ℤ), score := { total := (27/4 : ℚ), pcScore := (25/4 : ℚ), charScore := (0/1 : ℚ), penalty := (19/2 : ℚ), seyirScore := (10/1 : ℚ) } },
  { key := "mustaar", maqam := { name := "Mustaar", intervals := [(0/1 : ℚ), (200/1 : ℚ), (350/1 : ℚ), (500/1 : ℚ), (700/1 : ℚ), (900/1 : ℚ), (1050/1 : ℚ), (1200/1 : ℚ)], characteristic := [(350/1 : ℚ), (900/1 : ℚ)], seyir := { type := "ascending", start := "lower", dominantRegion := some (((500/1 : ℚ), (900/1 : ℚ))) } }, root := (11 : ℤ), score := { total := (27/4 : ℚ), pcScore := (25/4 : ℚ), charScore := (0/1 : ℚ), penalty := (19/2 : ℚ), seyirScore := (10/1 : ℚ) } },
  { key := "nairuz", maqam := { name := "Nairuz", intervals := [(0/1 : ℚ), (200/1 : ℚ), (350/1 : ℚ), (500/1 : ℚ), (700/1 : ℚ), (900/1 : ℚ), (1100/1 : ℚ), (1200/1 : ℚ)], characteristic := [(350/1 : ℚ), (1100/1 : ℚ)], seyir := { type := "ascending", start := "lower", dominantRegion := some (((500/1 : ℚ), (900/1 : ℚ))) } }, root := (11 : ℤ), score := { total := (27/4 : ℚ), pcScore := (25/4 : ℚ), charScore := (0/1 : ℚ), penalty := (19/2 : ℚ), seyirScore := (10/1 : ℚ) } },
  { key := "bastah_nikar", maqam := { name := "Bastah Nikar", intervals := [(0/1 : ℚ), (100/1 : ℚ), (400/1 : ℚ), (500/1 : ℚ), (700/1 : ℚ), (900/1 : ℚ), (1100/1 : ℚ), (1200/1 : ℚ)], characteristic := [(100/1 : ℚ), (400/1 : ℚ), (900/1 : ℚ)], seyir := { type := "ascending", start := "lower", dominantRegion := some (((400/1 : ℚ), (900/1 : ℚ))) } }, root := (11 : ℤ), score := { total := (175/6 : ℚ), pcScore := (25/2 : ℚ), charScore := (20/3 : ℚ), penalty := (0/1 : ℚ), seyirScore := (10/1 : ℚ) } },
  { key := "murassa", maqam := { name := "Murassa", intervals := [(0/1 : ℚ), (100/1 : ℚ), (300/1 : ℚ), (500/1 : ℚ), (700/1 : ℚ), (800/1 : ℚ), (1100/1 : ℚ), (1200/1 : ℚ)], characteristic := [(100/1 : ℚ), (300/1 : ℚ), (800/1 : ℚ)], seyir := { type := "descending", start := "upper", dominantRegion := some (((400/1 : ℚ), (800/1 : ℚ))) } }, root := (11 : ℤ), score := { total := (265/6 : ℚ), pcScore := (25/2 : ℚ), charScore := (20/3 : ℚ), penalty := (0/1 : ℚ), seyirScore := (25/1 : ℚ) } },
  { key := "mazmum", maqam := { name := "Mazmum", intervals := [(0/1 : ℚ), (150/1 : ℚ), (300/1 : ℚ), (500/1 : ℚ), (700/1 : ℚ), (900/1 : ℚ), (1100/1 : ℚ), (1200/1 : ℚ)], characteristic := [(150/1 : ℚ), (300/1 : ℚ)], seyir := { type := "ascending", start := "lower", dominantRegion := some (((500/1 : ℚ), (900/1 : ℚ))) } }, root := (11 : ℤ), score := { total := (27/4 : ℚ), pcScore := (25/4 : ℚ), charScore := (0/1 : ℚ), penalty := (19/2 : ℚ), seyirScore := (10/1 : ℚ) } },
  { key := "nawakht", maqam := { name := "Nawakht", intervals := [(0/1 : ℚ), (200/1 : ℚ), (300/1 : ℚ), (600/1 : ℚ), (700/1 : ℚ), (900/1 : ℚ), (1100/1 : ℚ), (1200/1 : ℚ)], characteristic := [(300/1 : ℚ), (600/1 : ℚ)], seyir := { type := "ascending", start := "lower", dominantRegion := some (((600/1 : ℚ), (900/1 : ℚ))) } }, root := (11 : ℤ), score := { total := (7/4 : ℚ), pcScore := (25/4 : ℚ), charScore := (0/1 : ℚ), penalty := (19/2 : ℚ), seyirScore := (5/1 : ℚ) } },
  { key := "bayati_ajam", maqam := { name := "Bayati Ajam", intervals := [(0/1 : ℚ), (150/1 : ℚ), (300/1 : ℚ), (500/1 : ℚ), (700/1 : ℚ), (900/1 : ℚ), (1100/1 : ℚ), (1200/1 : ℚ)], characteristic := [(150/1 : ℚ), (900/1 : ℚ), (1100/1 : ℚ)], seyir := { type := "ascending", start := "lower", dominantRegion := some (((500/1 : ℚ), (1000/1 : ℚ))) } }, root := (11 : ℤ), score := { total := (27/4 : ℚ), pcScore := (25/4 : ℚ), charScore := (0/1 : ℚ), penalty := (19/2 : ℚ), seyirScore := (10/1 : ℚ) } },
  { key := "rast_jadid", maqam := { name := "Rast Jadid", intervals := [(0/1 : ℚ), (200/1 : ℚ), (350/1 : ℚ), (500/1 : ℚ), (700/1 : ℚ), (850/1 : ℚ), (1050/1 : ℚ), (1200/1 : ℚ)], characteristic := [(350/1 : ℚ), (850/1 : ℚ)], seyir := { type := "ascending", start := "lower", dominantRegion := some (((500/1 : ℚ), (900/1 : ℚ))) } }, root := (11 : ℤ), score := { total := (27/4 : ℚ), pcScore := (25/4 : ℚ), charScore := (0/1 : ℚ), penalty := (19/2 : ℚ), seyirScore := (10/1 : ℚ) } }]

/-- Candidate scores of `c4sNotes` at its second inferred root. -/
def c4sCandsB : List Candidate := [
  { key := "rast", maqam := { name := "Rast", intervals := [(0/1 : ℚ), (200/1 : ℚ), (350/1 : ℚ), (500/1 : ℚ), (700/1 : ℚ), (900/1 : ℚ), (1050/1 : ℚ), (1200/1 : ℚ)], characteristic := [(350/1 : ℚ), (700/1 : ℚ)], seyir := { type := "ascending", start := "lower", dominantRegion := some (((500/1 : ℚ), (900/1 : ℚ))) } }, root := (0 : ℤ), score := { total := (27/2 : ℚ), pcScore := (25/2 : ℚ), charScore := (0/1 : ℚ), penalty := (4/1 : ℚ), seyirScore := (5/1 : ℚ) } },
  { key := "bayati", maqam := { name := "Bayati", intervals := [(0/1 : ℚ), (150/1 : ℚ), (300/1 : ℚ), (500/1 : ℚ), (700/1 : ℚ), (800/1 : ℚ), (1000/1 : ℚ), (1200/1 : ℚ)], characteristic := [(150/1 : ℚ), (700/1 : ℚ)], seyir := { type := "ascending", start := "lower", dominantRegion := some (((500/1 : ℚ), (800/1 : ℚ))) } }, root := (0 : ℤ), score := { total := (27/2 : ℚ), pcScore := (25/2 : ℚ), charScore := (0/1 : ℚ), penalty := (4/1 : ℚ), seyirScore := (5/1 : ℚ) } },
  { key := "hijaz", maqam := { name := "Hijaz", intervals := [(0/1 : ℚ), (100/1 : ℚ), (400/1 : ℚ), (500/1 : ℚ), (700/1 : ℚ), (800/1 : ℚ), (1100/1 : ℚ), (1200/1 : ℚ)], characteristic := [(100/1 : ℚ), (400/1 : ℚ)], seyir := { type := "descending", start := "middle", dominantRegion := some (((700/1 : ℚ), (800/1 : ℚ))) } }, root := (0 : ℤ), score := { total := (285/8 : ℚ), pcScore := (125/8 : ℚ), charScore := (0/1 : ℚ), penalty := (0/1 : ℚ), seyirScore := (20/1 : ℚ) } },
  { key := "nahawand", maqam := { name := "Nahawand", intervals := [(0/1 : ℚ), (200/1 : ℚ), (300/1 : ℚ), (500/1 : ℚ), (700/1 : ℚ), (800/1 : ℚ), (1100/1 : ℚ), (1200/1 : ℚ)], characteristic := [(300/1 : ℚ), (700/1 : ℚ)], seyir := { type := "descending", start := "upper", dominantRegion := some (((200/1 : ℚ), (700/1 : ℚ))) } }, root := (0 : ℤ), score := { total := (325/8 : ℚ), pcScore := (125/8 : ℚ), charScore := (0/1 : ℚ), penalty := (0/1 : ℚ), seyirScore := (25/1 : ℚ) } },
  { key := "ajam", maqam := { name := "Ajam", intervals := [(0/1 : ℚ), (200/1 : ℚ), (400/1 : ℚ), (500/1 : ℚ), (700/1 : ℚ), (900/1 : ℚ), (1100/1 : ℚ), (1200/1 : ℚ)], characteristic := [(400/1 : ℚ), (1100/1 : ℚ)], seyir := { type := "ascending", start := "lower", dominantRegion := some (((400/1 : ℚ), (900/1 : ℚ))) } }, root := (0 : ℤ), score := { total := (245/8 : ℚ), pcScore := (125/8 : ℚ), charScore := (5/1 : ℚ), penalty := (0/1 : ℚ), seyirScore := (10/1 : ℚ) } },
  { key := "husseini", maqam := { name := "Husseini", intervals := [(0/1 : ℚ), (150/1 : ℚ), (350/1 : ℚ), (500/1 : ℚ), (700/1 : ℚ), (850/1 : ℚ), (1000/1 : ℚ), (1200/1 : ℚ)], characteristic := [(150/1 : ℚ), (350/1 : ℚ), (850/1 : ℚ)], seyir := { type := "ascending", start := "lower", dominantRegion := some (((500/1 : ℚ), (850/1 : ℚ))) } }, root := (0 : ℤ), score := { total := (27/2 : ℚ), pcScore := (25/2 : ℚ), charScore := (0/1 : ℚ), penalty := (4/1 : ℚ), seyirScore := (5/1 : ℚ) } },
  { key := "saba", maqam := { name := "Saba", intervals := [(0/1 : ℚ), (150/1 : ℚ), (300/1 : ℚ), (450/1 : ℚ), (700/1 : ℚ), (800/1 : ℚ), (1000/1 : ℚ), (1200/1 : ℚ)], characteristic := [(150/1 : ℚ), (450/1 : ℚ)], seyir := { type := "ascending", start := "lower", dominantRegion := some (((150/1 : ℚ), (500/1 : ℚ))) } }, root := (0 : ℤ), score := { total := (37/2 : ℚ), pcScore := (25/2 : ℚ), charScore := (0/1 : ℚ), penalty := (4/1 : ℚ), seyirScore := (10/1 : ℚ) } },
  { key := "kurd", maqam := { name := "Kurd", intervals := [(0/1 : ℚ), (100/1 : ℚ), (300/1 : ℚ), (500/1 : ℚ), (700/1 : ℚ), (800/1 : ℚ), (1000/1 : ℚ), (1200/1 : ℚ)], characteristic := [(100/1 : ℚ), (300/1 : ℚ)], seyir := { type := "descending", start := "middle", dominantRegion := some (((200/1 : ℚ), (700/1 : ℚ))) } }, root := (0 : ℤ), score := { total := (67/2 : ℚ), pcScore := (25/2 : ℚ), charScore := (0/1 : ℚ), penalty := (4/1 : ℚ), seyirScore := (25/1 : ℚ) } },
  { key := "sikah", maqam := { name := "Sikah", intervals := [(0/1 : ℚ), (150/1 : ℚ), (350/1 : ℚ), (500/1 : ℚ), (700/1 : ℚ), (850/1 : ℚ), (1050/1 : ℚ), (1200/1 : ℚ)], characteristic := [(150/1 : ℚ), (350/1 : ℚ)], seyir := { type := "ascending", start := "lower", dominantRegion := some (((350/1 : ℚ), (700/1 : ℚ))) } }, root := (0 : ℤ), score := { total := (37/2 : ℚ), pcScore := (25/2 : ℚ), charScore := (0/1 : ℚ), penalty := (4/1 : ℚ), seyirScore := (10/1 : ℚ) } },
  { key := "hicazkar", maqam := { name := "Hicazkar", intervals := [(0/1 : ℚ), (100/1 : ℚ), (400/1 : ℚ), (500/1 : ℚ), (700/1 : ℚ), (800/1 : ℚ), (1100/1 : ℚ), (1200/1 : ℚ)], characteristic := [(100/1 : ℚ), (400/1 : ℚ), (800/1 : ℚ)], seyir := { type := "mixed", start := "lower", dominantRegion := some (((400/1 : ℚ), (900/1 : ℚ))) } }, root := (0 : ℤ), score := { total := (245/8 : ℚ), pcScore := (125/8 : ℚ), charScore := (0/1 : ℚ), penalty := (0/1 : ℚ), seyirScore := (15/1 : ℚ) } },
  { key := "ushshaq", maqam := { name := "Ushshaq", intervals := [(0/1 : ℚ), (150/1 : ℚ), (300/1 : ℚ), (500/1 : ℚ), (700/1 : ℚ), (900/1 : ℚ), (1050/1 : ℚ), (1200/1 : ℚ)], characteristic := [(150/1 : ℚ), (300/1 : ℚ), (900/1 : ℚ)], seyir := { type := "ascending", start := "lower", dominantRegion := some (((500/1 : ℚ), (900/1 : ℚ))) } }, root := (0 : ℤ), score := { total := (27/2 : ℚ), pcScore := (25/2 : ℚ), charScore := (0/1 : ℚ), penalty := (4/1 : ℚ), seyirScore := (5/1 : ℚ) } },
  { key := "nawa_athar", maqam := { name := "Nawa Athar", intervals := [(0/1 : ℚ), (200/1 : ℚ), (300/1 : ℚ), (600/1 : ℚ), (700/1 : ℚ), (800/1 : ℚ), (1100/1 : ℚ), (1200/1 : ℚ)], characteristic := [(300/1 : ℚ), (600/1 : ℚ)], seyir := { type := "descending", start := "upper", dominantRegion := some (((200/1 : ℚ), (700/1 : ℚ))) } }, root := (0 : ℤ), score := { total := (325/8 : ℚ), pcScore := (125/8 : ℚ), charScore := (0/1 : ℚ), penalty := (0/1 : ℚ), seyirScore := (25/1 : ℚ) } },
  { key := "nikriz", maqam := { name := "Nikriz", intervals := [(0/1 : ℚ), (200/1 : ℚ), (300/1 : ℚ), (600/1 : ℚ), (700/1 : ℚ), (900/1 : ℚ), (1100/1 : ℚ), (1200/1 : ℚ)], characteristic := [(300/1 : ℚ), (600/1 : ℚ)], seyir := { type := "ascending", start := "lower", dominantRegion := some (((600/1 : ℚ), (900/1 : ℚ))) } }, root := (0 : ℤ), score := { total := (165/8 : ℚ), pcScore := (125/8 : ℚ), charScore := (0/1 : ℚ), penalty := (0/1 : ℚ), seyirScore := (5/1 : ℚ) } },
  { key := "suznak", maqam := { name := "Suznak", intervals := [(0/1 : ℚ), (200/1 : ℚ), (350/1 : ℚ), (500/1 : ℚ), (700/1 : ℚ), (800/1 : ℚ), (1100/1 : ℚ), (1200/1 : ℚ)], characteristic := [(350/1 : ℚ), (800/1 : ℚ), (1100/1 : ℚ)], seyir := { type := "ascending", start := "lower", dominantRegion := some (((500/1 : ℚ), (900/1 : ℚ))) } }, root := (0 : ℤ), score := { total := (575/24 : ℚ), pcScore := (125/8 : ℚ), charScore := (10/3 : ℚ), penalty := (0/1 : ℚ), seyirScore := (5/1 : ℚ) } },
  { key := "segah", maqam := { name := "Segah", intervals := [(0/1 : ℚ), (150/1 : ℚ), (350/1 : ℚ), (500/1 : ℚ), (700/1 : ℚ), (850/1 : ℚ), (1050/1 : ℚ), (1200/1 : ℚ)], characteristic := [(150/1 : ℚ), (350/1 : ℚ)], seyir := { type := "ascending", start := "lower", dominantRegion := some (((350/1 : ℚ), (700/1 : ℚ))) } }, root := (0 : ℤ), score := { total := (37/2 : ℚ), pcScore := (25/2 : ℚ), charScore := (0/1 : ℚ), penalty := (4/1 : ℚ), seyirScore := (10/1 : ℚ) } },
  { key := "mahur", maqam := { name := "Mahur", intervals := [(0/1 : ℚ), (200/1 : ℚ), (400/1 : ℚ), (500/1 : ℚ), (700/1 : ℚ), (900/1 : ℚ), (1100/1 : ℚ), (1200/1 : ℚ)], characteristic := [(400/1 : ℚ), (700/1 : ℚ)], seyir := { type := "ascending", start := "lower", dominantRegion := some (((400/1 : ℚ), (900/1 : ℚ))) } }, root := (0 : ℤ), score := { total := (205/8 : ℚ), pcScore := (125/8 : ℚ), charScore := (0/1 : ℚ), penalty := (0/1 : ℚ), seyirScore := (10/1 : ℚ) } },
  { key := "chahargah", maqam := { name := "Chahargah", intervals := [(0/1 : ℚ), (150/1 : ℚ), (400/1 : ℚ), (500/1 : ℚ), (700/1 : ℚ), (850/1 : ℚ), (1100/1 : ℚ), (1200/1 : ℚ)], characteristic := [(150/1 : ℚ), (400/1 : ℚ), (850/1 : ℚ)], seyir := { type := "ascending", start := "lower", dominantRegion := some (((500/1 : ℚ), (900/1 : ℚ))) } }, root := (0 : ℤ), score := { total := (165/8 : ℚ), pcScore := (125/8 : ℚ), charScore := (0/1 : ℚ), penalty := (0/1 : ℚ), seyirScore := (5/1 : ℚ) } },
  { key := "shur", maqam := { name := "Shur", intervals := [(0/1 : ℚ), (150/1 : ℚ), (300/1 : ℚ), (500/1 : ℚ), (700/1 : ℚ), (800/1 : ℚ), (1000/1 : ℚ), (1200/1 : ℚ)], characteristic := [(150/1 : ℚ), (300/1 : ℚ)], seyir := { type := "descending", start := "upper", dominantRegion := some (((300/1 : ℚ), (700/1 : ℚ))) } }, root := (0 : ℤ), score := { total := (67/2 : ℚ), pcScore := (25/2 : ℚ), charScore := (0/1 : ℚ), penalty := (4/1 : ℚ), seyirScore := (25/1 : ℚ) } },
  { key := "dashti", maqam := { name := "Dashti", intervals := [(0/1 : ℚ), (150/1 : ℚ), (300/1 : ℚ), (500/1 : ℚ), (700/1 : ℚ), (800/1 : ℚ), (950/1 : ℚ), (1200/1 : ℚ)], characteristic := [(150/1 : ℚ), (950/1 : ℚ)], seyir := { type := "descending", start := "upper", dominantRegion := some (((300/1 : ℚ), (700/1 : ℚ))) } }, root := (0 : ℤ), score := { total := (67/2 : ℚ), pcScore := (25/2 : ℚ), charScore := (0/1 : ℚ), penalty := (4/1 : ℚ), seyirScore := (25/1 : ℚ) } },
  { key := "homayoun", maqam := { name := "Homayoun", intervals := [(0/1 : ℚ), (150/1 : ℚ), (400/1 : ℚ), (500/1 : ℚ), (700/1 : ℚ), (800/1 : ℚ), (1100/1 : ℚ), (1200/1 : ℚ)], characteristic := [(150/1 : ℚ), (400/1 : ℚ)], seyir := { type := "ascending", start := "lower", dominantRegion := some (((500/1 : ℚ), (900/1 : ℚ))) } }, root := (0 : ℤ), score := { total := (165/8 : ℚ), pcScore := (125/8 : ℚ), charScore := (0/1 : ℚ), penalty := (0/1 : ℚ), seyirScore := (5/1 : ℚ) } },
  { key := "shadd_araban", maqam := { name := "Shadd Araban", intervals := [(0/1 : ℚ), (100/1 : ℚ), (400/1 : ℚ), (500/1 : ℚ), (700/1 : ℚ), (800/1 : ℚ), (1100/1 : ℚ), (1200/1 : ℚ)], characteristic := [(100/1 : ℚ), (400/1 : ℚ)], seyir := { type := "descending", start := "upper", dominantRegion := some (((400/1 : ℚ), (800/1 : ℚ))) } }, root := (0 : ℤ), score := { total := (325/8 : ℚ), pcScore := (125/8 : ℚ), charScore := (0/1 : ℚ), penalty := (0/1 : ℚ), seyirScore := (25/1 : ℚ) } },
  { key := "zanjaran", maqam := { name := "Zanjaran", intervals := [(0/1 : ℚ), (150/1 : ℚ), (300/1 : ℚ), (500/1 : ℚ), (700/1 : ℚ), (900/1 : ℚ), (1050/1 : ℚ), (1200/1 : ℚ)], characteristic := [(150/1 : ℚ), (900/1 : ℚ)], seyir := { type := "ascending", start := "lower", dominantRegion := some (((500/1 : ℚ), (900/1 : ℚ))) } }, root := (0 : ℤ), score := { total := (27/2 : ℚ), pcScore := (25/2 : ℚ), charScore := (0/1 : ℚ), penalty := (4/1 : ℚ), seyirScore := (5/1 : ℚ) } },
  { key := "farahfaza", maqam := { name := "Farahfaza", intervals := [(0/1 : ℚ), (200/1 : ℚ), (300/1 : ℚ), (500/1 : ℚ), (700/1 : ℚ), (800/1 : ℚ), (1000/1 : ℚ), (1200/1 : ℚ)], characteristic := [(300/1 : ℚ), (700/1 : ℚ), (800/1 : ℚ)], seyir := { type := "descending", start := "upper", dominantRegion := some (((200/1 : ℚ), (700/1 : ℚ))) } }, root := (0 : ℤ), score := { total := (67/2 : ℚ), pcScore := (25/2 : ℚ), charScore := (0/1 : ℚ), penalty := (4/1 : ℚ), seyirScore := (25/1 : ℚ) } },
  { key := "iraq", maqam := { name := "Iraq", intervals := [(0/1 : ℚ), (150/1 : ℚ), (350/1 : ℚ), (500/1 : ℚ), (650/1 : ℚ), (850/1 : ℚ), (1050/1 : ℚ), (1200/1 : ℚ)], characteristic := [(150/1 : ℚ), (650/1 : ℚ)], seyir := { type := "ascending", start := "lower", dominantRegion := some (((350/1 : ℚ), (700/1 : ℚ))) } }, root := (0 : ℤ), score := { total := (37/2 : ℚ), pcScore := (25/2 : ℚ), charScore := (0/1 : ℚ), penalty := (4/1 : ℚ), seyirScore := (10/1 : ℚ) } },
  { key := "athar_kurd", maqam := { name := "Athar Kurd", intervals := [(0/1 : ℚ), (100/1 : ℚ), (300/1 : ℚ), (600/1 : ℚ), (700/1 : ℚ), (800/1 : ℚ), (1100/1 : ℚ), (1200/1 : ℚ)], characteristic := [(100/1 : ℚ), (300/1 : ℚ), (600/1 : ℚ)], seyir := { type := "descending", start := "upper", dominantRegion := some (((300/1 : ℚ), (700/1 : ℚ))) } }, root := (0 : ℤ), score := { total := (325/8 : ℚ), pcScore := (125/8 : ℚ), charScore := (0/1 : ℚ), penalty := (0/1 : ℚ), seyirScore := (25/1 : ℚ) } },
  { key := "jiharkah", maqam := { name := "Jiharkah", intervals := [(0/1 : ℚ), (200/1 : ℚ), (350/1 : ℚ), (500/1 : ℚ), (700/1 : ℚ), (900/1 : ℚ), (1100/1 : ℚ), (1200/1 : ℚ)], characteristic := [(350/1 : ℚ), (900/1 : ℚ)], seyir := { type := "ascending", start := "lower", dominantRegion := some (((500/1 : ℚ), (900/1 : ℚ))) } }, root := (0 : ℤ), score := { total := (165/8 : ℚ), pcScore := (125/8 : ℚ), charScore := (0/1 : ℚ), penalty := (0/1 : ℚ), seyirScore := (5/1 : ℚ) } },
  { key := "muhayyer", maqam := { name := "Muhayyer", intervals := [(0/1 : ℚ), (150/1 : ℚ), (350/1 : ℚ), (500/1 : ℚ), (700/1 : ℚ), (850/1 : ℚ), (1050/1 : ℚ), (1200/1 : ℚ)], characteristic := [(150/1 : ℚ), (850/1 : ℚ)], seyir := { type := "descending", start := "upper", dominantRegion := some (((500/1 : ℚ), (850/1 : ℚ))) } }, root := (0 : ℤ), score := { total := (57/2 : ℚ), pcScore := (25/2 : ℚ), charScore := (0/1 : ℚ), penalty := (4/1 : ℚ), seyirScore := (20/1 : ℚ) } },
  { key := "saba_zamzam", maqam := { name := "Saba Zamzam", intervals := [(0/1 : ℚ), (150/1 : ℚ), (300/1 : ℚ), (450/1 : ℚ), (600/1 : ℚ), (800/1 : ℚ), (1000/1 : ℚ), (1200/1 : ℚ)], characteristic := [(150/1 : ℚ), (450/1 : ℚ), (600/1 : ℚ)], seyir := { type := "ascending", start := "lower", dominantRegion := some (((150/1 : ℚ), (500/1 : ℚ))) } }, root := (0 : ℤ), score := { total := (37/2 : ℚ), pcScore := (25/2 : ℚ), charScore := (0/1 : ℚ), penalty := (4/1 : ℚ), seyirScore := (10/1 : ℚ) } },
  { key := "awj_ara", maqam := { name := "Awj Ara", intervals := [(0/1 : ℚ), (150/1 : ℚ), (350/1 : ℚ), (500/1 : ℚ), (700/1 : ℚ), (800/1 : ℚ), (1050/1 : ℚ), (1200/1 : ℚ)], characteristic := [(150/1 : ℚ), (350/1 : ℚ), (1050/1 : ℚ)], seyir := { type := "ascending", start := "lower", dominantRegion := some (((350/1 : ℚ), (700/1 : ℚ))) } }, root := (0 : ℤ), score := { total := (37/2 : ℚ), pcScore := (25/2 : ℚ), charScore := (0/1 : ℚ), penalty := (4/1 : ℚ), seyirScore := (10/1 : ℚ) } },
  { key := "mustar", maqam := { name := "Mustar", intervals := [(0/1 : ℚ), (200/1 : ℚ), (350/1 : ℚ), (500/1 : ℚ), (700/1 : ℚ), (800/1 : ℚ), (1050/1 : ℚ), (1200/1 : ℚ)], characteristic := [(350/1 : ℚ), (800/1 : ℚ)], seyir := { type := "ascending", start := "lower", dominantRegion := some (((500/1 : ℚ), (800/1 : ℚ))) } }, root := (0 : ℤ), score := { total := (27/2 : ℚ), pcScore := (25/2 : ℚ), charScore := (0/1 : ℚ), penalty := (4/1 : ℚ), seyirScore := (5/1 : ℚ) } },
  { key := "buselik", maqam := { name := "Buselik", intervals := [(0/1 : ℚ), (200/1 : ℚ), (300/1 : ℚ), (500/1 : ℚ), (700/1 : ℚ), (900/1 : ℚ), (1000/1 : ℚ), (1200/1 : ℚ)], characteristic := [(300/1 : ℚ), (900/1 : ℚ)], seyir := { type := "ascending", start := "lower", dominantRegion := some (((400/1 : ℚ), (900/1 : ℚ))) } }, root := (0 : ℤ), score := { total := (37/2 : ℚ), pcScore := (25/2 : ℚ), charScore := (0/1 : ℚ), penalty := (4/1 : ℚ), seyirScore := (10/1 : ℚ) } },
  { key := "kurdilihicazkar", maqam := { name := "Kurdilihicazkar", intervals := [(0/1 : ℚ), (100/1 : ℚ), (300/1 : ℚ), (500/1 : ℚ), (700/1 : ℚ), (800/1 : ℚ), (1100/1 : ℚ), (1200/1 : ℚ)], characteristic := [(100/1 : ℚ), (300/1 : ℚ), (1100/1 : ℚ)], seyir := { type := "mixed", start := "lower", dominantRegion := some (((400/1 : ℚ), (900/1 : ℚ))) } }, root := (0 : ℤ), score := { total := (815/24 : ℚ), pcScore := (125/8 : ℚ), charScore := (10/3 : ℚ), penalty := (0/1 : ℚ), seyirScore := (15/1 : ℚ) } },
  { key := "sazkar", maqam := { name := "Sazkar", intervals := [(0/1 : ℚ), (200/1 : ℚ), (350/1 : ℚ), (500/1 : ℚ), (700/1 : ℚ), (800/1 : ℚ), (1050/1 : ℚ), (1200/1 : ℚ)], characteristic := [(350/1 : ℚ), (800/1 : ℚ), (1050/1 : ℚ)], seyir := { type := "ascending", start := "lower", dominantRegion := some (((500/1 : ℚ), (850/1 : ℚ))) } }, root := (0 : ℤ), score := { total := (27/2 : ℚ), pcScore := (25/2 : ℚ), charScore := (0/1 : ℚ), penalty := (4/1 : ℚ), seyirScore := (5/1 : ℚ) } },
  { key := "shahnaz", maqam := { name := "Shahnaz", intervals := [(0/1 : ℚ), (100/1 : ℚ), (400/1 : ℚ), (500/1 : ℚ), (650/1 : ℚ), (800/1 : ℚ), (1100/1 : ℚ), (1200/1 : ℚ)], characteristic := [(100/1 : ℚ), (400/1 : ℚ), (650/1 : ℚ)], seyir := { type := "descending", start := "upper", dominantRegion := some (((400/1 : ℚ), (700/1 : ℚ))) } }, root := (0 : ℤ), score := { total := (325/8 : ℚ), pcScore := (125/8 : ℚ), charScore := (0/1 : ℚ), penalty := (0/1 : ℚ), seyirScore := (25/1 : ℚ) } },
  { key := "bayati_shuri", maqam := { name := "Bayati Shuri", intervals := [(0/1 : ℚ), (150/1 : ℚ), (300/1 : ℚ), (500/1 : ℚ), (700/1 : ℚ), (800/1 : ℚ), (950/1 : ℚ), (1200/1 : ℚ)], characteristic := [(150/1 : ℚ), (950/1 : ℚ)], seyir := { type := "ascending", start := "lower", dominantRegion := some (((500/1 : ℚ), (800/1 : ℚ))) } }, root := (0 : ℤ), score := { total := (27/2 : ℚ), pcScore := (25/2 : ℚ), charScore := (0/1 : ℚ), penalty := (4/1 : ℚ), seyirScore := (5/1 : ℚ) } },
  { key := "isfahan", maqam := { name := "Isfahan", intervals := [(0/1 : ℚ), (200/1 : ℚ), (350/1 : ℚ), (500/1 : ℚ), (700/1 : ℚ), (850/1 : ℚ), (1050/1 : ℚ), (1200/1 : ℚ)], characteristic := [(350/1 : ℚ), (850/1 : ℚ)], seyir := { type := "ascending", start := "lower", dominantRegion := some (((500/1 : ℚ), (850/1 : ℚ))) } }, root := (0 : ℤ), score := { total := (27/2 : ℚ), pcScore := (25/2 : ℚ), charScore := (0/1 : ℚ), penalty := (4/1 : ℚ), seyirScore := (5/1 : ℚ) } },
  { key := "hijaz_kar_kurd", maqam := { name := "Hijaz Kar Kurd", intervals := [(0/1 : ℚ), (100/1 : ℚ), (400/1 : ℚ), (500/1 : ℚ), (700/1 : ℚ), (800/1 : ℚ), (1100/1 : ℚ), (1200/1 : ℚ)], characteristic := [(100/1 : ℚ), (400/1 : ℚ), (700/1 : ℚ)], seyir := { type := "ascending", start := "lower", dominantRegion := some (((400/1 : ℚ), (800/1 : ℚ))) } }, root := (0 : ℤ), score := { total := (205/8 : ℚ), pcScore := (125/8 : ℚ), charScore := (0/1 : ℚ), penalty := (0/1 : ℚ), seyirScore := (10/1 : ℚ) } },
  { key := "lami", maqam := { name := "Lami", intervals := [(0/1 : ℚ), (150/1 : ℚ), (300/1 : ℚ), (500/1 : ℚ), (700/1 : ℚ), (850/1 : ℚ), (1000/1 : ℚ), (1200/1 : ℚ)], characteristic := [(150/1 : ℚ), (850/1 : ℚ)], seyir := { type := "ascending", start := "lower", dominantRegion := some (((500/1 : ℚ), (850/1 : ℚ))) } }, root := (0 : ℤ), score := { total := (27/2 : ℚ), pcScore := (25/2 : ℚ), charScore := (0/1 : ℚ), penalty := (4/1 : ℚ), seyirScore := (5/1 : ℚ) } },
  { key := "awshar", maqam := { name := "Awshar", intervals := [(0/1 : ℚ), (150/1 : ℚ), (300/1 : ℚ), (500/1 : ℚ), (700/1 : ℚ), (800/1 : ℚ), (1100/1 : ℚ), (1200/1 : ℚ)], characteristic := [(150/1 : ℚ), (300/1 : ℚ)], seyir := { type := "descending", start := "upper", dominantRegion := some (((300/1 : ℚ), (700/1 : ℚ))) } }, root := (0 : ℤ), score := { total := (325/8 : ℚ), pcScore := (125/8 : ℚ), charScore := (0/1 : ℚ), penalty := (0/1 : ℚ), seyirScore := (25/1 : ℚ) } },
  { key := "penchgah", maqam := { name := "Penchgah", intervals := [(0/1 : ℚ), (200/1 : ℚ), (400/1 : ℚ), (500/1 : ℚ), (700/1 : ℚ), (900/1 : ℚ), (1050/1 : ℚ), (1200/1 : ℚ)], characteristic := [(400/1 : ℚ), (1050/1 : ℚ)], seyir := { type := "ascending", start := "lower", dominantRegion := some (((400/1 : ℚ), (900/1 : ℚ))) } }, root := (0 : ℤ), score := { total := (37/2 : ℚ), pcScore := (25/2 : ℚ), charScore := (0/1 : ℚ), penalty := (4/1 : ℚ), seyirScore := (10/1 : ℚ) } },
  { key := "mustaar", maqam := { name := "Mustaar", intervals := [(0/1 : ℚ), (200/1 : ℚ), (350/1 : ℚ), (500/1 : ℚ), (700/1 : ℚ), (900/1 : ℚ), (1050/1 : ℚ), (1200/1 : ℚ)], characteristic := [(350/1 : ℚ), (900/1 : ℚ)], seyir := { type := "ascending", start := "lower", dominantRegion := some (((500/1 : ℚ), (900/1 : ℚ))) } }, root := (0 : ℤ), score := { total := (27/2 : ℚ), pcScore := (25/2 : ℚ), charScore := (0/1 : ℚ), penalty := (4/1 : ℚ), seyirScore := (5/1 : ℚ) } },
  { key := "nairuz", maqam := { name := "Nairuz", intervals := [(0/1 : ℚ), (200/1 : ℚ), (350/1 : ℚ), (500/1 : ℚ), (700/1 : ℚ), (900/1 : ℚ), (1100/1 : ℚ), (1200/1 : ℚ)], characteristic := [(350/1 : ℚ), (1100/1 : ℚ)], seyir := { type := "ascending", start := "lower", dominantRegion := some (((500/1 : ℚ), (900/1 : ℚ))) } }, root := (0 : ℤ), score := { total := (205/8 : ℚ), pcScore := (125/8 : ℚ), charScore := (5/1 : ℚ), penalty := (0/1 : ℚ), seyirScore := (5/1 : ℚ) } },
  { key := "bastah_nikar", maqam := { name := "Bastah Nikar", intervals := [(0/1 : ℚ), (100/1 : ℚ), (400/1 : ℚ), (500/1 : ℚ), (700/1 : ℚ), (900/1 : ℚ), (1100/1 : ℚ), (1200/1 : ℚ)], characteristic := [(100/1 : ℚ), (400/1 : ℚ), (900/1 : ℚ)], seyir := { type := "ascending", start := "lower", dominantRegion := some (((400/1 : ℚ), (900/1 : ℚ))) } }, root := (0 : ℤ), score := { total := (205/8 : ℚ), pcScore := (125/8 : ℚ), charScore := (0/1 : ℚ), penalty := (0/1 : ℚ), seyirScore := (10/1 : ℚ) } },
  { key := "murassa", maqam := { name := "Murassa", intervals := [(0/1 : ℚ), (100/1 : ℚ), (300/1 : ℚ), (500/1 : ℚ), (700/1 : ℚ), (800/1 : ℚ), (1100/1 : ℚ), (1200/1 : ℚ)], characteristic := [(100/1 : ℚ), (300/1 : ℚ), (800/1 : ℚ)], seyir := { type := "descending", start := "upper", dominantRegion := some (((400/1 : ℚ), (800/1 : ℚ))) } }, root := (0 : ℤ), score := { total := (325/8 : ℚ), pcScore := (125/8 : ℚ), charScore := (0/1 : ℚ), penalty := (0/1 : ℚ), seyirScore := (25/1 : ℚ) } },
  { key := "mazmum", maqam := { name := "Mazmum", intervals := [(0/1 : ℚ), (150/1 : ℚ), (300/1 : ℚ), (500/1 : ℚ), (700/1 : ℚ), (900/1 : ℚ), (1100/1 : ℚ), (1200/1 : ℚ)], characteristic := [(150/1 : ℚ), (300/1 : ℚ)], seyir := { type := "ascending", start := "lower", dominantRegion := some (((500/1 : ℚ), (900/1 : ℚ))) } }, root := (0 : ℤ), score := { total := (165/8 : ℚ), pcScore := (125/8 : ℚ), charScore := (0/1 : ℚ), penalty := (0/1 : ℚ), seyirScore := (5/1 : ℚ) } },
  { key := "nawakht", maqam := { name := "Nawakht", intervals := [(0/1 : ℚ), (200/1 : ℚ), (300/1 : ℚ), (600/1 : ℚ), (700/1 : ℚ), (900/1 : ℚ), (1100/1 : ℚ), (1200/1 : ℚ)], characteristic := [(300/1 : ℚ), (600/1 : ℚ)], seyir := { type := "ascending", start := "lower", dominantRegion := some (((600/1 : ℚ), (900/1 : ℚ))) } }, root := (0 : ℤ), score := { total := (165/8 : ℚ), pcScore := (125/8 : ℚ), charScore := (0/1 : ℚ), penalty := (0/1 : ℚ), seyirScore := (5/1 : ℚ) } },
  { key := "bayati_ajam", maqam := { name := "Bayati Ajam", intervals := [(0/1 : ℚ), (150/1 : ℚ), (300/1 : ℚ), (500/1 : ℚ), (700/1 : ℚ), (900/1 : ℚ), (1100/1 : ℚ), (1200/1 : ℚ)], characteristic := [(150/1 : ℚ), (900/1 : ℚ), (1100/1 : ℚ)], seyir := { type := "ascending", start := "lower", dominantRegion := some (((500/1 : ℚ), (1000/1 : ℚ))) } }, root := (0 : ℤ), score := { total := (575/24 : ℚ), pcScore := (125/8 : ℚ), charScore := (10/3 : ℚ), penalty := (0/1 : ℚ), seyirScore := (5/1 : ℚ) } },
  { key := "rast_jadid", maqam := { name := "Rast Jadid", intervals := [(0/1 : ℚ), (200/1 : ℚ), (350/1 : ℚ), (500/1 : ℚ), (700/1 : ℚ), (850/1 : ℚ), (1050/1 : ℚ), (1200/1 : ℚ)], characteristic := [(350/1 : ℚ), (850/1 : ℚ)], seyir := { type := "ascending", start := "lower", dominantRegion := some (((500/1 : ℚ), (900/1 : ℚ))) } }, root := (0 : ℤ), score := { total := (27/2 : ℚ), pcScore := (25/2 : ℚ), charScore := (0/1 : ℚ), penalty := (4/1 : ℚ), seyirScore := (5/1 : ℚ) } }]

/-- Detection result of the Rast-scale scenario. -/
def rastResult : DetectionResult := { key := "ajam", name := "Ajam", root := (2 : ℤ), confidence := (257/400 : ℚ), seyirDirection := "ascending", seyirPath := [(1 : ℤ), (1 : ℤ), (1 : ℤ), (1 : ℤ), (1 : ℤ), (1 : ℤ), (1 : ℤ)], top3 := [("Ajam", (257/400 : ℚ)), ("Mahur", (257/400 : ℚ)), ("Bastah Nikar", (1291/2400 : ℚ))] }

/-- Detection result of the two-pitch-class melody. -/
def c4Result : DetectionResult := { key := "hijaz", name := "Hijaz", root := (10 : ℤ), confidence := (17/40 : ℚ), seyirDirection := "descending", seyirPath := [(1 : ℤ), (0 : ℤ), (-1 : ℤ)], top3 := [("Hijaz", (17/40 : ℚ)), ("Kurd", (17/40 : ℚ)), ("Shadd Araban", (17/40 : ℚ))] }

/-- Detection result of the shifted two-pitch-class melody. -/
def c4sResult : DetectionResult := { key := "kurd", name := "Kurd", root := (11 : ℤ), confidence := (19/40 : ℚ), seyirDirection := "descending", seyirPath := [(1 : ℤ), (0 : ℤ), (-1 : ℤ)], top3 := [("Kurd", (19/40 : ℚ)), ("Shadd Araban", (19/40 : ℚ)), ("Athar Kurd", (53/120 : ℚ))] }

/-- Four notes of identical pitch: the degenerate zero-pitch-range input. -/
def flatNotes : List Note :=
  [mkN 60 0 (1/2), mkN 60 (1/2) (1/2), mkN 60 1 (1/2), mkN 60 (3/2) (1/2)]

/-! ## Bridge lemmas for the computable floor -/

/-- The computable `Rat.floor` agrees with the `Int.floor` of mathlib. -/
theorem ratFloor_eq_floor (x : ℚ) : x.floor = ⌊x⌋ := by
  rw [Rat.floor_def, Rat.floor_def']

/-- Restatement of `jsRound` through `Int.floor`. -/
theorem jsRound_eq (x : ℚ) : jsRound x = ⌊x + 1/2⌋ := by
  rw [jsRound, ratFloor_eq_floor]

/-- Restatement of `jsTrunc` through `Int.floor` and `Int.ceil`. -/
theorem jsTrunc_eq (x : ℚ) : jsTrunc x = if 0 ≤ x then ⌊x⌋ else ⌈x⌉ := by
  rw [jsTrunc, ratFloor_eq_floor, ratFloor_eq_floor, Int.floor_neg, neg_neg]

set_option maxRecDepth 8000

set_option maxHeartbeats 1600000

/-! ## Generic helper lemmas -/

/-- The effective grid duration is positive for a positive tempo. -/
theorem gridDur_pos (tempo : ℚ) (grid : String) (h : 0 < tempo) :
    0 < gridDur tempo grid := by
  unfold gridDur jsOrElse gridValuesOwn
  split_ifs <;> positivity

/-- Rounding an integer returns it unchanged. -/
theorem jsRound_intCast (z : ℤ) : jsRound (z : ℚ) = z := by
  rw [jsRound_eq, add_comm, Int.floor_add_int]
  norm_num

/-- `Math.round` is monotone. -/
theorem jsRound_mono {x y : ℚ} (h : x ≤ y) : jsRound x ≤ jsRound y := by
  rw [jsRound_eq, jsRound_eq]
  exact Int.floor_le_floor (by linarith)

/-- Values of at least one half round to at least one. -/
theorem one_le_jsRound {x : ℚ} (h : 1/2 ≤ x) : 1 ≤ jsRound x := by
  rw [jsRound_eq]
  exact Int.le_floor.mpr (by push_cast; linarith)

/-! ## Claim theorems: the quantizer -/

/-- Claim C10 (corrected): when the full JavaScript lookup of the grid
string on `gridValues` yields `undefined` — the string is neither one of
the four own keys nor a member inherited from `Object.prototype` —
`quantizeNotes` silently falls back to the eighth-note grid: the effective
grid duration is `(60 / tempo) / 2` and the result coincides with the
`"1/8"` call.  (For a grid string naming an `Object.prototype` member the
lookup is a truthy inherited function, the `||` fallback does not fire and
the claim fails: see the counterexample.) -/
theorem C10_undefined_grid_falls_back_to_eighth (notes : List Note) (tempo : ℚ)
    (grid : String) (h : gridValue grid (60 / tempo) = GridLookup.undefined) :
    gridDur tempo grid = (60 / tempo) / 2 ∧
    quantizeNotes notes tempo grid = quantizeNotes notes tempo "1/8" := by
  have hown : gridValuesOwn grid (60 / tempo) = none := by
    cases hcase : gridValuesOwn grid (60 / tempo) with
    | none => rfl
    | some q =>
      unfold gridValue at h
      rw [hcase] at h
      exact absurd h (by simp)
  have hg : gridDur tempo grid = (60 / tempo) / 2 := by
    show jsOrElse (gridValuesOwn grid (60 / tempo)) ((60 / tempo) / 2)
      = (60 / tempo) / 2
    rw [hown]
    rfl
  have hg8 : gridDur tempo "1/8" = (60 / tempo) / 2 := by
    have hv : gridValuesOwn "1/8" (60 / tempo) = some ((60 / tempo) / 2) := rfl
    show jsOrElse (gridValuesOwn "1/8" (60 / tempo)) ((60 / tempo) / 2)
      = (60 / tempo) / 2
    rw [hv]
    unfold jsOrElse
    split
    · rfl
    · next v heq =>
      cases heq
      split <;> rfl
  refine ⟨hg, ?_⟩
  unfold quantizeNotes
  rw [hg, hg8]

/-- Claim C10 (corrected): the counterexample.  The grid string "toString"
is not an own key of `gridValues`, yet the JavaScript lookup resolves it
through the prototype chain to the truthy inherited
`Object.prototype.toString`, so the `|| gridValues["1/8"]` fallback of the
source does not fire: the effective grid duration is an inherited function,
not the eighth-note number, and every later arithmetic on it yields NaN
rather than the claimed eighth-note quantization. -/
theorem C10_counterexample :
    gridValuesOwn "toString" (60 / 120) = none ∧
    gridValue "toString" (60 / 120) = GridLookup.protoMember ∧
    gridValue "toString" (60 / 120) ≠ GridLookup.undefined := by
  refine ⟨rfl, by decide, by decide⟩

/-- Witness for the corrected C10 at a concrete unknown grid string whose
lookup is genuinely `undefined`. -/
theorem C10_witness :
    gridValue "1/3" (60 / 120) = GridLookup.undefined ∧
    gridDur 120 "1/3" = (60 / 120) / 2 ∧
    quantizeNotes [mkN 60 0 1] 120 "1/3" = quantizeNotes [mkN 60 0 1] 120 "1/8" := by
  have h := C10_undefined_grid_falls_back_to_eighth [mkN 60 0 1] 120 "1/3"
    (by decide)
  exact ⟨by decide, h.1, h.2⟩

/-- Claim C6 (corrected): the counterexample.  A note of duration 0.3 at
tempo 60, grid "1/4" (grid duration 1) is floored to duration 0.5 by the
first pass, and the second pass re-rounds 0.5 up to 1: quantization is not
idempotent. -/
theorem C6_counterexample :
    quantizeNotes (quantizeNotes [mkN 60 0 (3/10)] 60 "1/4") 60 "1/4"
      ≠ quantizeNotes [mkN 60 0 (3/10)] 60 "1/4" := by
  with_unfolding_all decide

/-- Claim C6 (amended): quantization is idempotent on note lists in which
every duration is at least half the grid duration, so that the
`gridDuration * 0.5` zero-length floor is never the maximum.  (A floored
duration `gridDuration * 0.5` re-rounds up to `gridDuration`, which is the
counterexample above.) -/
theorem C6_quantize_idempotent_without_floor (notes : List Note) (tempo : ℚ)
    (grid : String) (htempo : 0 < tempo)
    (hdur : ∀ n ∈ notes, gridDur tempo grid / 2 ≤ n.duration) :
    quantizeNotes (quantizeNotes notes tempo grid) tempo grid
      = quantizeNotes notes tempo grid := by
  have hg := gridDur_pos tempo grid htempo
  unfold quantizeNotes
  rw [List.map_map]
  refine List.map_congr_left ?_
  intro n hn
  have hdn := hdur n hn
  set g := gridDur tempo grid with hgdef
  cases n with
  | mk mi ti du fr =>
  simp only [Function.comp_apply]
  have htime : ((jsRound ((jsRound (ti / g) : ℚ) * g / g) : ℚ)) = (jsRound (ti / g) : ℚ) := by
    rw [mul_div_assoc, div_self (ne_of_gt hg), mul_one, jsRound_intCast]
  have hm : 1 ≤ jsRound (du / g) := by
    apply one_le_jsRound
    rw [le_div_iff₀ hg]
    linarith
  have hmax : max (g * (1/2)) ((jsRound (du / g) : ℚ) * g) = (jsRound (du / g) : ℚ) * g := by
    apply max_eq_right
    have h1 : (1 : ℚ) ≤ (jsRound (du / g) : ℚ) := by exact_mod_cast hm
    nlinarith
  have hdur2 : max (g * (1/2))
      ((jsRound (max (g * (1/2)) ((jsRound (du / g) : ℚ) * g) / g) : ℚ) * g)
      = max (g * (1/2)) ((jsRound (du / g) : ℚ) * g) := by
    rw [hmax, mul_div_assoc, div_self (ne_of_gt hg), mul_one, jsRound_intCast, hmax]
  simp only [Note.mk.injEq, and_true, true_and]
  exact ⟨by rw [htime], by rw [hdur2]⟩

/-- Witness for the amended C6 at a concrete input. -/
theorem C6_witness :
    (0 : ℚ) < 60 ∧ (∀ n ∈ [mkN 60 0 2], gridDur 60 "1/4" / 2 ≤ n.duration) ∧
    quantizeNotes (quantizeNotes [mkN 60 0 2] 60 "1/4") 60 "1/4"
      = quantizeNotes [mkN 60 0 2] 60 "1/4" := by
  refine ⟨by norm_num, by with_unfolding_all decide, ?_⟩
  exact C6_quantize_idempotent_without_floor [mkN 60 0 2] 60 "1/4" (by norm_num)
    (by with_unfolding_all decide)

/-- Claim C9: quantization is frame-preserving and order-preserving — the
output has the same length, every note keeps its `midi` and `frequency`
fields, and non-decreasing input times stay non-decreasing. -/
theorem C9_quantize_frame_preserving (notes : List Note) (tempo : ℚ)
    (grid : String) (htempo : 0 < tempo) :
    (quantizeNotes notes tempo grid).length = notes.length ∧
    (∀ i : ℕ,
      ((quantizeNotes notes tempo grid).get? i).map Note.midi
        = (notes.get? i).map Note.midi ∧
      ((quantizeNotes notes tempo grid).get? i).map Note.frequency
        = (notes.get? i).map Note.frequency) ∧
    (List.Chain' (fun a b => a.time ≤ b.time) notes →
      List.Chain' (fun a b => a.time ≤ b.time) (quantizeNotes notes tempo grid)) := by
  have hg := gridDur_pos tempo grid htempo
  unfold quantizeNotes
  refine ⟨List.length_map _ _, fun i => ⟨?_, ?_⟩, fun hch => ?_⟩
  · rw [List.get?_map, Option.map_map]
    rfl
  · rw [List.get?_map, Option.map_map]
    rfl
  · rw [List.chain'_map]
    refine hch.imp ?_
    intro a b hab
    simp only
    have h1 : a.time / gridDur tempo grid ≤ b.time / gridDur tempo grid := by
      gcongr
    have h2 := jsRound_mono h1
    exact mul_le_mul_of_nonneg_right (by exact_mod_cast h2) hg.le

/-- Witness for C9 at a concrete input. -/
theorem C9_witness :
    (0 : ℚ) < 90 ∧
    (quantizeNotes [mkN 60 0 1, mkN 62 1 1] 90 "1/8").length
      = ([mkN 60 0 1, mkN 62 1 1] : List Note).length ∧
    ((quantizeNotes [mkN 60 0 1, mkN 62 1 1] 90 "1/8").get? 0).map Note.midi
      = (([mkN 60 0 1, mkN 62 1 1] : List Note).get? 0).map Note.midi ∧
    List.Chain' (fun a b : Note => a.time ≤ b.time)
      (quantizeNotes [mkN 60 0 1, mkN 62 1 1] 90 "1/8") := by
  have h := C9_quantize_frame_preserving [mkN 60 0 1, mkN 62 1 1] 90 "1/8" (by norm_num)
  exact ⟨by norm_num, h.1, (h.2.1 0).1,
    h.2.2 (by rw [List.chain'_pair]; norm_num [mkN])⟩

/-! ## Claim theorems: detection guard -/

/-- Claim C5: fewer than four notes make `detectMaqam` return `null`
(and, the embedding being total on this branch, no exception). -/
theorem C5_min_note_guard (notes : List Note) (rootHint : Option ℤ)
    (h : notes.length < 4) : detectMaqam notes rootHint = Except.ok none := by
  unfold detectMaqam detectMaqamWith
  rw [if_pos h]

/-- Witness for C5 on a concrete three-note input. -/
theorem C5_witness :
    ([mkN 60 0 1, mkN 62 1 1, mkN 64 2 1] : List Note).length < 4 ∧
    detectMaqam [mkN 60 0 1, mkN 62 1 1, mkN 64 2 1] none = Except.ok none := by
  exact ⟨by decide, C5_min_note_guard _ none (by decide)⟩

/-! ## Claim theorems: onset detector -/

/-- One `detectOnsets` loop iteration preserves the minimum-gap chain
invariant on the emitted onsets. -/
theorem onsetStep_gap (audioData : List ℚ) (sampleRate : ℚ) (st : OnsetState)
    (i : ℕ) (h : List.Chain' (fun a b => a + 1/20 < b) st.onsets) :
    List.Chain' (fun a b => a + 1/20 < b)
      (onsetStep audioData sampleRate st i).onsets := by
  unfold onsetStep
  simp only
  split
  · split
    · split
      · next hnone =>
        rw [List.getLast?_eq_none_iff.mp hnone]
        exact List.chain'_singleton _
      · next last hlast =>
        split
        · next hgap =>
          rw [List.chain'_append]
          refine ⟨h, List.chain'_singleton _, ?_⟩
          intro x hx y hy
          rw [hlast] at hx
          simp only [Option.mem_def, Option.some.injEq] at hx
          simp only [List.head?_cons, Option.mem_def, Option.some.injEq] at hy
          subst hx
          subst hy
          linarith
        · exact h
    · exact h
  · exact h

/-- The chain invariant survives the whole fold. -/
theorem foldl_onsetStep_gap (audioData : List ℚ) (sampleRate : ℚ)
    (l : List ℕ) (st : OnsetState)
    (h : List.Chain' (fun a b => a + 1/20 < b) st.onsets) :
    List.Chain' (fun a b => a + 1/20 < b)
      ((l.foldl (onsetStep audioData sampleRate) st).onsets) := by
  induction l generalizing st with
  | nil => exact h
  | cons i rest ih =>
    exact ih _ (onsetStep_gap audioData sampleRate st i h)

/-- Claim C7: the onset list is finite (a list), strictly ascending, and
every two consecutive emitted onsets are more than 0.05 seconds apart. -/
theorem C7_onsets_ascending_min_gap (audioData : List ℚ) (sampleRate : ℚ) :
    List.Chain' (fun a b => a + 1/20 < b) (detectOnsets audioData sampleRate) ∧
    List.Pairwise (· < ·) (detectOnsets audioData sampleRate) := by
  have hch : List.Chain' (fun a b => a + 1/20 < b)
      (detectOnsets audioData sampleRate) :=
    foldl_onsetStep_gap audioData sampleRate (frameStarts audioData.length)
      ⟨0, [], []⟩ (List.chain'_nil)
  refine ⟨hch, ?_⟩
  haveI : IsTrans ℚ (fun a b => a + 1/20 < b) :=
    ⟨fun a b c h1 h2 => by linarith⟩
  exact (List.chain'_iff_pairwise.mp hch).imp fun hab => by linarith

/-! ## Claim theorems: pitch estimator -/

/-- The parabolic branch of `refinedTau`, spelled out. -/
theorem refinedTau_eq_parabolic (frame : List ℚ) (maxPeriod tau : ℕ)
    (h : 0 < tau ∧ tau < maxPeriod - 1) :
    refinedTau frame maxPeriod tau
      = (tau : ℚ) + (cmnd frame (tau + 1) - cmnd frame (tau - 1))
          / (2 * (2 * cmnd frame tau - cmnd frame (tau + 1) - cmnd frame (tau - 1))) := by
  unfold refinedTau
  rw [if_pos h]

/-- The boundary branch of `refinedTau`. -/
theorem refinedTau_eq_boundary (frame : List ℚ) (maxPeriod tau : ℕ)
    (h : ¬(0 < tau ∧ tau < maxPeriod - 1)) :
    refinedTau frame maxPeriod tau = (tau : ℚ) := by
  unfold refinedTau
  rw [if_neg h]

/-- Claim C8 (corrected): the counterexample.  On the frame
`[0, 0, 10, 0, 1]` at 8000 Hz the first admissible lag is 4 and the
parabolic refinement moves it to 884/239, so `detectPitch` returns
478000/221 Hz, which exceeds the 2000 Hz band edge. -/
theorem C8_counterexample :
    detectPitch [0, 0, 10, 0, 1] 8000 = some (478000/221) ∧
    (2000 : ℚ) < 478000/221 := by
  constructor
  · have hmin : ((8000 : ℚ) / 2000).floor.toNat = 4 := by with_unfolding_all decide
    have hmax : ((8000 : ℚ) / 50).floor.toNat = 160 := by with_unfolding_all decide
    have hfind : findLag [0, 0, 10, 0, 1] 4 160 = some 4 := by with_unfolding_all decide
    have hc3 : cmnd [0, 0, 10, 0, 1] 3 = 3/383 := by with_unfolding_all decide
    have hc4 : cmnd [0, 0, 10, 0, 1] 4 = 1/96 := by with_unfolding_all decide
    have hc5 : cmnd [0, 0, 10, 0, 1] 5 = 0 := by with_unfolding_all decide
    simp only [detectPitch, hmin, hmax, hfind, Option.map_some', Option.some.injEq]
    rw [refinedTau_eq_parabolic _ _ _ (by omega)]
    simp only [show (4 : ℕ) + 1 = 5 from rfl, show (4 : ℕ) - 1 = 3 from rfl]
    rw [hc3, hc4, hc5]
    norm_num
  · norm_num

/-- Claim C8 (amended): the lag search is band-limiting, and when the
selected lag is a weak local minimum of the CMND curve (not flat on both
sides) and the sample rate is at least 100 Hz, the parabolic adjustment
stays within ±1/2 a sample and the returned frequency is a positive value
above 50 Hz.  (The upper bound of 2000 Hz does not hold in general, as the
counterexample shows.) -/
theorem C8_amended_lag_in_band (frame : List ℚ) (sampleRate : ℚ) (f : ℚ)
    (hrate : 100 ≤ sampleRate)
    (hret : detectPitch frame sampleRate = some f)
    (hloc : ∀ tau,
      findLag frame (sampleRate / 2000).floor.toNat (sampleRate / 50).floor.toNat
        = some tau →
      cmnd frame tau ≤ cmnd frame (tau - 1) ∧
      cmnd frame tau ≤ cmnd frame (tau + 1) ∧
      (cmnd frame (tau - 1) ≠ cmnd frame tau ∨ cmnd frame (tau + 1) ≠ cmnd frame tau)) :
    50 < f := by
  have hratepos : (0 : ℚ) < sampleRate := by linarith
  set minP := (sampleRate / 2000).floor.toNat with hminPdef
  set maxP := (sampleRate / 50).floor.toNat with hmaxPdef
  have h2z : (2 : ℤ) ≤ (sampleRate / 50).floor := by
    rw [ratFloor_eq_floor]
    exact Int.le_floor.mpr (by push_cast; linarith)
  have hmaxP2 : 2 ≤ maxP := by omega
  have hmaxPle : (maxP : ℚ) ≤ sampleRate / 50 := by
    have h1 : (((sampleRate / 50).floor : ℤ) : ℚ) ≤ sampleRate / 50 := by
      rw [ratFloor_eq_floor]
      exact Int.floor_le _
    rw [hmaxPdef]
    rw [show (((sampleRate / 50).floor.toNat : ℕ) : ℚ)
        = (((sampleRate / 50).floor.toNat : ℤ) : ℚ) by push_cast; ring]
    rw [Int.toNat_of_nonneg (by omega)]
    exact h1
  simp only [detectPitch] at hret
  rw [← hminPdef, ← hmaxPdef] at hret
  cases hfind : findLag frame minP maxP with
  | none => rw [hfind] at hret; simp at hret
  | some tau =>
    rw [hfind] at hret
    simp only [Option.map_some', Option.some.injEq] at hret
    obtain ⟨hs0, hs2, hne⟩ := hloc tau hfind
    have hmem := List.mem_of_find?_eq_some hfind
    have hpred := List.find?_some hfind
    rw [List.mem_range'_1] at hmem
    have htauge : minP ≤ tau := hmem.1
    have htault : tau < maxP := by omega
    have hcm : cmnd frame tau < 1/10 := of_decide_eq_true hpred
    have htau0 : tau ≠ 0 := by
      intro h0
      rw [h0] at hcm
      unfold cmnd at hcm
      norm_num at hcm
    -- in either branch the refined lag is positive and below sampleRate / 50
    have htau1 : (1 : ℚ) ≤ (tau : ℚ) := by
      exact_mod_cast Nat.one_le_iff_ne_zero.mpr htau0
    have hbt : 0 < refinedTau frame maxP tau
        ∧ refinedTau frame maxP tau < sampleRate / 50 := by
      by_cases hcase : 0 < tau ∧ tau < maxP - 1
      · rw [refinedTau_eq_parabolic frame maxP tau hcase]
        set s0 := cmnd frame (tau - 1) with hs0def
        set s1 := cmnd frame tau with hs1def
        set s2 := cmnd frame (tau + 1) with hs2def
        have hD : 0 < s0 + s2 - 2 * s1 := by
          rcases hne with h | h
          · have : s1 < s0 := lt_of_le_of_ne hs0 (Ne.symm h)
            linarith
          · have : s1 < s2 := lt_of_le_of_ne hs2 (Ne.symm h)
            linarith
        have hadjeq : (s2 - s0) / (2 * (2 * s1 - s2 - s0))
            = (s0 - s2) / (2 * (s0 + s2 - 2 * s1)) := by
          rw [show 2 * (2 * s1 - s2 - s0) = -(2 * (s0 + s2 - 2 * s1)) by ring,
            div_neg, show s2 - s0 = -(s0 - s2) by ring, neg_div, neg_neg]
        rw [hadjeq]
        have hadj_le : (s0 - s2) / (2 * (s0 + s2 - 2 * s1)) ≤ 1/2 := by
          rw [div_le_iff₀ (by linarith)]
          linarith
        have hadj_ge : -(1/2) ≤ (s0 - s2) / (2 * (s0 + s2 - 2 * s1)) := by
          rw [le_div_iff₀ (by linarith)]
          linarith
        have htauub : (tau : ℚ) + 2 ≤ (maxP : ℚ) := by
          have : tau + 2 ≤ maxP := by omega
          exact_mod_cast this
        constructor
        · linarith
        · linarith
      · rw [refinedTau_eq_boundary frame maxP tau hcase]
        have htauub : (tau : ℚ) + 1 ≤ (maxP : ℚ) := by
          exact_mod_cast Nat.succ_le_of_lt htault
        exact ⟨by linarith, by linarith⟩
    rw [← hret]
    have h50 : sampleRate / (sampleRate / 50) = 50 := by
      rw [div_div_eq_mul_div, mul_comm, mul_div_assoc,
        div_self (ne_of_gt hratepos), mul_one]
    calc (50 : ℚ) = sampleRate / (sampleRate / 50) := h50.symm
      _ < sampleRate / refinedTau frame maxP tau :=
          div_lt_div_of_pos_left hratepos hbt.1 hbt.2

/-- Witness for the amended C8: on a perfectly periodic frame (period 4 at
8000 Hz) the selected lag is a strict local CMND minimum and the returned
frequency 96000/49 ≈ 1959 Hz is above 50 Hz. -/
theorem C8_witness :
    (100 : ℚ) ≤ 8000 ∧
    detectPitch [1, 0, 0, 0, 1, 0, 0, 0, 1] 8000 = some (96000/49) ∧
    (50 : ℚ) < 96000/49 := by
  have hmin : ((8000 : ℚ) / 2000).floor.toNat = 4 := by with_unfolding_all decide
  have hmax : ((8000 : ℚ) / 50).floor.toNat = 160 := by with_unfolding_all decide
  have hfind : findLag [1, 0, 0, 0, 1, 0, 0, 0, 1] 4 160 = some 4 := by
    with_unfolding_all decide
  have hc3 : cmnd [1, 0, 0, 0, 1, 0, 0, 0, 1] 3 = 1 := by with_unfolding_all decide
  have hc4 : cmnd [1, 0, 0, 0, 1, 0, 0, 0, 1] 4 = 0 := by with_unfolding_all decide
  have hc5 : cmnd [1, 0, 0, 0, 1, 0, 0, 0, 1] 5 = 5/7 := by with_unfolding_all decide
  have hdet : detectPitch [1, 0, 0, 0, 1, 0, 0, 0, 1] 8000 = some (96000/49) := by
    simp only [detectPitch, hmin, hmax, hfind, Option.map_some', Option.some.injEq]
    rw [refinedTau_eq_parabolic _ _ _ (by omega)]
    simp only [show (4 : ℕ) + 1 = 5 from rfl, show (4 : ℕ) - 1 = 3 from rfl]
    rw [hc3, hc4, hc5]
    norm_num
  refine ⟨by norm_num, hdet, ?_⟩
  apply C8_amended_lag_in_band [1, 0, 0, 0, 1, 0, 0, 0, 1] 8000 (96000/49)
    (by norm_num) hdet
  intro tau htau
  rw [hmin, hmax, hfind] at htau
  have htaueq : tau = 4 := by
    injection htau with h
    exact h.symm
  subst htaueq
  simp only [show (4 : ℕ) + 1 = 5 from rfl, show (4 : ℕ) - 1 = 3 from rfl]
  rw [hc3, hc4, hc5]
  norm_num

/-! ## Claim theorems: degenerate detection input -/

/-- Claim C1 (code bug): for four identical-pitch notes the zero-range
fallback of `analyzeSeyir` does classify the melody as "mixed" with an
empty contour, but it leaves `avgThird` undefined; `scoreMaqam` then reads
`avgThird[0]` for the very first catalog entry (seyir start "lower") and
`detectMaqam` propagates the `TypeError` instead of returning a defined
result. -/
theorem C1_flat_input_throws :
    (analyzeSeyir flatNotes).type = "mixed" ∧
    (analyzeSeyir flatNotes).contour = [] ∧
    (analyzeSeyir flatNotes).avgThird = none ∧
    detectMaqam flatNotes (some 0) = Except.error () := by
  refine ⟨?_, ?_, ?_, ?_⟩ <;> with_unfolding_all decide

/-! ## Claim theorems: confidence bounds -/

/-- Any score `scoreMaqam` successfully returns has a nonnegative total
(the total is clamped below at 0). -/
theorem scoreMaqam_total_nonneg {m : Maqam} {histogram : List ℚ}
    {sA : SeyirAnalysis} {root : ℤ} {sc : Score}
    (h : scoreMaqam m histogram sA root = Except.ok sc) : 0 ≤ sc.total := by
  unfold scoreMaqam at h
  simp only [bind, Except.bind, pure, Except.pure] at h
  split at h
  · split at h
    · exact absurd h (by simp)
    · split at h
      · split at h
        · exact absurd h (by simp)
        · simp only [Except.ok.injEq] at h
          rw [← h]
          exact le_max_left _ _
      · simp only [Except.ok.injEq] at h
        rw [← h]
        exact le_max_left _ _
  · split at h
    · split at h
      · exact absurd h (by simp)
      · simp only [Except.ok.injEq] at h
        rw [← h]
        exact le_max_left _ _
    · simp only [Except.ok.injEq] at h
      rw [← h]
      exact le_max_left _ _

/-- Every candidate produced by a `scoreRow` pass has nonnegative total. -/
theorem scoreRow_total_nonneg {histogram : List ℚ} {sA : SeyirAnalysis}
    {root : ℤ} :
    ∀ {cat : List (String × Maqam)} {l : List Candidate},
      scoreRow histogram sA root cat = Except.ok l →
      ∀ c ∈ l, 0 ≤ c.score.total := by
  intro cat
  induction cat with
  | nil =>
    intro l h c hc
    unfold scoreRow at h
    simp only [pure, Except.pure, Except.ok.injEq] at h
    rw [← h] at hc
    simp at hc
  | cons km rest ih =>
    intro l h c hc
    obtain ⟨key, m⟩ := km
    unfold scoreRow at h
    simp only [bind, Except.bind] at h
    split at h
    · exact absurd h (by simp)
    · next s hs =>
      split at h
      · exact absurd h (by simp)
      · next more hmore =>
        simp only [pure, Except.pure, Except.ok.injEq] at h
        rw [← h] at hc
        rcases List.mem_cons.mp hc with hc1 | hc2
        · rw [hc1]
          exact scoreMaqam_total_nonneg hs
        · exact ih hmore c hc2

/-- Every candidate produced by the root loop has nonnegative total. -/
theorem scoreAll_total_nonneg {histogram : List ℚ} {sA : SeyirAnalysis}
    {cat : List (String × Maqam)} :
    ∀ {roots : List ℤ} {l : List Candidate},
      scoreAll histogram sA cat roots = Except.ok l →
      ∀ c ∈ l, 0 ≤ c.score.total := by
  intro roots
  induction roots with
  | nil =>
    intro l h c hc
    unfold scoreAll at h
    simp only [pure, Except.pure, Except.ok.injEq] at h
    rw [← h] at hc
    simp at hc
  | cons root rest ih =>
    intro l h c hc
    unfold scoreAll at h
    simp only [bind, Except.bind] at h
    split at h
    · exact absurd h (by simp)
    · next these hthese =>
      split at h
      · exact absurd h (by simp)
      · next more hmore =>
        simp only [pure, Except.pure, Except.ok.injEq] at h
        rw [← h] at hc
        rcases List.mem_append.mp hc with hc1 | hc2
        · exact scoreRow_total_nonneg hthese c hc1
        · exact ih hmore c hc2

/-- Claim C2: whenever `detectMaqam` returns a result, the best match's
confidence and every confidence in the top-3 list lie in [0, 0.99]. -/
theorem C2_confidence_bounds (notes : List Note) (rootHint : Option ℤ)
    (r : DetectionResult) (h : detectMaqam notes rootHint = Except.ok (some r)) :
    (0 ≤ r.confidence ∧ r.confidence ≤ 99/100) ∧
    ∀ p ∈ r.top3, 0 ≤ p.2 ∧ p.2 ≤ 99/100 := by
  simp only [detectMaqam, detectMaqamWith] at h
  split at h
  · simp at h
  · split at h
    · simp at h
    · next candidates hcand =>
      split at h
      · simp at h
      · next best rest hsort =>
        simp only [Except.ok.injEq, Option.some.injEq] at h
        have hmem : ∀ c ∈ best :: rest, 0 ≤ c.score.total := by
          intro c hc
          rw [← hsort] at hc
          exact scoreAll_total_nonneg hcand c ((List.mem_insertionSort _).mp hc)
        have hbound : ∀ c ∈ best :: rest,
            0 ≤ min (99/100 : ℚ) (c.score.total / 100) ∧
            min (99/100 : ℚ) (c.score.total / 100) ≤ 99/100 := by
          intro c hc
          exact ⟨le_min (by norm_num) (div_nonneg (hmem c hc) (by norm_num)),
            min_le_left _ _⟩
        constructor
        · rw [← h]
          exact hbound best (List.mem_cons_self _ _)
        · intro p hp
          rw [← h] at hp
          obtain ⟨c, hc, hpc⟩ := List.mem_map.mp hp
          rw [hsort] at hc
          rw [← hpc]
          exact hbound c (List.mem_of_mem_take hc)

/-! ## Evaluated pipeline stages for the concrete scenarios -/

set_option maxHeartbeats 12000000 in
set_option maxRecDepth 20000 in
theorem rastRawBins_eq :
    (List.range 120).map (fun b : ℕ => rawBin rastNotes (b : ℤ)) = rastRawBins := by
  with_unfolding_all decide

theorem rastMax_eq : maxBin rastNotes = 1/4 := by
  rw [maxBin, rastRawBins_eq, rastRawBins]
  norm_num [max_def]

set_option maxHeartbeats 12000000 in
set_option maxRecDepth 20000 in
theorem rastHist_eq : buildMicrotonalHistogram rastNotes = rastHist := by
  rw [show buildMicrotonalHistogram rastNotes
      = (List.range 120).map (fun b : ℕ => rawBin rastNotes (b : ℤ) / maxBin rastNotes)
      from rfl, rastMax_eq]
  with_unfolding_all decide

theorem jsModPc70 : jsMod (70 : ℚ) 12 = 10 := by with_unfolding_all decide

theorem jsModPc71 : jsMod (71 : ℚ) 12 = 11 := by with_unfolding_all decide

theorem jsModPc72 : jsMod (72 : ℚ) 12 = 0 := by with_unfolding_all decide

theorem jsModOct0 : jsMod (0 : ℚ) 1200 = 0 := by with_unfolding_all decide

theorem jsModOct1000 : jsMod (1000 : ℚ) 1200 = 1000 := by
  with_unfolding_all decide

theorem jsModOct1100 : jsMod (1100 : ℚ) 1200 = 1100 := by
  with_unfolding_all decide

set_option maxHeartbeats 12000000 in
set_option maxRecDepth 20000 in
theorem rastDom_eq : dominantCentsOf rastNotes = 1025/2 := by
  with_unfolding_all decide

set_option maxHeartbeats 12000000 in
set_option maxRecDepth 20000 in
theorem rastSeyir_eq : analyzeSeyir rastNotes = rastSeyir := by
  simp only [analyzeSeyir]
  rw [if_neg (by with_unfolding_all decide : ¬ rastNotes.length < 2),
    if_neg (by with_unfolding_all decide : ¬ pitchRange rastNotes = 0),
    rastDom_eq]
  with_unfolding_all decide

set_option maxHeartbeats 12000000 in
set_option maxRecDepth 20000 in
theorem rastRow_eq :
    scoreRow rastHist rastSeyir (2 : ℤ) maqamatList = Except.ok rastCands := by
  with_unfolding_all decide

set_option maxHeartbeats 12000000 in
set_option maxRecDepth 20000 in
theorem rastDetect_eq :
    detectMaqam rastNotes (some 2) = Except.ok (some rastResult) := by
  simp only [detectMaqam, detectMaqamWith]
  rw [if_neg (by with_unfolding_all decide : ¬ rastNotes.length < 4)]
  rw [show ((2 : ℤ).tmod 12) = (2 : ℤ) from by decide]
  rw [rastHist_eq, rastSeyir_eq]
  have hall : scoreAll rastHist rastSeyir maqamatList [(2 : ℤ)]
      = Except.ok rastCands := by
    simp only [scoreAll, rastRow_eq, bind, Except.bind, pure, Except.pure,
      List.append_nil]
  rw [hall]
  with_unfolding_all decide

theorem c4Roots_eq : getPossibleRoots c4Notes = [10, 11] := by
  with_unfolding_all decide

theorem c4sRoots_eq : getPossibleRoots c4sNotes = [11, 0] := by
  with_unfolding_all decide

set_option maxHeartbeats 12000000 in
set_option maxRecDepth 20000 in
theorem c4RawBins_eq :
    (List.range 120).map (fun b : ℕ => rawBin c4Notes (b : ℤ)) = c4RawBins := by
  with_unfolding_all decide

theorem c4Max_eq : maxBin c4Notes = 2/3 := by
  rw [maxBin, c4RawBins_eq, c4RawBins]
  norm_num [max_def]

set_option maxHeartbeats 12000000 in
set_option maxRecDepth 20000 in
theorem c4Hist_eq : buildMicrotonalHistogram c4Notes = c4Hist := by
  rw [show buildMicrotonalHistogram c4Notes
      = (List.range 120).map (fun b : ℕ => rawBin c4Notes (b : ℤ) / maxBin c4Notes)
      from rfl, c4Max_eq]
  with_unfolding_all decide

set_option maxHeartbeats 12000000 in
set_option maxRecDepth 20000 in
theorem c4Dom_eq : dominantCentsOf c4Notes = 3200/3 := by
  norm_num [dominantCentsOf, c4Notes, mkN, jsOrDefault, jsModPc70, jsModPc71,
    jsModOct1000, jsModOct1100]

set_option maxHeartbeats 12000000 in
set_option maxRecDepth 20000 in
theorem c4Seyir_eq : analyzeSeyir c4Notes = c4Seyir := by
  simp only [analyzeSeyir]
  rw [if_neg (by with_unfolding_all decide : ¬ c4Notes.length < 2),
    if_neg (by with_unfolding_all decide : ¬ pitchRange c4Notes = 0),
    c4Dom_eq]
  simp only [c4Seyir, SeyirAnalysis.mk.injEq]
  refine ⟨?_, ?_, ?_, ?_⟩
  · with_unfolding_all decide
  · with_unfolding_all decide
  · with_unfolding_all decide
  · with_unfolding_all decide

set_option maxHeartbeats 12000000 in
set_option maxRecDepth 20000 in
theorem c4RowA_eq :
    scoreRow c4Hist c4Seyir (10 : ℤ) maqamatList = Except.ok c4CandsA := by
  with_unfolding_all decide

set_option maxHeartbeats 12000000 in
set_option maxRecDepth 20000 in
theorem c4RowB_eq :
    scoreRow c4Hist c4Seyir (11 : ℤ) maqamatList = Except.ok c4CandsB := by
  with_unfolding_all decide

set_option maxHeartbeats 12000000 in
set_option maxRecDepth 20000 in
theorem c4Detect_eq : detectMaqam c4Notes none = Except.ok (some c4Result) := by
  simp only [detectMaqam, detectMaqamWith]
  rw [if_neg (by with_unfolding_all decide : ¬ c4Notes.length < 4)]
  rw [c4Roots_eq, c4Hist_eq, c4Seyir_eq]
  have hall : scoreAll c4Hist c4Seyir maqamatList [10, 11]
      = Except.ok (c4CandsA ++ c4CandsB) := by
    simp only [scoreAll, c4RowA_eq, c4RowB_eq, bind, Except.bind, pure,
      Except.pure, List.append_nil]
  rw [hall]
  with_unfolding_all decide

set_option maxHeartbeats 12000000 in
set_option maxRecDepth 20000 in
theorem c4sRawBins_eq :
    (List.range 120).map (fun b : ℕ => rawBin c4sNotes (b : ℤ)) = c4sRawBins := by
  with_unfolding_all decide

theorem c4sMax_eq : maxBin c4sNotes = 2/3 := by
  rw [maxBin, c4sRawBins_eq, c4sRawBins]
  norm_num [max_def]

set_option maxHeartbeats 12000000 in
set_option maxRecDepth 20000 in
theorem c4sHist_eq : buildMicrotonalHistogram c4sNotes = c4sHist := by
  rw [show buildMicrotonalHistogram c4sNotes
      = (List.range 120).map (fun b : ℕ => rawBin c4sNotes (b : ℤ) / maxBin c4sNotes)
      from rfl, c4sMax_eq]
  with_unfolding_all decide

set_option maxHeartbeats 12000000 in
set_option maxRecDepth 20000 in
theorem c4sDom_eq : dominantCentsOf c4sNotes = 1100/3 := by
  norm_num [dominantCentsOf, c4sNotes, c4Notes, mkN, jsOrDefault, jsModPc71,
    jsModPc72, jsModOct0, jsModOct1100]

set_option maxHeartbeats 12000000 in
set_option maxRecDepth 20000 in
theorem c4sSeyir_eq : analyzeSeyir c4sNotes = c4sSeyir := by
  simp only [analyzeSeyir]
  rw [if_neg (by with_unfolding_all decide : ¬ c4sNotes.length < 2),
    if_neg (by with_unfolding_all decide : ¬ pitchRange c4sNotes = 0),
    c4sDom_eq]
  simp only [c4sSeyir, SeyirAnalysis.mk.injEq]
  refine ⟨?_, ?_, ?_, ?_⟩
  · with_unfolding_all decide
  · with_unfolding_all decide
  · with_unfolding_all decide
  · with_unfolding_all decide

set_option maxHeartbeats 12000000 in
set_option maxRecDepth 20000 in
theorem c4sRowA_eq :
    scoreRow c4sHist c4sSeyir (11 : ℤ) maqamatList = Except.ok c4sCandsA := by
  with_unfolding_all decide

set_option maxHeartbeats 12000000 in
set_option maxRecDepth 20000 in
theorem c4sRowB_eq :
    scoreRow c4sHist c4sSeyir (0 : ℤ) maqamatList = Except.ok c4sCandsB := by
  with_unfolding_all decide

set_option maxHeartbeats 12000000 in
set_option maxRecDepth 20000 in
theorem c4sDetect_eq : detectMaqam c4sNotes none = Except.ok (some c4sResult) := by
  simp only [detectMaqam, detectMaqamWith]
  rw [if_neg (by with_unfolding_all decide : ¬ c4sNotes.length < 4)]
  rw [c4sRoots_eq, c4sHist_eq, c4sSeyir_eq]
  have hall : scoreAll c4sHist c4sSeyir maqamatList [11, 0]
      = Except.ok (c4sCandsA ++ c4sCandsB) := by
    simp only [scoreAll, c4sRowA_eq, c4sRowB_eq, bind, Except.bind, pure,
      Except.pure, List.append_nil]
  rw [hall]
  with_unfolding_all decide

/-! ## Claim theorems: the concrete detection scenarios -/

/-- Claim C3 (code bug): on the pure Rast scale with rootHint 2 the best
match is "ajam", not "rast" — the histogram builder
`((midi % 12) * 100 + (midi % 1) * 100) % 1200` double-counts the
fractional part of a quarter-tone pitch, so the neutral third at 550¢ is
binned at 600¢ and the major-scale template wins. -/
theorem C3_rast_scale_detects_ajam :
    detectMaqam rastNotes (some 2) = Except.ok (some rastResult) ∧
    rastResult.key = "ajam" ∧ rastResult.key ≠ "rast" ∧
    (1/2 : ℚ) < rastResult.confidence := by
  refine ⟨rastDetect_eq, rfl, by decide, by norm_num [rastResult]⟩

/-- Witness for C2 at the concrete Rast-scale scenario. -/
theorem C2_witness :
    (0 ≤ rastResult.confidence ∧ rastResult.confidence ≤ 99/100) ∧
    ∀ p ∈ rastResult.top3, 0 ≤ p.2 ∧ p.2 ≤ 99/100 :=
  C2_confidence_bounds rastNotes (some 2) rastResult rastDetect_eq

/-- `jsTrunc` is `Int.floor` on nonnegative arguments. -/
theorem jsTrunc_nonneg (x : ℚ) (h : 0 ≤ x) : jsTrunc x = ⌊x⌋ := by
  rw [jsTrunc, if_pos h, ratFloor_eq_floor]

/-- On nonnegative arguments `jsMod` is the floor-based remainder. -/
theorem jsMod_nonneg_eq (x b : ℚ) (hx : 0 ≤ x) (hb : 0 < b) :
    jsMod x b = x - b * ⌊x / b⌋ := by
  rw [jsMod, jsTrunc_nonneg _ (div_nonneg hx hb.le)]

/-- `jsMod` of nonnegative arguments is nonnegative. -/
theorem jsMod_nonneg (x b : ℚ) (hx : 0 ≤ x) (hb : 0 < b) : 0 ≤ jsMod x b := by
  rw [jsMod_nonneg_eq x b hx hb]
  have h1 : (⌊x / b⌋ : ℚ) ≤ x / b := Int.floor_le _
  have h2 : b * (⌊x / b⌋ : ℚ) ≤ b * (x / b) := by
    exact mul_le_mul_of_nonneg_left h1 hb.le
  rw [mul_div_cancel₀ x hb.ne'] at h2
  linarith

/-- Adding an integer multiple of the modulus does not change `jsMod`,
for nonnegative arguments. -/
theorem jsMod_add_int_mul (x b : ℚ) (i : ℤ) (hx : 0 ≤ x)
    (hx' : 0 ≤ x + b * i) (hb : 0 < b) :
    jsMod (x + b * i) b = jsMod x b := by
  rw [jsMod_nonneg_eq _ _ hx' hb, jsMod_nonneg_eq _ _ hx hb]
  have hdiv : (x + b * i) / b = x / b + (i : ℚ) := by
    field_simp
    ring
  rw [hdiv, Int.floor_add_int]
  push_cast
  ring

/-- Rounding shifts by integers. -/
theorem jsRound_add_int (x : ℚ) (i : ℤ) : jsRound (x + i) = jsRound x + i := by
  rw [jsRound_eq, jsRound_eq, show x + (i : ℚ) + 1/2 = x + 1/2 + (i : ℚ) from by ring,
    Int.floor_add_int]

/-- Shifting the pitch by a whole number of semitones shifts
`centsInOctave` by `100·k` up to a multiple of 1200. -/
theorem centsInOctave_shift (n : Note) (k : ℕ) (h : 0 ≤ n.midi) :
    ∃ j : ℤ, centsInOctave { n with midi := n.midi + (k : ℚ) }
      = centsInOctave n + 100 * k - 1200 * j := by
  have hk : (0 : ℚ) ≤ (k : ℚ) := Nat.cast_nonneg k
  have hmk : (0 : ℚ) ≤ n.midi + (k : ℚ) := by linarith
  have h1 : jsMod (n.midi + (k : ℚ)) 1 = jsMod n.midi 1 := by
    have := jsMod_add_int_mul n.midi 1 (k : ℤ) h (by push_cast; linarith) one_pos
    simpa using this
  have h12 : jsMod (n.midi + (k : ℚ)) 12
      = jsMod n.midi 12 + (k : ℚ)
        - 12 * ((⌊(n.midi + (k : ℚ)) / 12⌋ - ⌊n.midi / 12⌋ : ℤ) : ℚ) := by
    rw [jsMod_nonneg_eq _ _ hmk (by norm_num), jsMod_nonneg_eq _ _ h (by norm_num)]
    push_cast
    ring
  have hA : 0 ≤ jsMod n.midi 12 * 100 + jsMod n.midi 1 * 100 := by
    have := jsMod_nonneg n.midi 12 h (by norm_num)
    have := jsMod_nonneg n.midi 1 h (by norm_num)
    nlinarith
  have hA' : 0 ≤ jsMod (n.midi + (k : ℚ)) 12 * 100 + jsMod (n.midi + (k : ℚ)) 1 * 100 := by
    have := jsMod_nonneg (n.midi + (k : ℚ)) 12 hmk (by norm_num)
    have := jsMod_nonneg (n.midi + (k : ℚ)) 1 hmk (by norm_num)
    nlinarith
  unfold centsInOctave
  dsimp only
  rw [jsMod_nonneg_eq _ _ hA' (by norm_num), jsMod_nonneg_eq _ _ hA (by norm_num),
    h1, h12]
  refine ⟨(⌊(n.midi + (k : ℚ)) / 12⌋ - ⌊n.midi / 12⌋)
    + ⌊(jsMod (n.midi + (k : ℚ)) 12 * 100 + jsMod (n.midi + (k : ℚ)) 1 * 100) / 1200⌋
    - ⌊(jsMod n.midi 12 * 100 + jsMod n.midi 1 * 100) / 1200⌋, ?_⟩
  rw [h1, h12]
  push_cast
  ring

/-- `binIdx` always lies in `[0, 120)`. -/
theorem binIdx_nonneg (n : Note) : 0 ≤ binIdx n :=
  Int.emod_nonneg _ (by norm_num)

theorem binIdx_lt (n : Note) : binIdx n < 120 :=
  Int.emod_lt_of_pos _ (by norm_num)

/-- Shifting the pitch by `k` semitones rotates the histogram bin by
`10·k` places mod 120. -/
theorem binIdx_shift (n : Note) (k : ℕ) (h : 0 ≤ n.midi) :
    binIdx { n with midi := n.midi + (k : ℚ) } = (binIdx n + 10 * k) % 120 := by
  obtain ⟨j, hj⟩ := centsInOctave_shift n k h
  unfold binIdx
  rw [hj]
  have hsplit : (centsInOctave n + 100 * k - 1200 * j) / 10
      = centsInOctave n / 10 + ((10 * k - 120 * j : ℤ) : ℚ) := by
    push_cast
    ring
  rw [hsplit, jsRound_add_int]
  omega

/-- The total duration ignores pitches, so a pitch shift preserves it. -/
theorem totalDuration_map_shift (notes : List Note) (k : ℚ) :
    totalDuration (notes.map fun n => { n with midi := n.midi + k })
      = totalDuration notes := by
  unfold totalDuration
  rw [List.map_map]
  rfl

/-- Pointwise shift-covariance of the raw histogram bins. -/
theorem rawBin_shift (notes : List Note) (k : ℕ)
    (hm : ∀ n ∈ notes, 0 ≤ n.midi) (b : ℤ) (hb0 : 0 ≤ b) (hb : b < 120) :
    rawBin (notes.map fun n => { n with midi := n.midi + (k : ℚ) }) b
      = rawBin notes ((b - 10 * k) % 120) := by
  unfold rawBin
  rw [totalDuration_map_shift, List.map_map]
  refine congrArg List.sum (List.map_congr_left ?_)
  intro n hn
  have hr1 := binIdx_nonneg n
  have hr2 := binIdx_lt n
  simp only [Function.comp]
  rw [binIdx_shift n k (hm n hn)]
  have e1 : ((binIdx n + 10 * k) % 120 = b) ↔ (binIdx n = (b - 10 * k) % 120) := by
    omega
  have e2 : (((binIdx n + 10 * k) % 120 + 1) % 120 = b)
      ↔ ((binIdx n + 1) % 120 = (b - 10 * k) % 120) := by
    omega
  have e3 : (((binIdx n + 10 * k) % 120 - 1 + 120) % 120 = b)
      ↔ ((binIdx n - 1 + 120) % 120 = (b - 10 * k) % 120) := by
    omega
  have e4 : (((binIdx n + 10 * k) % 120 + 2) % 120 = b)
      ↔ ((binIdx n + 2) % 120 = (b - 10 * k) % 120) := by
    omega
  have e5 : (((binIdx n + 10 * k) % 120 - 2 + 120) % 120 = b)
      ↔ ((binIdx n - 2 + 120) % 120 = (b - 10 * k) % 120) := by
    omega
  simp only [e1, e2, e3, e4, e5]

/-- The seed is a lower bound of a `foldr max`. -/
theorem init_le_foldr_max (l : List ℚ) (a : ℚ) : a ≤ l.foldr max a := by
  induction l with
  | nil => exact le_refl a
  | cons x xs ih => exact ih.trans (le_max_right x _)

/-- Every member is a lower bound of a `foldr max`. -/
theorem mem_le_foldr_max (l : List ℚ) (a x : ℚ) (hx : x ∈ l) :
    x ≤ l.foldr max a := by
  induction l with
  | nil => cases hx
  | cons y ys ih =>
    rcases List.mem_cons.mp hx with h | h
    · rw [h]; exact le_max_left _ _
    · exact (ih h).trans (le_max_right y _)

/-- A `foldr max` is bounded by any common upper bound. -/
theorem foldr_max_le (l : List ℚ) (a c : ℚ) (ha : a ≤ c)
    (h : ∀ x ∈ l, x ≤ c) : l.foldr max a ≤ c := by
  induction l with
  | nil => exact ha
  | cons y ys ih =>
    exact max_le (h y (List.mem_cons_self y ys))
      (ih fun x hx => h x (List.mem_cons_of_mem y hx))

/-- The normalization constant is invariant under a whole-semitone pitch
shift: the raw bins are merely permuted. -/
theorem maxBin_map_shift (notes : List Note) (k : ℕ)
    (hm : ∀ n ∈ notes, 0 ≤ n.midi) :
    maxBin (notes.map fun n => { n with midi := n.midi + (k : ℚ) })
      = maxBin notes := by
  unfold maxBin
  apply le_antisymm
  · refine foldr_max_le _ _ _ (init_le_foldr_max _ _) ?_
    intro x hx
    obtain ⟨b, hbmem, hbeq⟩ := List.mem_map.mp hx
    have hb := List.mem_range.mp hbmem
    rw [← hbeq, rawBin_shift notes k hm (b : ℤ) (Int.ofNat_nonneg b)
      (by exact_mod_cast hb)]
    apply mem_le_foldr_max
    apply List.mem_map.mpr
    refine ⟨(((b : ℤ) - 10 * k) % 120).toNat, List.mem_range.mpr (by omega), ?_⟩
    congr 1
    omega
  · refine foldr_max_le _ _ _ (init_le_foldr_max _ _) ?_
    intro x hx
    obtain ⟨b, hbmem, hbeq⟩ := List.mem_map.mp hx
    have hb := List.mem_range.mp hbmem
    have hshift := rawBin_shift notes k hm ((((b : ℤ) + 10 * k) % 120))
      (Int.emod_nonneg _ (by norm_num)) (Int.emod_lt_of_pos _ (by norm_num))
    have hback : (((b : ℤ) + 10 * k) % 120 - 10 * k) % 120 = (b : ℤ) := by
      omega
    rw [hback] at hshift
    rw [← hbeq, ← hshift]
    apply mem_le_foldr_max
    apply List.mem_map.mpr
    refine ⟨((((b : ℤ) + 10 * k) % 120)).toNat, List.mem_range.mpr (by omega), ?_⟩
    congr 1

/-- `getD` of the 120-entry histogram-shaped lists. -/
theorem getD_range120_map (f : ℕ → ℚ) (b : ℕ) (hb : b < 120) :
    ((List.range 120).map f).getD b 0 = f b := by
  rw [List.getD_eq_getElem ((List.range 120).map f) 0 (by simpa using hb)]
  simp

/-- Claim C4 (corrected, amended part): the microtonal histogram itself is
shift-covariant — adding a whole number `k` of semitones to every
(nonnegative) pitch rotates the 120-bin histogram by `10·k` bins mod 120.
(The full root-rotation claim about `detectMaqam` fails, see
the C4 counterexample.) -/
theorem C4_histogram_shift_covariant (notes : List Note) (k : ℕ)
    (hm : ∀ n ∈ notes, 0 ≤ n.midi) (b : ℕ) (hb : b < 120) :
    (buildMicrotonalHistogram
        (notes.map fun n => { n with midi := n.midi + (k : ℚ) })).getD b 0
      = (buildMicrotonalHistogram notes).getD
          (((b : ℤ) - 10 * k) % 120).toNat 0 := by
  unfold buildMicrotonalHistogram
  rw [getD_range120_map _ b hb, getD_range120_map _ _ (by omega)]
  rw [maxBin_map_shift notes k hm,
    rawBin_shift notes k hm (b : ℤ) (Int.ofNat_nonneg b) (by exact_mod_cast hb)]
  congr 2
  omega

/-- Witness for the C4 histogram shift-covariance at `c4Notes`, `k = 1`,
bin 7. -/
theorem C4_histogram_shift_witness :
    (∀ n ∈ c4Notes, (0 : ℚ) ≤ n.midi) ∧
    (buildMicrotonalHistogram
        (c4Notes.map fun n => { n with midi := n.midi + ((1 : ℕ) : ℚ) })).getD 7 0
      = (buildMicrotonalHistogram c4Notes).getD
          (((((7 : ℕ) : ℤ) - 10 * (1 : ℕ)) % 120).toNat) 0 :=
  ⟨by with_unfolding_all decide,
    C4_histogram_shift_covariant c4Notes 1 (by with_unfolding_all decide) 7
      (by decide)⟩

/-- Claim C4 (corrected): the counterexample.  Shifting every pitch of the
two-pitch-class melody `c4Notes` up by one semitone changes the detected
template from "hijaz" to "kurd" (the duration-weighted mean pitch class is
averaged after per-note octave reduction and does not rotate, so the
dominant-region seyir bonus changes), with a different total score. -/
theorem C4_counterexample :
    c4sNotes = c4Notes.map (fun n => { n with midi := n.midi + 1 }) ∧
    detectMaqam c4Notes none = Except.ok (some c4Result) ∧
    detectMaqam c4sNotes none = Except.ok (some c4sResult) ∧
    c4Result.key = "hijaz" ∧ c4Result.root = 10 ∧
    c4sResult.root = (c4Result.root + 1) % 12 ∧
    c4sResult.key ≠ c4Result.key ∧
    c4sResult.confidence ≠ c4Result.confidence := by
  exact ⟨rfl, c4Detect_eq, c4sDetect_eq, rfl, rfl, by decide, by decide,
    by with_unfolding_all decide⟩

end MaqamTab

